import Mathlib

/-!
# File Tracker System: forwarding workflow

A shallow embedding of the Express/Mongoose back end
(`backend/routes/forwards.js`, `backend/routes/files.js`,
`backend/routes/movements.js` and the schemas under `backend/data/`).

Conventions of the embedding:

* a collection is a list of documents in insertion order; `findOne` is the
  first match, `findById` the first document carrying the id;
* `new Date()` is the parameter `now` of a request, `_id`s come from the
  counter `Store.nextId`;
* a request body is the record of the JSON keys the routes and schemas
  read; a key is absent (`none`) or carries a string (a boolean for
  `isUrgent`, a time for the date paths); keys outside the schema are
  dropped by Mongoose (strict mode) and are not represented, nor is `_id`;
* an exception inside a route's `try` block is the answer
  `500 Server error`, with the writes made before it kept;
* e-mail dispatch happens inside its own `try/catch` and touches neither
  the stores nor the answer, so it is left out.
-/

namespace FileTracker

/-! ## Documents -/

/-- A user document. The schema file `data/users.js` is not among the
sources; these are the fields the routes read. -/
structure User where
  _id : Nat
  name : String
  email : String
  department : String
  role : String
deriving DecidableEq, Repr

/-- A document of `fileSchema` (`data/files.js`). -/
structure File where
  _id : Nat
  code : String
  title : String
  department : String
  status : String
  priority : String
  type : String
  requisitioner : Option String
  remarks : Option String
  datetime : Option String
  currentHolder : Option String
  createdBy : String
  createdAt : Nat
deriving DecidableEq, Repr

/-- A document of `forwardSchema` (`data/forwardModel.js`). -/
structure Forward where
  _id : Nat
  fileCode : String
  recipientDepartment : String
  recipientName : String
  sentBy : String
  sentThrough : Option String
  priority : String
  status : String
  remarks : Option String
  isUrgent : Bool
  sentAt : Nat
  receivedAt : Option Nat
  completedAt : Option Nat
  adminApprovedBy : Option String
  adminApprovalDate : Option Nat
  adminRemarks : Option String
  distributedTo : Option String
  distributionDate : Option Nat
  originalRecipientName : Option String
  originalRecipientDepartment : Option String
deriving DecidableEq, Repr

/-- A document of `movementSchema` (`data/movementModel.js`). -/
structure Movement where
  _id : Nat
  fileCode : String
  user : String
  action : String
  remarks : Option String
  icon : Option String
  sentBy : Option String
  sentThrough : Option String
  recipientName : Option String
  datetime : Nat
deriving DecidableEq, Repr

/-- A document of `notificationSchema` (`data/notificationModel.js`), with
the paths `createNotification` fills. -/
structure Notification where
  _id : Nat
  recipientId : Nat
  recipientName : String
  recipientEmail : String
  title : String
  message : String
  type : String
  fileCode : Option String
  forwardId : Option Nat
  isRead : Bool
  isUrgent : Bool
  icon : String
  priority : String
  createdAt : Nat
deriving DecidableEq, Repr

/-- The database: one list per collection and the id counter. -/
structure Store where
  users : List User
  files : List File
  forwards : List Forward
  movements : List Movement
  notifications : List Notification
  nextId : Nat
deriving DecidableEq, Repr

/-! ## Requests and answers -/

/-- An object with the paths of `forwardSchema`, each present or absent:
the shape of `forwardData` and `updateData` in `forwards.js`. -/
structure ForwardFields where
  fileCode : Option String := none
  recipientDepartment : Option String := none
  recipientName : Option String := none
  sentBy : Option String := none
  sentThrough : Option String := none
  priority : Option String := none
  status : Option String := none
  remarks : Option String := none
  isUrgent : Option Bool := none
  sentAt : Option Nat := none
  receivedAt : Option Nat := none
  completedAt : Option Nat := none
  adminApprovedBy : Option String := none
  adminApprovalDate : Option Nat := none
  adminRemarks : Option String := none
  distributedTo : Option String := none
  distributionDate : Option Nat := none
  originalRecipientName : Option String := none
  originalRecipientDepartment : Option String := none
deriving DecidableEq, Repr

/-- The body of a request to the forwards API: the schema paths plus the
two keys read by the reject and complete routes. -/
structure Body extends ForwardFields where
  rejectionReason : Option String := none
  completionRemarks : Option String := none
deriving DecidableEq, Repr

/-- What a route answers: `res.status(n).json(...)`. -/
inductive Response (α : Type) where
  | success (status : Nat) (data : Option α) (message : Option String)
  | failure (status : Nat) (error : String)
  | invalid (errors : List String)
deriving DecidableEq, Repr

/-- HTTP status of an answer; validation errors are sent with 400. -/
def Response.status {α : Type} : Response α → Nat
  | .success n _ _ => n
  | .failure n _ => n
  | .invalid _ => 400

/-- The `success` flag of the JSON answer. -/
def Response.isSuccess {α : Type} : Response α → Bool
  | .success _ _ _ => true
  | _ => false

/-- The `data` member of the JSON answer. -/
def Response.data {α : Type} : Response α → Option α
  | .success _ d _ => d
  | _ => none

/-! ## JavaScript and library helpers -/

/-- The largest time value of a JavaScript `Date`, in milliseconds since
the epoch. -/
def maxDate : Nat := 8640000000000000

/-- Whether mongoose casts a number given for a `Date` path: `new Date(n)`
is a valid date exactly when `n` is a time value, and an invalid date is a
cast error. An absent path casts. -/
def castsToDate (d : Option Nat) : Bool :=
  match d with
  | some n => decide (n ≤ maxDate)
  | none => true

/-- Whether the five `Date` paths of `forwardSchema` cast. -/
def ForwardFields.datesCast (d : ForwardFields) : Bool :=
  castsToDate d.sentAt && castsToDate d.receivedAt && castsToDate d.completedAt
    && castsToDate d.adminApprovalDate && castsToDate d.distributionDate

/-- The value `a || d` for a string `a` that may be undefined: the empty
string is falsy. -/
def orDefault (a : Option String) (d : String) : String :=
  match a with
  | some v => if v = "" then d else v
  | none => d

/-- The validator `notEmpty()` of express-validator: the key is present
and not the empty string. -/
def notEmpty (a : Option String) : Bool :=
  match a with
  | some v => v != ""
  | none => false

/-- One entry of a validation chain: the message when the check fails. -/
def check (ok : Bool) (msg : String) : List String :=
  if ok then [] else [msg]

/-- The validator `optional().isIn(values)`. -/
def optionalIsIn (a : Option String) (values : List String) : Bool :=
  match a with
  | some v => values.contains v
  | none => true

/-- The validator `optional().notEmpty()`. -/
def optionalNotEmpty (a : Option String) : Bool :=
  match a with
  | some v => v != ""
  | none => true

/-- The priority enum shared by the schemas and the validators. -/
def priorities : List String := ["Normal", "Urgent", "Important", "Critical"]

/-- The status enum of `forwardSchema`. -/
def forwardStatuses : List String :=
  ["Pending Admin Review", "Admin Approved", "Distributed to Employee", "In Transit",
   "Received", "Completed", "Rejected"]

/-- The status enum of `fileSchema`. -/
def fileStatuses : List String := ["Created", "Received", "On Hold", "Released", "Complete"]

/-- The type enum of `notificationSchema`. -/
def notificationTypes : List String :=
  ["file_created", "file_received", "file_forwarded", "file_completed", "file_urgent",
   "system", "user_management", "forward_status"]

/-- The priority enum of `notificationSchema`. -/
def notificationPriorities : List String := ["low", "normal", "high", "urgent"]

/-- Replace the first element satisfying `p` by its image under `g`: an
update of the one document a query found. -/
def updateFirst {α : Type} (p : α → Bool) (g : α → α) : List α → List α
  | [] => []
  | x :: xs => if p x then g x :: xs else x :: updateFirst p g xs

/-- Remove the first element satisfying `p`. -/
def deleteFirst {α : Type} (p : α → Bool) : List α → List α
  | [] => []
  | x :: xs => if p x then xs else x :: deleteFirst p xs

/-! ## Model methods -/

/-- The query `Forward.findById(id)`. -/
def Forward.findById (fs : List Forward) (id : Nat) : Option Forward :=
  fs.find? (fun f => f._id == id)

/-- The query `File.findOne({ code })`. -/
def File.findOneByCode (fs : List File) (code : String) : Option File :=
  fs.find? (fun f => f.code == code)

/-- The query `File.findById(id)`. -/
def File.findById (fs : List File) (id : Nat) : Option File :=
  fs.find? (fun f => f._id == id)

/-- The query `User.findById(id)`. -/
def User.findById (us : List User) (id : Nat) : Option User :=
  us.find? (fun u => u._id == id)

/-- The query `User.findOne({ name })`. -/
def User.findOneByName (us : List User) (name : String) : Option User :=
  us.find? (fun u => u.name == name)

/-- The query `User.findOne({ name, department })`. -/
def User.findOneByNameDept (us : List User) (name department : String) : Option User :=
  us.find? (fun u => u.name == name && u.department == department)

/-- The query `User.findOne` with the department and a role among admin
and superadmin: the department admin of Create Forward. -/
def User.findDepartmentAdmin (us : List User) (department : String) : Option User :=
  us.find? (fun u => u.department == department && (u.role == "admin" || u.role == "superadmin"))

/-- The `$set` of `findByIdAndUpdate`: every path present in the update
replaces the stored value; no validator runs. The dates of the update are
taken to cast: the routes give the server's clock for them, and the one
route that gives the body's dates, `PUT /api/forwards/:id`, checks them
before. -/
def Forward.applyUpdate (f : Forward) (u : ForwardFields) : Forward :=
  { f with
    fileCode := u.fileCode.getD f.fileCode
    recipientDepartment := u.recipientDepartment.getD f.recipientDepartment
    recipientName := u.recipientName.getD f.recipientName
    sentBy := u.sentBy.getD f.sentBy
    sentThrough := u.sentThrough.orElse (fun _ => f.sentThrough)
    priority := u.priority.getD f.priority
    status := u.status.getD f.status
    remarks := u.remarks.orElse (fun _ => f.remarks)
    isUrgent := u.isUrgent.getD f.isUrgent
    sentAt := u.sentAt.getD f.sentAt
    receivedAt := u.receivedAt.orElse (fun _ => f.receivedAt)
    completedAt := u.completedAt.orElse (fun _ => f.completedAt)
    adminApprovedBy := u.adminApprovedBy.orElse (fun _ => f.adminApprovedBy)
    adminApprovalDate := u.adminApprovalDate.orElse (fun _ => f.adminApprovalDate)
    adminRemarks := u.adminRemarks.orElse (fun _ => f.adminRemarks)
    distributedTo := u.distributedTo.orElse (fun _ => f.distributedTo)
    distributionDate := u.distributionDate.orElse (fun _ => f.distributionDate)
    originalRecipientName := u.originalRecipientName.orElse (fun _ => f.originalRecipientName)
    originalRecipientDepartment :=
      u.originalRecipientDepartment.orElse (fun _ => f.originalRecipientDepartment) }

/-- The call `Forward.findByIdAndUpdate(id, update, { new: true })`: the
collection afterwards and the updated document. -/
def Forward.findByIdAndUpdate (fs : List Forward) (id : Nat) (u : ForwardFields) :
    List Forward × Option Forward :=
  (updateFirst (fun f => f._id == id) (fun f => f.applyUpdate u) fs,
   (Forward.findById fs id).map (fun f => f.applyUpdate u))

/-- The document `Forward.create(data)` builds, with the schema defaults,
or nothing when a schema validator (required paths, enums) rejects it or
a date of the data does not cast. -/
def Forward.build (id now : Nat) (d : ForwardFields) : Option Forward :=
  let doc : Forward :=
    { _id := id
      fileCode := d.fileCode.getD ""
      recipientDepartment := d.recipientDepartment.getD ""
      recipientName := d.recipientName.getD ""
      sentBy := d.sentBy.getD ""
      sentThrough := d.sentThrough
      priority := d.priority.getD "Normal"
      status := d.status.getD "Pending Admin Review"
      remarks := d.remarks
      isUrgent := d.isUrgent.getD false
      sentAt := d.sentAt.getD now
      receivedAt := d.receivedAt
      completedAt := d.completedAt
      adminApprovedBy := d.adminApprovedBy
      adminApprovalDate := d.adminApprovalDate
      adminRemarks := d.adminRemarks
      distributedTo := d.distributedTo
      distributionDate := d.distributionDate
      originalRecipientName := d.originalRecipientName
      originalRecipientDepartment := d.originalRecipientDepartment }
  if doc.fileCode != "" && doc.recipientDepartment != "" && doc.recipientName != ""
      && doc.sentBy != "" && priorities.contains doc.priority
      && forwardStatuses.contains doc.status && d.datesCast
  then some doc else none

/-- The object handed to `Movement.create`. -/
structure MovementData where
  fileCode : String
  user : String
  action : String
  remarks : Option String
  icon : Option String
  sentBy : Option String
  sentThrough : Option String
  recipientName : Option String
  datetime : Nat
deriving DecidableEq, Repr

/-- The call `Movement.create(data)`: the store with the new record, or
nothing when a required path (fileCode, user, action) is empty. -/
def Movement.create (s : Store) (d : MovementData) : Option Store :=
  if d.fileCode != "" && d.user != "" && d.action != "" then
    some { s with
      movements := s.movements ++
        [{ _id := s.nextId, fileCode := d.fileCode, user := d.user, action := d.action,
           remarks := d.remarks, icon := d.icon, sentBy := d.sentBy,
           sentThrough := d.sentThrough, recipientName := d.recipientName,
           datetime := d.datetime }]
      nextId := s.nextId + 1 }
  else none

/-- The helper `createNotification` of `forwards.js`: looks the recipient
up, creates the notification, and swallows every error (unknown
recipient, schema validation). -/
def createNotification (s : Store) (now : Nat) (recipientId : Nat) (title message type : String)
    (fileCode : String) (forwardId : Nat) (isUrgent : Bool) (priority : String)
    (icon : String) : Store :=
  match User.findById s.users recipientId with
  | none => s
  | some recipient =>
    if recipient.name != "" && recipient.email != "" && title != "" && message != ""
        && notificationTypes.contains type && notificationPriorities.contains priority
    then
      { s with
        notifications := s.notifications ++
          [{ _id := s.nextId, recipientId := recipientId, recipientName := recipient.name,
             recipientEmail := recipient.email, title := title, message := message,
             type := type, fileCode := some fileCode, forwardId := some forwardId,
             isRead := false, isUrgent := isUrgent, icon := icon, priority := priority,
             createdAt := now }]
        nextId := s.nextId + 1 }
    else s

/-- The validation `file.save()` runs on a document whose status was just
assigned an enum value: every required path (code, title, department,
type, createdBy) is non-empty and the required path `type` holds an enum
value. -/
def File.valid (f : File) : Bool :=
  f.code != "" && f.title != "" && f.department != "" && f.createdBy != ""
    && ["Physical", "Digital"].contains f.type && fileStatuses.contains f.status

/-- The sequence `findOne({ code })`, `if (file)` assign and
`file.save()` of the approve and receive routes: without such a file
nothing is written; a failed validation throws. -/
def File.assignAndSave (s : Store) (code : String) (assign : File → File) : Option Store :=
  match File.findOneByCode s.files code with
  | none => some s
  | some file =>
    if (assign file).valid then
      some { s with files := updateFirst (fun f => f.code == code) assign s.files }
    else none

/-- The guarded call of `createNotification` for a user looked up by a
query: `if (user) await createNotification(user._id, ...)`. -/
def notifyUser (s : Store) (now : Nat) (recipient : Option User) (title message : String)
    (forward : Forward) (icon : String) : Store :=
  match recipient with
  | none => s
  | some user =>
    createNotification s now user._id title message "forward_status" forward.fileCode
      forward._id forward.isUrgent forward.priority icon

/-- The lookup `if (forward.adminApprovedBy) User.findOne({ name })` of the
receive and complete routes. -/
def findApprover (s : Store) (forward : Forward) : Option User :=
  match forward.adminApprovedBy with
  | none => none
  | some approver => if approver = "" then none else User.findOneByName s.users approver

/-! ## Routes of `forwards.js` -/

/-- The validation chain of `POST /api/forwards`. The two `isString`
checks (sentThrough, remarks) hold of every body of the embedding. -/
def createForwardErrors (b : Body) : List String :=
  check (notEmpty b.fileCode) "File code is required"
    ++ check (notEmpty b.recipientDepartment) "Recipient department is required"
    ++ check (notEmpty b.recipientName) "Recipient name is required"
    ++ check (optionalIsIn b.priority priorities) "Invalid priority"

/-- The object `forwardData` of `POST /api/forwards`: the body, then the
keys the route overrides. -/
def createForwardData (b : Body) (actor departmentAdmin : User) : ForwardFields :=
  { b.toForwardFields with
    sentBy := some actor.name
    isUrgent := some (b.priority == some "Urgent" || b.priority == some "Critical")
    status := some "Pending Admin Review"
    originalRecipientName := b.recipientName
    originalRecipientDepartment := b.recipientDepartment
    recipientName := some departmentAdmin.name
    recipientDepartment := b.recipientDepartment }

/-- The movement `POST /api/forwards` records. -/
def createForwardMovement (b : Body) (actor departmentAdmin : User) (now : Nat) : MovementData :=
  { fileCode := b.fileCode.getD "", user := actor.name, action := "Forwarded to Admin"
    remarks := some (orDefault b.remarks
      ("Forwarded to " ++ b.recipientDepartment.getD "" ++ " Admin for review"))
    icon := some "📤", sentBy := some actor.name, sentThrough := b.sentThrough
    recipientName := some departmentAdmin.name, datetime := now }

/-- The route `POST /api/forwards` (Create Forward). -/
def createForward (s : Store) (actor : User) (b : Body) (now : Nat) :
    Store × Response Forward :=
  if createForwardErrors b ≠ [] then (s, .invalid (createForwardErrors b)) else
  match File.findOneByCode s.files (b.fileCode.getD "") with
  | none => (s, .failure 404 "File not found")
  | some _ =>
    match User.findDepartmentAdmin s.users (b.recipientDepartment.getD "") with
    | none =>
      (s, .failure 400 ("No admin found for department: " ++ b.recipientDepartment.getD ""))
    | some departmentAdmin =>
      match Forward.build s.nextId now (createForwardData b actor departmentAdmin) with
      | none => (s, .failure 500 "Server error")
      | some newForward =>
        match Movement.create
            { s with forwards := s.forwards ++ [newForward], nextId := s.nextId + 1 }
            (createForwardMovement b actor departmentAdmin now) with
        | none =>
          ({ s with forwards := s.forwards ++ [newForward], nextId := s.nextId + 1 },
           .failure 500 "Server error")
        | some s2 =>
          (createNotification s2 now departmentAdmin._id "New Forward Request"
              ("You have a new forward request from " ++ actor.name ++ " for file "
                ++ b.fileCode.getD "" ++ ".")
              "forward" (b.fileCode.getD "") newForward._id newForward.isUrgent
              newForward.priority "📢",
           .success 201 (some newForward)
            (some ("File forwarded to " ++ b.recipientDepartment.getD ""
              ++ " Admin for review")))

/-- The department check shared by the approve and reject routes: true
when the actor is refused. -/
def notDepartmentAdmin (actor : User) (department : String) : Bool :=
  actor.role != "superadmin" && (actor.role != "admin" || actor.department != department)

/-- The object `updateData` of the approve route. -/
def approveUpdateData (actor : User) (b : Body) (now : Nat) : ForwardFields :=
  { status := some "Distributed to Employee"
    adminApprovedBy := some actor.name
    adminApprovalDate := some now
    adminRemarks := some (orDefault b.adminRemarks
      ("Approved and distributed to " ++ b.distributedTo.getD ""))
    distributedTo := some (b.distributedTo.getD "")
    distributionDate := some now }

/-- The assignments the approve route makes on the file. -/
def approveAssign (forward : Forward) (b : Body) (f : File) : File :=
  { f with currentHolder := some (b.distributedTo.getD ""), status := "Released",
           department := forward.recipientDepartment }

/-- The movement the approve route records. -/
def approveMovement (forward : Forward) (actor : User) (b : Body) (now : Nat) : MovementData :=
  { fileCode := forward.fileCode, user := actor.name, action := "Admin Approved & Distributed"
    remarks := some ("Admin " ++ actor.name ++ " approved and distributed to "
      ++ b.distributedTo.getD "")
    icon := some "✅", sentBy := some actor.name, sentThrough := some "Admin Distribution"
    recipientName := some (b.distributedTo.getD ""), datetime := now }

/-- The two notifications of the approve route: to the employee, then to
the original sender. -/
def approveNotify (s : Store) (forward : Forward) (actor : User) (b : Body) (now : Nat) :
    Store :=
  let s1 := notifyUser s now
    (User.findOneByNameDept s.users (b.distributedTo.getD "") forward.recipientDepartment)
    "File Distributed to You"
    ("Admin " ++ actor.name ++ " has distributed file " ++ forward.fileCode ++ " to you.")
    forward "📋"
  notifyUser s1 now (User.findOneByName s1.users forward.sentBy)
    "Forward Approved & Distributed"
    ("Your forward request for file " ++ forward.fileCode
      ++ " has been approved and distributed to " ++ b.distributedTo.getD "" ++ ".")
    forward "✅"

/-- The route `PATCH /api/forwards/:id/approve` (Admin Approve and
Distribute). -/
def approveForward (s : Store) (actor : User) (id : Nat) (b : Body) (now : Nat) :
    Store × Response Forward :=
  if check (notEmpty b.distributedTo) "Employee name is required" ≠ [] then
    (s, .invalid (check (notEmpty b.distributedTo) "Employee name is required"))
  else
  match Forward.findById s.forwards id with
  | none => (s, .failure 404 "Forward not found")
  | some forward =>
    if notDepartmentAdmin actor forward.recipientDepartment then
      (s, .failure 403 "Not authorized to approve forwards for this department")
    else if forward.status != "Pending Admin Review" then
      (s, .failure 400 "Forward is not pending admin review")
    else
      let updated := Forward.findByIdAndUpdate s.forwards id (approveUpdateData actor b now)
      match File.assignAndSave { s with forwards := updated.1 } forward.fileCode
          (approveAssign forward b) with
      | none => ({ s with forwards := updated.1 }, .failure 500 "Server error")
      | some s2 =>
        match Movement.create s2 (approveMovement forward actor b now) with
        | none => (s2, .failure 500 "Server error")
        | some s3 =>
          (approveNotify s3 forward actor b now,
           .success 200 updated.2
            (some ("File approved and distributed to " ++ b.distributedTo.getD "")))

/-- The object `updateData` of the reject route. -/
def rejectUpdateData (actor : User) (b : Body) (now : Nat) : ForwardFields :=
  { status := some "Rejected"
    adminApprovedBy := some actor.name
    adminApprovalDate := some now
    adminRemarks := some ("Rejected: " ++ b.rejectionReason.getD "") }

/-- The movement the reject route records. -/
def rejectMovement (forward : Forward) (actor : User) (b : Body) (now : Nat) : MovementData :=
  { fileCode := forward.fileCode, user := actor.name, action := "Admin Rejected"
    remarks := some ("Admin " ++ actor.name ++ " rejected: " ++ b.rejectionReason.getD "")
    icon := some "❌", sentBy := some actor.name, sentThrough := some "Admin Review"
    recipientName := some forward.sentBy, datetime := now }

/-- The route `PATCH /api/forwards/:id/reject` (Admin Reject). -/
def rejectForward (s : Store) (actor : User) (id : Nat) (b : Body) (now : Nat) :
    Store × Response Forward :=
  if check (notEmpty b.rejectionReason) "Rejection reason is required" ≠ [] then
    (s, .invalid (check (notEmpty b.rejectionReason) "Rejection reason is required"))
  else
  match Forward.findById s.forwards id with
  | none => (s, .failure 404 "Forward not found")
  | some forward =>
    if notDepartmentAdmin actor forward.recipientDepartment then
      (s, .failure 403 "Not authorized to reject forwards for this department")
    else if forward.status != "Pending Admin Review" then
      (s, .failure 400 "Forward is not pending admin review")
    else
      let updated := Forward.findByIdAndUpdate s.forwards id (rejectUpdateData actor b now)
      match Movement.create { s with forwards := updated.1 }
          (rejectMovement forward actor b now) with
      | none => ({ s with forwards := updated.1 }, .failure 500 "Server error")
      | some s2 =>
        (notifyUser s2 now (User.findOneByName s2.users forward.sentBy) "Forward Rejected"
            ("Your forward request for file " ++ forward.fileCode
              ++ " has been rejected by " ++ actor.name ++ ". Reason: "
              ++ b.rejectionReason.getD "")
            forward "❌",
         .success 200 updated.2 (some "Forward rejected successfully"))

/-- The validation chain of `PUT /api/forwards/:id`. The two `isString`
checks (sentThrough, remarks) hold of every body of the embedding. -/
def updateForwardErrors (b : Body) : List String :=
  check (optionalNotEmpty b.recipientDepartment) "Recipient department cannot be empty"
    ++ check (optionalNotEmpty b.recipientName) "Recipient name cannot be empty"
    ++ check (optionalIsIn b.priority priorities) "Invalid priority"

/-- The object `updateData` of `PUT /api/forwards/:id`: the body, then
the urgency flag computed from the priority of the body. -/
def updateForwardData (b : Body) : ForwardFields :=
  { b.toForwardFields with
    isUrgent := some (b.priority == some "Urgent" || b.priority == some "Critical") }

/-- The route `PUT /api/forwards/:id` (Update Forward). A date of the
body that does not cast makes `findByIdAndUpdate` throw before it
writes. -/
def updateForward (s : Store) (id : Nat) (b : Body) : Store × Response Forward :=
  if updateForwardErrors b ≠ [] then (s, .invalid (updateForwardErrors b)) else
  match Forward.findById s.forwards id with
  | none => (s, .failure 404 "Forward not found")
  | some _ =>
    if !(updateForwardData b).datesCast then (s, .failure 500 "Server error") else
    let updated := Forward.findByIdAndUpdate s.forwards id (updateForwardData b)
    ({ s with forwards := updated.1 }, .success 200 updated.2 none)

/-- The object `updateData` of `PATCH /api/forwards/:id/status`. -/
def statusUpdateData (status : String) (now : Nat) : ForwardFields :=
  if status = "Received" then { status := some status, receivedAt := some now }
  else if status = "Completed" then { status := some status, completedAt := some now }
  else { status := some status }

/-- The route `PATCH /api/forwards/:id/status` (Update forward status). -/
def updateForwardStatus (s : Store) (id : Nat) (b : Body) (now : Nat) :
    Store × Response Forward :=
  if check (forwardStatuses.contains (b.status.getD "")) "Invalid status" ≠ [] then
    (s, .invalid (check (forwardStatuses.contains (b.status.getD "")) "Invalid status"))
  else
  match Forward.findById s.forwards id with
  | none => (s, .failure 404 "Forward not found")
  | some _ =>
    let updated := Forward.findByIdAndUpdate s.forwards id
      (statusUpdateData (b.status.getD "") now)
    ({ s with forwards := updated.1 }, .success 200 updated.2 none)

/-- The route `DELETE /api/forwards/:id`. -/
def deleteForward (s : Store) (id : Nat) : Store × Response Forward :=
  match Forward.findById s.forwards id with
  | none => (s, .failure 404 "Forward not found")
  | some _ =>
    ({ s with forwards := deleteFirst (fun f => f._id == id) s.forwards },
     .success 200 none (some "Forward deleted successfully"))

/-- The assignments the receive route makes on the file. The third one,
`file.assignedTo = ...`, names a path `fileSchema` does not have, so
nothing of it is saved. -/
def receiveAssign (actor : User) (f : File) : File :=
  { f with status := "Received", currentHolder := some actor.name }

/-- The movement the receive route records. -/
def receiveMovement (forward : Forward) (actor : User) (now : Nat) : MovementData :=
  { fileCode := forward.fileCode, user := actor.name, action := "File Received"
    remarks := some ("File received by " ++ actor.name)
    icon := some "📥", sentBy := some "System", sentThrough := some "Direct"
    recipientName := some actor.name, datetime := now }

/-- The route `PATCH /api/forwards/:id/receive` (Employee Receive). -/
def receiveForward (s : Store) (actor : User) (id : Nat) (now : Nat) :
    Store × Response Forward :=
  match Forward.findById s.forwards id with
  | none => (s, .failure 404 "Forward not found")
  | some forward =>
    if forward.distributedTo != some actor.name then
      (s, .failure 403 "You are not authorized to receive this file")
    else if forward.status != "Distributed to Employee" then
      (s, .failure 400 "File is not ready to be received")
    else
      let updated := Forward.findByIdAndUpdate s.forwards id
        { status := some "Received", receivedAt := some now }
      match File.assignAndSave { s with forwards := updated.1 } forward.fileCode
          (receiveAssign actor) with
      | none => ({ s with forwards := updated.1 }, .failure 500 "Server error")
      | some s2 =>
        match Movement.create s2 (receiveMovement forward actor now) with
        | none => (s2, .failure 500 "Server error")
        | some s3 =>
          (notifyUser s3 now (findApprover s3 forward) "File Received by Employee"
              ("File " ++ forward.fileCode ++ " has been received by " ++ actor.name ++ ".")
              forward "📥",
           .success 200 updated.2 (some "File marked as received successfully"))

/-- The movement the complete route records. -/
def completeMovement (forward : Forward) (actor : User) (b : Body) (now : Nat) : MovementData :=
  { fileCode := forward.fileCode, user := actor.name, action := "File Completed"
    remarks := some (orDefault b.completionRemarks ("File completed by " ++ actor.name))
    icon := some "✅", sentBy := some actor.name, sentThrough := some "Direct"
    recipientName := some actor.name, datetime := now }

/-- The two notifications of the complete route: to the approving admin,
then to the original sender. -/
def completeNotify (s : Store) (forward : Forward) (actor : User) (now : Nat) : Store :=
  let s1 := notifyUser s now (findApprover s forward) "File Completed by Employee"
    ("File " ++ forward.fileCode ++ " has been completed by " ++ actor.name ++ ".")
    forward "✅"
  notifyUser s1 now (User.findOneByName s1.users forward.sentBy) "Forward Completed"
    ("Your forward request for file " ++ forward.fileCode ++ " has been completed by "
      ++ actor.name ++ ".")
    forward "✅"

/-- The route `PATCH /api/forwards/:id/complete` (Employee Complete). Its
only validator, `completionRemarks` optional and a string, holds of every
body of the embedding. -/
def completeForward (s : Store) (actor : User) (id : Nat) (b : Body) (now : Nat) :
    Store × Response Forward :=
  match Forward.findById s.forwards id with
  | none => (s, .failure 404 "Forward not found")
  | some forward =>
    if forward.distributedTo != some actor.name then
      (s, .failure 403 "You are not authorized to complete this file")
    else if forward.status != "Received" then
      (s, .failure 400 "File must be received before it can be completed")
    else
      let updated := Forward.findByIdAndUpdate s.forwards id
        { status := some "Completed", completedAt := some now }
      match Movement.create { s with forwards := updated.1 }
          (completeMovement forward actor b now) with
      | none => ({ s with forwards := updated.1 }, .failure 500 "Server error")
      | some s2 =>
        (completeNotify s2 forward actor now,
         .success 200 updated.2 (some "File marked as completed successfully"))

/-- A request to one of the writing routes of the forwards API (the GET
routes only read). -/
inductive ForwardOp where
  | create (b : Body)
  | approve (id : Nat) (b : Body)
  | reject (id : Nat) (b : Body)
  | update (id : Nat) (b : Body)
  | setStatus (id : Nat) (b : Body)
  | delete (id : Nat)
  | receive (id : Nat)
  | complete (id : Nat) (b : Body)
deriving DecidableEq, Repr

/-- Dispatch of a request of the forwards API to its route. -/
def forwardsApi (s : Store) (actor : User) (now : Nat) : ForwardOp → Store × Response Forward
  | .create b => createForward s actor b now
  | .approve id b => approveForward s actor id b now
  | .reject id b => rejectForward s actor id b now
  | .update id b => updateForward s id b
  | .setStatus id b => updateForwardStatus s id b now
  | .delete id => deleteForward s id
  | .receive id => receiveForward s actor id now
  | .complete id b => completeForward s actor id b now

/-- True for the five workflow transitions: Create Forward, Admin
Approve and Distribute, Admin Reject, Employee Receive and Employee
Complete. -/
def ForwardOp.isTransition : ForwardOp → Bool
  | .create _ => true
  | .approve _ _ => true
  | .reject _ _ => true
  | .receive _ => true
  | .complete _ _ => true
  | _ => false

/-- True for the two routes that write whatever status the body carries:
`PUT /:id` and `PATCH /:id/status`. -/
def ForwardOp.isGenericUpdate : ForwardOp → Bool
  | .update _ _ => true
  | .setStatus _ _ => true
  | _ => false

/-! ## Routes of `movements.js` and `files.js` -/

/-- A JSON value in a place where the routes meet more than a string: a
string, a boolean, a number or `null`. -/
inductive JsonValue where
  | null
  | bool (b : Bool)
  | num (n : Int)
  | str (s : String)
deriving DecidableEq, Repr

/-- JavaScript truthiness of a value that may be undefined. -/
def truthy : Option JsonValue → Bool
  | none => false
  | some .null => false
  | some (.bool b) => b
  | some (.num n) => n != 0
  | some (.str s) => s != ""

/-- The validator `isBoolean()` of express-validator: the value, turned
into a string, is one of true, false, 1 and 0. -/
def isBooleanValue : Option JsonValue → Bool
  | none => false
  | some .null => false
  | some (.bool _) => true
  | some (.num n) => n == 0 || n == 1
  | some (.str s) => ["true", "false", "1", "0"].contains s

/-- The validator `optional().isString()`: only an undefined key is
skipped, a `null` is checked and is not a string. -/
def optionalIsString : Option JsonValue → Bool
  | none => true
  | some (.str _) => true
  | some _ => false

/-- The string Mongoose stores on a String path for a validated value:
`null` and undefined leave the path unset. -/
def castString : Option JsonValue → Option String
  | some (.str s) => some s
  | _ => none

/-- The body of `POST /api/movements/file/:fileId`. -/
structure MovementBody where
  action : Option String := none
  remarks : Option JsonValue := none
  icon : Option JsonValue := none
  sentBy : Option JsonValue := none
  sentThrough : Option JsonValue := none
  recipientName : Option JsonValue := none
deriving DecidableEq, Repr

/-- The validation chain of `POST /api/movements/file/:fileId`. -/
def addMovementErrors (b : MovementBody) : List String :=
  check (notEmpty b.action) "Action is required"
    ++ check (optionalIsString b.remarks) "Remarks must be a string"
    ++ check (optionalIsString b.sentBy) "Sent by must be a string"
    ++ check (optionalIsString b.sentThrough) "Sent through must be a string"
    ++ check (optionalIsString b.recipientName) "Recipient name must be a string"

/-- The route `POST /api/movements/file/:fileId` (Add movement to a
file). -/
def addMovement (s : Store) (actor : User) (fileId : String) (b : MovementBody) (now : Nat) :
    Store × Response Movement :=
  if addMovementErrors b ≠ [] then (s, .invalid (addMovementErrors b)) else
  match File.findOneByCode s.files fileId with
  | none => (s, .failure 404 "File not found")
  | some _ =>
    match Movement.create s
        { fileCode := fileId, user := actor.name, action := b.action.getD ""
          remarks := castString b.remarks, icon := castString b.icon
          sentBy := castString b.sentBy, sentThrough := castString b.sentThrough
          recipientName := castString b.recipientName, datetime := now } with
    | none => (s, .failure 500 "Server error")
    | some s1 => (s1, .success 201 (s1.movements.getLast?) none)

/-- The helper `createMovement` of `files.js`: the movement is posted to
the back end's own route `POST /api/movements/file/:fileId` with the
caller's credentials, and the answer is not looked at. The file code is
taken to reach the route unchanged as the `:fileId` segment of the URL,
as the codes Create File generates do; a code that Update File gave a
slash or a question mark does not, and its request reaches another route
or none. -/
def createMovement (s : Store) (actor : User) (fileId : String) (movementData : MovementBody)
    (now : Nat) : Store :=
  (addMovement s actor fileId movementData now).1

/-- The body of a request to the files API: the paths of `fileSchema`
and the keys `isDigital` (Create File) and `assignedTo` (Direct Release). -/
structure FileBody where
  code : Option String := none
  title : Option String := none
  department : Option String := none
  status : Option String := none
  priority : Option String := none
  type : Option String := none
  requisitioner : Option String := none
  remarks : Option String := none
  datetime : Option String := none
  currentHolder : Option String := none
  createdBy : Option String := none
  createdAt : Option Nat := none
  isDigital : Option JsonValue := none
  assignedTo : Option String := none
deriving DecidableEq, Repr

/-- The method `str.padStart(n, c)` for a one-character filler. -/
def padStart (str : String) (n : Nat) (c : Char) : String :=
  String.mk (List.replicate (n - str.length) c) ++ str

/-- A match of the unanchored `$regex` query for a pattern without
special characters: the pattern occurs somewhere in the string. -/
def regexMatch (str pattern : String) : Bool :=
  str.data.tails.any (fun t => pattern.data.isPrefixOf t)

/-- The query `File.countDocuments` with the code matching
`THDC-F-<year>`. -/
def File.countYear (fs : List File) (currentYear : Nat) : Nat :=
  (fs.filter (fun f => regexMatch f.code ("THDC-F-" ++ toString currentYear))).length

/-- The code `POST /api/files` generates: `fileId`. -/
def generateFileCode (fs : List File) (currentYear : Nat) : String :=
  "THDC-F-" ++ toString currentYear ++ "-"
    ++ padStart (toString (File.countYear fs currentYear + 1)) 4 '0'

/-- The validation chain of `POST /api/files`. -/
def createFileErrors (b : FileBody) : List String :=
  check (notEmpty b.title) "Title is required"
    ++ check (notEmpty b.department) "Department is required"
    ++ check (priorities.contains (b.priority.getD "")) "Invalid priority"
    ++ check (isBooleanValue b.isDigital) "isDigital must be a boolean"

/-- The document `File.create(fileData)` of `POST /api/files` builds out
of the body and the keys the route overrides. -/
def createFileDoc (s : Store) (actor : User) (b : FileBody) (now currentYear : Nat) : File :=
  { _id := s.nextId
    code := generateFileCode s.files currentYear
    title := b.title.getD ""
    department := b.department.getD ""
    status := "Created"
    priority := b.priority.getD "Normal"
    type := if truthy b.isDigital then "Digital" else "Physical"
    requisitioner := some actor.name
    remarks := b.remarks
    datetime := b.datetime
    currentHolder := some actor.name
    createdBy := actor.name
    createdAt := now }

/-- The call `File.create(doc)`: the schema validators, then the unique
index on `code`. -/
def File.create (s : Store) (doc : File) : Option Store :=
  if doc.valid && priorities.contains doc.priority
      && (File.findOneByCode s.files doc.code).isNone then
    some { s with files := s.files ++ [doc], nextId := s.nextId + 1 }
  else none

/-- The route `POST /api/files` (Create File). -/
def createFile (s : Store) (actor : User) (b : FileBody) (now currentYear : Nat) :
    Store × Response File :=
  if createFileErrors b ≠ [] then (s, .invalid (createFileErrors b)) else
  match File.create s (createFileDoc s actor b now currentYear) with
  | none => (s, .failure 500 "Server error")
  | some s1 =>
    (createMovement s1 actor (createFileDoc s actor b now currentYear).code
        { action := some "Created"
          remarks := some (.str (orDefault b.remarks "File created"))
          icon := some (.str "📄"), sentBy := some .null, sentThrough := some .null
          recipientName := some .null } now,
     .success 201 (some (createFileDoc s actor b now currentYear)) none)

/-- The middleware `authorize('admin', 'superadmin')`: true when the
role is let through. -/
def authorizeAdmin (actor : User) : Bool :=
  ["admin", "superadmin"].contains actor.role

/-- The route `DELETE /api/files/:id`. -/
def deleteFile (s : Store) (actor : User) (id : Nat) : Store × Response File :=
  if !authorizeAdmin actor then
    (s, .failure 403
      ("User role " ++ actor.role ++ " is not authorized to access this route"))
  else
  match File.findById s.files id with
  | none => (s, .failure 404 "File not found")
  | some _ =>
    ({ s with files := deleteFirst (fun f => f._id == id) s.files },
     .success 200 none (some "File deleted successfully"))

/-- The assignments the release route makes on the file. The third one,
`file.assignedTo = assignedTo`, names a path `fileSchema` does not have:
it sets a property of the document object in memory that `save()` does
not write and `res.json` does not send. -/
def releaseAssign (b : FileBody) (f : File) : File :=
  { f with status := "Released", currentHolder := some (b.assignedTo.getD "") }

/-- The movement the release route posts through `createMovement`. -/
def releaseMovement (actor : User) (b : FileBody) : MovementBody :=
  { action := some "Released"
    remarks := some (.str (orDefault b.remarks ("File released to " ++ b.assignedTo.getD "")))
    icon := some (.str "📤"), sentBy := some (.str actor.name)
    sentThrough := some (.str "Direct Release")
    recipientName := some (.str (b.assignedTo.getD "")) }

/-- The route `PATCH /api/files/:id/release` (Direct Release). The
`isString` check on remarks holds of every body of the embedding; the
movement is posted inside its own `try/catch`, and its answer is not
looked at. -/
def releaseFile (s : Store) (actor : User) (id : Nat) (b : FileBody) (now : Nat) :
    Store × Response File :=
  if check (notEmpty b.assignedTo) "Assigned to is required" ≠ [] then
    (s, .invalid (check (notEmpty b.assignedTo) "Assigned to is required"))
  else
  match File.findById s.files id with
  | none => (s, .failure 404 "File not found")
  | some file =>
    if notDepartmentAdmin actor file.department then
      (s, .failure 403 "Not authorized to release files for this department")
    else if !(releaseAssign b file).valid then (s, .failure 500 "Server error")
    else
      (createMovement
          { s with files := updateFirst (fun f => f._id == id) (releaseAssign b) s.files }
          actor file.code (releaseMovement actor b) now,
       .success 200 (some (releaseAssign b file))
        (some ("File released to " ++ b.assignedTo.getD "")))

/-- The route `GET /api/movements/file/:fileId`: the query
`Movement.find({ fileCode: fileId })`, without a sort. -/
def getFileMovements (s : Store) (fileId : String) : Store × Response (List Movement) :=
  (s, .success 200 (some (s.movements.filter (fun m => m.fileCode == fileId))) none)

/-- An assignment `file[path] = value` of a string on a hydrated file
document, as `save()` will persist it: a path of `fileSchema` takes the
value, any other name (such as `assignedTo`) is a property of the object
in memory only and leaves the stored document as it is. -/
def File.set (f : File) (path value : String) : File :=
  if path = "code" then { f with code := value }
  else if path = "title" then { f with title := value }
  else if path = "department" then { f with department := value }
  else if path = "status" then { f with status := value }
  else if path = "priority" then { f with priority := value }
  else if path = "type" then { f with type := value }
  else if path = "requisitioner" then { f with requisitioner := some value }
  else if path = "remarks" then { f with remarks := some value }
  else if path = "datetime" then { f with datetime := some value }
  else if path = "currentHolder" then { f with currentHolder := some value }
  else if path = "createdBy" then { f with createdBy := value }
  else f

/-- The route `DELETE /api/movements/:movementId`. Its header comment
reads `@access Private (Admin only)`; its only middleware is `protect`,
so the acting user is not looked at. -/
def deleteMovement (s : Store) (_actor : User) (movementId : Nat) :
    Store × Response Movement :=
  match s.movements.find? (fun m => m._id == movementId) with
  | none => (s, .failure 404 "Movement not found")
  | some _ =>
    ({ s with movements := deleteFirst (fun m => m._id == movementId) s.movements },
     .success 200 none (some "Movement deleted successfully"))

/-- The call `Object.assign(file, req.body)` of `PUT /api/files/:id`, as
`save()` will persist it: every schema path the body carries takes the
body's value. -/
def FileBody.assignTo (b : FileBody) (f : File) : File :=
  { f with
    code := b.code.getD f.code
    title := b.title.getD f.title
    department := b.department.getD f.department
    status := b.status.getD f.status
    priority := b.priority.getD f.priority
    type := b.type.getD f.type
    requisitioner := b.requisitioner.orElse (fun _ => f.requisitioner)
    remarks := b.remarks.orElse (fun _ => f.remarks)
    datetime := b.datetime.orElse (fun _ => f.datetime)
    currentHolder := b.currentHolder.orElse (fun _ => f.currentHolder)
    createdBy := b.createdBy.getD f.createdBy
    createdAt := b.createdAt.getD f.createdAt }

/-- The validators `file.save()` runs whatever was modified: the required
paths (code, title, department, type, createdBy) are not empty, and the
required path `type` holds an enum value. -/
def File.validRequired (f : File) : Bool :=
  f.code != "" && f.title != "" && f.department != "" && f.createdBy != ""
    && ["Physical", "Digital"].contains f.type

/-- The validation chain of `PUT /api/files/:id`. -/
def updateFileErrors (b : FileBody) : List String :=
  check (optionalNotEmpty b.title) "Title cannot be empty"
    ++ check (optionalIsIn b.priority priorities) "Invalid priority"
    ++ check (optionalIsIn b.status fileStatuses) "Invalid status"

/-- The icon of the movement `PUT /api/files/:id` posts for a status. -/
def statusIcon (status : String) : String :=
  if status = "Received" then "📥" else if status = "Released" then "📤"
  else if status = "Complete" then "✅" else "🕒"

/-- The route `PUT /api/files/:id` (Update File). The save fails when a
required path is emptied, the type leaves its enum, the date given for
`createdAt` does not cast, or the new code is the code of another file
(unique index). -/
def updateFile (s : Store) (actor : User) (id : Nat) (b : FileBody) (now : Nat) :
    Store × Response File :=
  if updateFileErrors b ≠ [] then (s, .invalid (updateFileErrors b)) else
  match File.findById s.files id with
  | none => (s, .failure 404 "File not found")
  | some file =>
    if !(b.assignTo file).validRequired || !castsToDate b.createdAt
        || ((b.assignTo file).code != file.code
            && (File.findOneByCode s.files (b.assignTo file).code).isSome) then
      (s, .failure 500 "Server error")
    else
      let s1 := { s with files := updateFirst (fun f => f._id == id) b.assignTo s.files }
      if notEmpty b.status && b.status != some file.status then
        (createMovement s1 actor (b.assignTo file).code
            { action := b.status
              remarks := some (.str (orDefault b.remarks
                ("Status changed to " ++ b.status.getD "")))
              icon := some (.str (statusIcon (b.status.getD "")))
              sentBy := some .null, sentThrough := some .null
              recipientName := some .null } now,
         .success 200 (some (b.assignTo file)) none)
      else (s1, .success 200 (some (b.assignTo file)) none)

/-- A request to one of the writing routes of the files API (the GET
routes only read). -/
inductive FileOp where
  | create (b : FileBody)
  | update (id : Nat) (b : FileBody)
  | delete (id : Nat)
  | release (id : Nat) (b : FileBody)
deriving DecidableEq, Repr

/-- Dispatch of a request of the files API to its route. -/
def filesApi (s : Store) (actor : User) (now currentYear : Nat) :
    FileOp → Store × Response File
  | .create b => createFile s actor b now currentYear
  | .update id b => updateFile s actor id b now
  | .delete id => deleteFile s actor id
  | .release id b => releaseFile s actor id b now

/-- True for Create File and Direct Release, the writing routes of the
files API other than the deletion and the generic update. -/
def FileOp.keepsCode : FileOp → Bool
  | .create _ => true
  | .release _ _ => true
  | _ => false

/-- The fixed department names: the constant `departments` of
`dashboard.js`. -/
def departments : List String :=
  ["HR", "Finance", "IT", "Administration", "Procurement", "Legal"]

/-! ## The listing `GET /api/files` -/

/-- The value a stored file document has at a path, as a filter reads it.
A name outside `fileSchema` (such as `assignedTo`) has no value on any
stored document; the filter is taken to reach MongoDB as written. -/
def File.get (f : File) (path : String) : Option String :=
  if path = "code" then some f.code
  else if path = "title" then some f.title
  else if path = "department" then some f.department
  else if path = "status" then some f.status
  else if path = "priority" then some f.priority
  else if path = "type" then some f.type
  else if path = "requisitioner" then f.requisitioner
  else if path = "remarks" then f.remarks
  else if path = "datetime" then f.datetime
  else if path = "currentHolder" then f.currentHolder
  else if path = "createdBy" then some f.createdBy
  else none

/-- One member of a MongoDB filter on a string path: an equality, or a
case-insensitive `$regex`. -/
inductive Condition where
  | eq (path value : String)
  | regex (path pattern : String)
deriving DecidableEq, Repr

/-- The filter object `query` of `GET /api/files`: its plain members, its
`$or` member and its `$and` member (a list of `$or` groups). -/
structure Filter where
  fields : List Condition := []
  or : Option (List Condition) := none
  and : Option (List (List Condition)) := none
deriving DecidableEq, Repr

/-- Whether a file meets a condition. The regular-expression engine of
the database is the parameter `matchesI pattern value`. -/
def Condition.holds (matchesI : String → String → Bool) (f : File) : Condition → Bool
  | .eq path value => f.get path == some value
  | .regex path pattern =>
    match f.get path with
    | some v => matchesI pattern v
    | none => false

/-- Whether a file meets a filter: every plain member, one member of
`$or` when present, and one member of every group of `$and` when
present. -/
def Filter.holds (matchesI : String → String → Bool) (q : Filter) (f : File) : Bool :=
  q.fields.all (Condition.holds matchesI f)
    && (match q.or with
        | none => true
        | some cs => cs.any (Condition.holds matchesI f))
    && (match q.and with
        | none => true
        | some groups => groups.all (fun cs => cs.any (Condition.holds matchesI f)))

/-- The query string of `GET /api/files`. -/
structure FileQuery where
  department : Option String := none
  search : Option String := none
  status : Option String := none
  priority : Option String := none
  type : Option String := none
deriving DecidableEq, Repr

/-- The member `if (x) query.path = x` adds to the filter. -/
def optionalField (path : String) (x : Option String) : List Condition :=
  if notEmpty x then [.eq path (x.getD "")] else []

/-- The filter before the role scoping: the caller's filters and the
search `$or`. -/
def callerFilter (q : FileQuery) : Filter :=
  { fields := optionalField "department" q.department ++ optionalField "status" q.status
      ++ optionalField "priority" q.priority ++ optionalField "type" q.type
    or := if notEmpty q.search then
        some [.regex "code" (q.search.getD ""), .regex "title" (q.search.getD ""),
              .regex "requisitioner" (q.search.getD "")]
      else none }

/-- The list `roleOr` of `GET /api/files` for an admin or a user; none
for any other role. -/
def roleOr (actor : User) : Option (List Condition) :=
  if actor.role = "admin" then
    some [.eq "department" actor.department, .eq "currentHolder" actor.name,
          .eq "assignedTo" actor.name]
  else if actor.role = "user" then
    some [.eq "currentHolder" actor.name, .eq "assignedTo" actor.name,
          .eq "createdBy" actor.name, .eq "requisitioner" actor.name]
  else none

/-- The role scoping of `GET /api/files`: with a search `$or` in place the
two groups go under `$and` and `$or` is deleted, otherwise `roleOr`
becomes the `$or`. -/
def scopeFilter (query : Filter) (actor : User) : Filter :=
  match roleOr actor with
  | none => query
  | some role =>
    match query.or with
    | some search => { query with and := some [search, role], or := none }
    | none => { query with or := some role }

/-- The route `GET /api/files`. The filter is taken to reach the database
as the route wrote it, the member on `assignedTo` included. -/
def listFiles (matchesI : String → String → Bool) (s : Store) (actor : User) (q : FileQuery) :
    Store × Response (List File) :=
  (s, .success 200
    (some (s.files.filter (Filter.holds matchesI (scopeFilter (callerFilter q) actor)))) none)

/-! ## The middleware `canAccessDepartment` and the forward statistics -/

/-- What a middleware does with a request: hand it on, or answer. -/
inductive Access where
  | next
  | deny (status : Nat) (error : String)
deriving DecidableEq, Repr

/-- The middleware `canAccessDepartment` of `middleware/auth.js`;
`req.user` may be missing. -/
def canAccessDepartment (user : Option User) (department : String) : Access :=
  match user with
  | none => .deny 401 "Not authorized to access this route"
  | some u =>
    if u.role = "superadmin" then .next
    else if u.role = "admin" then
      if u.department = department then .next
      else .deny 403 "Admin is not authorized to access this department"
    else if u.department ≠ department then
      .deny 403 "Not authorized to access this department"
    else .next

/-- The single predicate the three branches are compared with: allow when
the role is superadmin or the user's department is the requested one. -/
def canAccessDepartmentSpec (u : User) (department : String) : Bool :=
  u.role == "superadmin" || u.department == department

/-- The object `stats` of `GET /api/forwards/stats/:department`. -/
structure ForwardStats where
  totalForwards : Nat
  pendingAdminReview : Nat
  adminApproved : Nat
  distributedToEmployee : Nat
  received : Nat
  completed : Nat
  rejected : Nat
  urgentForwards : Nat
  todayForwards : Nat
  thisWeekForwards : Nat
deriving DecidableEq, Repr

/-- The number of forwards with a status: `filter(...).length`. -/
def countStatus (fs : List Forward) (status : String) : Nat :=
  (fs.filter (fun f => f.status == status)).length

/-- Milliseconds in a day. -/
def msPerDay : Nat := 86400000

/-- The route `GET /api/forwards/stats/:department`. Times are
milliseconds since the epoch, so the ISO date (which is in UTC) is the
day number. The instant `weekAgo` is the one the route computes with
`setDate(getDate() - 7)`: seven calendar days before `now` in the
server's local time, which the time zone of the server fixes. -/
def forwardStats (s : Store) (actor : User) (department : String) (now weekAgo : Nat) :
    Store × Response ForwardStats :=
  if notDepartmentAdmin actor department then
    (s, .failure 403 "Not authorized to view stats for this department")
  else
    let allForwards := s.forwards.filter (fun f => f.recipientDepartment == department)
    (s, .success 200 (some
      { totalForwards := allForwards.length
        pendingAdminReview := countStatus allForwards "Pending Admin Review"
        adminApproved := countStatus allForwards "Admin Approved"
        distributedToEmployee := countStatus allForwards "Distributed to Employee"
        received := countStatus allForwards "Received"
        completed := countStatus allForwards "Completed"
        rejected := countStatus allForwards "Rejected"
        urgentForwards := (allForwards.filter (fun f => f.isUrgent)).length
        todayForwards :=
          (allForwards.filter (fun f => f.sentAt / msPerDay == now / msPerDay)).length
        thisWeekForwards :=
          (allForwards.filter (fun f => decide (weekAgo ≤ f.sentAt))).length })
      none)

/-- In the words of the specification: a filter the caller supplied (a
non-empty value) is met by the value of the file. -/
def suppliedFilterMet (supplied : Option String) (value : String) : Bool :=
  match supplied with
  | some x => x == "" || value == x
  | none => true

/-- In the words of the specification: the file meets every filter the
caller supplied among department, status, priority and type. -/
def callerPredicate (q : FileQuery) (f : File) : Bool :=
  suppliedFilterMet q.department f.department && suppliedFilterMet q.status f.status
    && suppliedFilterMet q.priority f.priority && suppliedFilterMet q.type f.type

/-- In the words of the specification: when a search term is given, it
matches the code, the title or the requisitioner of the file. -/
def searchPredicate (matchesI : String → String → Bool) (q : FileQuery) (f : File) : Bool :=
  match q.search with
  | some term =>
    term == "" || matchesI term f.code || matchesI term f.title
      || (match f.requisitioner with
          | some r => matchesI term r
          | none => false)
  | none => true

/-- In the words of the specification: the role predicate of the listing,
for an admin the department, the holder or the assignee, for a user the
holder, the assignee, the creator or the requisitioner, and none for a
superadmin. -/
def rolePredicate (actor : User) (f : File) : Bool :=
  if actor.role = "admin" then
    f.department == actor.department || f.currentHolder == some actor.name
      || f.get "assignedTo" == some actor.name
  else if actor.role = "user" then
    f.currentHolder == some actor.name || f.get "assignedTo" == some actor.name
      || f.createdBy == actor.name || f.requisitioner == some actor.name
  else true

/-! ## A small office, for the concrete runs -/

/-- A plain user of the IT department, holder of the sample file. -/
def demoUser : User :=
  { _id := 1, name := "Uma", email := "uma@thdc.example", department := "IT", role := "user" }

/-- The admin of the HR department. -/
def demoAdmin : User :=
  { _id := 2, name := "Hari", email := "hari@thdc.example", department := "HR", role := "admin" }

/-- An employee of the HR department. -/
def demoAlice : User :=
  { _id := 3, name := "Alice", email := "alice@thdc.example", department := "HR", role := "user" }

/-- A plain user of the IT department who holds no file. -/
def demoBob : User :=
  { _id := 4, name := "Bob", email := "bob@thdc.example", department := "IT", role := "user" }

/-- A file of the IT department created and held by the sample user. -/
def demoFile : File :=
  { _id := 10, code := "THDC-F-2026-0001", title := "Requisition", department := "IT"
    status := "Created", priority := "Normal", type := "Physical"
    requisitioner := some "Uma", remarks := none, datetime := none
    currentHolder := some "Uma", createdBy := "Uma", createdAt := 1 }

/-- The store with the four users and the one file. -/
def demoStore : Store :=
  { users := [demoUser, demoAdmin, demoAlice, demoBob], files := [demoFile], forwards := []
    movements := [], notifications := [], nextId := 100 }

/-- A body forwarding the sample file to HR, for Alice, as Critical. -/
def demoForwardBody : Body :=
  { fileCode := some "THDC-F-2026-0001", recipientDepartment := some "HR"
    recipientName := some "Alice", priority := some "Critical" }

/-- The store after the holder forwarded the file: forward 100 is pending
admin review. -/
def demoPending : Store := (createForward demoStore demoUser demoForwardBody 5).1

/-- The body of the approval: distribute to Alice. -/
def demoApproveBody : Body := { distributedTo := some "Alice" }

/-- The store after the HR admin approved forward 100 and distributed it
to Alice. -/
def demoDistributed : Store :=
  (approveForward demoPending demoAdmin 100 demoApproveBody 6).1

/-- The store after Alice received forward 100. -/
def demoReceived : Store := (receiveForward demoDistributed demoAlice 100 7).1

/-- A body for Create File. -/
def demoFileBody : FileBody :=
  { title := some "Budget note", department := some "IT", priority := some "Normal"
    isDigital := some (.bool false) }

/-- The empty office: the users and nothing else. -/
def demoEmpty : Store :=
  { users := [demoUser, demoAdmin, demoAlice, demoBob], files := [], forwards := []
    movements := [], notifications := [], nextId := 100 }

/-- The store after two files were created in 2026: ids 100 and 101,
sequence numbers 0001 and 0002. -/
def demoTwoFiles : Store :=
  (createFile (createFile demoEmpty demoUser demoFileBody 1 2026).1 demoUser demoFileBody 2
    2026).1

/-- A body for Create Forward that also carries keys the route is
expected to set itself. -/
def demoForgedBody : Body :=
  { fileCode := some "THDC-F-2026-0001", recipientDepartment := some "HR"
    recipientName := some "Alice", status := some "Completed", sentBy := some "Mallory"
    isUrgent := some true, originalRecipientName := some "Nobody"
    originalRecipientDepartment := some "Nowhere" }

/-- A body forwarding the sample file to a department without admin. -/
def demoLegalBody : Body :=
  { fileCode := some "THDC-F-2026-0001", recipientDepartment := some "Legal"
    recipientName := some "Alice" }

/-- A superadmin, of the IT department. -/
def demoRoot : User :=
  { _id := 5, name := "Ravi", email := "ravi@thdc.example", department := "IT"
    role := "superadmin" }

/-- The store after the approval, with the superadmin among the users. -/
def demoRootDistributed : Store :=
  { demoDistributed with users := demoDistributed.users ++ [demoRoot] }

/-- The body of a Direct Release to Bob. -/
def demoReleaseBody : FileBody := { assignedTo := some "Bob" }

/-- The store with the superadmin among the users, before any forward. -/
def demoRootStore : Store := { demoStore with users := demoStore.users ++ [demoRoot] }

/-- The pending sample forward after `PUT /api/forwards/100` with an
empty file code: the update route runs no schema validator. -/
def demoBlankCode : Store := (updateForward demoPending 100 { fileCode := some "" }).1

/-- A body carrying both the key of the approve route and the key of the
reject route. -/
def demoAdminBody : Body :=
  { distributedTo := some "Alice", rejectionReason := some "wrong department" }

/-- A body of Update File that carries a new code. -/
def demoRecodeBody : FileBody := { code := some "HQ-1" }

/-- A body of Admin Approve and Distribute naming nobody of the office. -/
def demoNobodyBody : Body := { distributedTo := some "Nobody" }

/-- A body of Create File with a department outside the fixed names. -/
def demoMoonBody : FileBody :=
  { title := some "Survey", department := some "Moon Base", priority := some "Normal"
    isDigital := some (.bool true) }

/-- A body of Create File whose isDigital is the string false. -/
def demoStringFalseBody : FileBody :=
  { title := some "Budget note", department := some "IT", priority := some "Normal"
    isDigital := some (.str "false") }

/-- The files of a year in which 9999 files were created: the codes run
from THDC-F-2026-0001 to THDC-F-2026-9999. -/
@[irreducible]
def demoFullYearFiles : List File :=
  (List.range 9999).map (fun i =>
    { demoFile with _id := 1000 + i
                    code := "THDC-F-2026-" ++ padStart (toString (i + 1)) 4 '0' })

/-- The store holding those 9999 files. -/
def demoFullYear : Store := { demoEmpty with files := demoFullYearFiles, nextId := 20000 }

/-- A query of the listing with a search term. -/
def demoSearchQuery : FileQuery := { search := some "requisition", status := some "Created" }

/-! ## List and store lemmas -/

theorem find?_updateFirst {α : Type} (p : α → Bool) (g : α → α)
    (hg : ∀ x, p (g x) = p x) (xs : List α) :
    (updateFirst p g xs).find? p = (xs.find? p).map g := by
  induction xs with
  | nil => rfl
  | cons x xs ih =>
    by_cases hx : p x = true
    · simp [updateFirst, hx, List.find?, hg]
    · simp [updateFirst, hx, List.find?, ih]

theorem mem_deleteFirst {α : Type} (p : α → Bool) (xs : List α) (y : α)
    (hy : y ∈ deleteFirst p xs) : y ∈ xs := by
  induction xs with
  | nil => simp [deleteFirst] at hy
  | cons x xs ih =>
    by_cases hx : p x = true
    · simp only [deleteFirst, hx, if_true] at hy
      exact List.mem_cons_of_mem _ hy
    · simp only [deleteFirst, hx, List.mem_cons, if_false, Bool.false_eq_true] at hy
      rcases hy with rfl | hy
      · exact List.mem_cons_self _ _
      · exact List.mem_cons_of_mem _ (ih hy)

theorem Movement.create_eq {s s' : Store} {d : MovementData}
    (h : Movement.create s d = some s') :
    s'.users = s.users ∧ s'.files = s.files ∧ s'.forwards = s.forwards
      ∧ s'.notifications = s.notifications
      ∧ ∃ m : Movement, s'.movements = s.movements ++ [m] ∧ m.fileCode = d.fileCode
          ∧ m.action = d.action ∧ m.recipientName = d.recipientName := by
  unfold Movement.create at h
  split at h
  · cases h
    exact ⟨rfl, rfl, rfl, rfl, _, rfl, rfl, rfl, rfl⟩
  · cases h

theorem createNotification_frame (s : Store) (now rid : Nat) (t m ty fc : String) (fid : Nat)
    (u : Bool) (p i : String) :
    (createNotification s now rid t m ty fc fid u p i).users = s.users
      ∧ (createNotification s now rid t m ty fc fid u p i).files = s.files
      ∧ (createNotification s now rid t m ty fc fid u p i).forwards = s.forwards
      ∧ (createNotification s now rid t m ty fc fid u p i).movements = s.movements := by
  unfold createNotification
  split
  · exact ⟨rfl, rfl, rfl, rfl⟩
  · split <;> exact ⟨rfl, rfl, rfl, rfl⟩

theorem notifyUser_frame (s : Store) (now : Nat) (r : Option User) (t m : String)
    (fw : Forward) (i : String) :
    (notifyUser s now r t m fw i).users = s.users
      ∧ (notifyUser s now r t m fw i).files = s.files
      ∧ (notifyUser s now r t m fw i).forwards = s.forwards
      ∧ (notifyUser s now r t m fw i).movements = s.movements := by
  unfold notifyUser
  split
  · exact ⟨rfl, rfl, rfl, rfl⟩
  · exact createNotification_frame _ _ _ _ _ _ _ _ _ _ _

theorem approveNotify_frame (s : Store) (fw : Forward) (actor : User) (b : Body) (now : Nat) :
    (approveNotify s fw actor b now).users = s.users
      ∧ (approveNotify s fw actor b now).files = s.files
      ∧ (approveNotify s fw actor b now).forwards = s.forwards
      ∧ (approveNotify s fw actor b now).movements = s.movements := by
  unfold approveNotify
  simp only
  refine ⟨?_, ?_, ?_, ?_⟩
  · rw [(notifyUser_frame _ _ _ _ _ _ _).1, (notifyUser_frame _ _ _ _ _ _ _).1]
  · rw [(notifyUser_frame _ _ _ _ _ _ _).2.1, (notifyUser_frame _ _ _ _ _ _ _).2.1]
  · rw [(notifyUser_frame _ _ _ _ _ _ _).2.2.1, (notifyUser_frame _ _ _ _ _ _ _).2.2.1]
  · rw [(notifyUser_frame _ _ _ _ _ _ _).2.2.2, (notifyUser_frame _ _ _ _ _ _ _).2.2.2]

theorem completeNotify_frame (s : Store) (fw : Forward) (actor : User) (now : Nat) :
    (completeNotify s fw actor now).users = s.users
      ∧ (completeNotify s fw actor now).files = s.files
      ∧ (completeNotify s fw actor now).forwards = s.forwards
      ∧ (completeNotify s fw actor now).movements = s.movements := by
  unfold completeNotify
  simp only
  refine ⟨?_, ?_, ?_, ?_⟩
  · rw [(notifyUser_frame _ _ _ _ _ _ _).1, (notifyUser_frame _ _ _ _ _ _ _).1]
  · rw [(notifyUser_frame _ _ _ _ _ _ _).2.1, (notifyUser_frame _ _ _ _ _ _ _).2.1]
  · rw [(notifyUser_frame _ _ _ _ _ _ _).2.2.1, (notifyUser_frame _ _ _ _ _ _ _).2.2.1]
  · rw [(notifyUser_frame _ _ _ _ _ _ _).2.2.2, (notifyUser_frame _ _ _ _ _ _ _).2.2.2]

theorem File.assignAndSave_eq {s s' : Store} {code : String} {assign : File → File}
    (h : File.assignAndSave s code assign = some s') :
    s'.users = s.users ∧ s'.forwards = s.forwards ∧ s'.movements = s.movements
      ∧ s'.notifications = s.notifications ∧ s'.nextId = s.nextId
      ∧ s'.files = (match File.findOneByCode s.files code with
          | none => s.files
          | some _ => updateFirst (fun f => f.code == code) assign s.files) := by
  unfold File.assignAndSave at h
  split at h
  · cases h
    rename_i hnone
    simp [hnone]
  · rename_i file hsome
    split at h
    · cases h
      simp [hsome]
    · cases h

/-- Inversion of a successful approve. -/
theorem approveForward_success {s : Store} {actor : User} {id : Nat} {b : Body} {now : Nat}
    (h : (approveForward s actor id b now).2.isSuccess = true) :
    ∃ forward s2 s3,
      Forward.findById s.forwards id = some forward
      ∧ notEmpty b.distributedTo = true
      ∧ notDepartmentAdmin actor forward.recipientDepartment = false
      ∧ forward.status = "Pending Admin Review"
      ∧ File.assignAndSave
          { s with forwards :=
              (Forward.findByIdAndUpdate s.forwards id (approveUpdateData actor b now)).1 }
          forward.fileCode (approveAssign forward b) = some s2
      ∧ Movement.create s2 (approveMovement forward actor b now) = some s3
      ∧ (approveForward s actor id b now).1 = approveNotify s3 forward actor b now := by
  generalize hr : approveForward s actor id b now = r at h ⊢
  unfold approveForward at hr
  split at hr
  · subst hr; simp [Response.isSuccess] at h
  rename_i hval
  split at hr
  · subst hr; simp [Response.isSuccess] at h
  rename_i forward hf
  split at hr
  · subst hr; simp [Response.isSuccess] at h
  rename_i hauth
  split at hr
  · subst hr; simp [Response.isSuccess] at h
  rename_i hst
  simp only at hr
  split at hr
  · subst hr; simp [Response.isSuccess] at h
  rename_i s2 hs2
  split at hr
  · subst hr; simp [Response.isSuccess] at h
  rename_i s3 hs3
  subst hr
  exact ⟨forward, s2, s3, hf, by simpa [check] using hval, by simpa using hauth,
    by simpa using hst, hs2, hs3, rfl⟩

/-- Inversion of a successful Create Forward. -/
theorem createForward_success {s : Store} {actor : User} {b : Body} {now : Nat}
    (h : (createForward s actor b now).2.isSuccess = true) :
    ∃ departmentAdmin newForward s2,
      createForwardErrors b = []
      ∧ (File.findOneByCode s.files (b.fileCode.getD "")).isSome = true
      ∧ User.findDepartmentAdmin s.users (b.recipientDepartment.getD "") = some departmentAdmin
      ∧ Forward.build s.nextId now (createForwardData b actor departmentAdmin) = some newForward
      ∧ Movement.create
          { s with forwards := s.forwards ++ [newForward], nextId := s.nextId + 1 }
          (createForwardMovement b actor departmentAdmin now) = some s2
      ∧ (createForward s actor b now).1.users = s.users
      ∧ (createForward s actor b now).1.files = s.files
      ∧ (createForward s actor b now).1.forwards = s.forwards ++ [newForward]
      ∧ (createForward s actor b now).1.movements = s2.movements
      ∧ (createForward s actor b now).2 = .success 201 (some newForward)
          (some ("File forwarded to " ++ b.recipientDepartment.getD ""
            ++ " Admin for review")) := by
  generalize hr : createForward s actor b now = r at h ⊢
  unfold createForward at hr
  split at hr
  · subst hr; simp [Response.isSuccess] at h
  rename_i hval
  split at hr
  · subst hr; simp [Response.isSuccess] at h
  rename_i file hfile
  split at hr
  · subst hr; simp [Response.isSuccess] at h
  rename_i departmentAdmin hadmin
  split at hr
  · subst hr; simp [Response.isSuccess] at h
  rename_i newForward hbuild
  split at hr
  · subst hr; simp [Response.isSuccess] at h
  rename_i s2 hs2
  subst hr
  refine ⟨departmentAdmin, newForward, s2, by simpa using hval, by simp [hfile], hadmin, hbuild,
    hs2, ?_, ?_, ?_, ?_, rfl⟩
  · simp only
    rw [(createNotification_frame _ _ _ _ _ _ _ _ _ _ _).1, (Movement.create_eq hs2).1]
  · simp only
    rw [(createNotification_frame _ _ _ _ _ _ _ _ _ _ _).2.1, (Movement.create_eq hs2).2.1]
  · simp only
    rw [(createNotification_frame _ _ _ _ _ _ _ _ _ _ _).2.2.1, (Movement.create_eq hs2).2.2.1]
  · simp only
    rw [(createNotification_frame _ _ _ _ _ _ _ _ _ _ _).2.2.2]

/-- Inversion of a successful reject. -/
theorem rejectForward_success {s : Store} {actor : User} {id : Nat} {b : Body} {now : Nat}
    (h : (rejectForward s actor id b now).2.isSuccess = true) :
    ∃ forward s2,
      Forward.findById s.forwards id = some forward
      ∧ notEmpty b.rejectionReason = true
      ∧ notDepartmentAdmin actor forward.recipientDepartment = false
      ∧ forward.status = "Pending Admin Review"
      ∧ Movement.create
          { s with forwards :=
              (Forward.findByIdAndUpdate s.forwards id (rejectUpdateData actor b now)).1 }
          (rejectMovement forward actor b now) = some s2
      ∧ (rejectForward s actor id b now).1.users = s.users
      ∧ (rejectForward s actor id b now).1.files = s.files
      ∧ (rejectForward s actor id b now).1.forwards
          = (Forward.findByIdAndUpdate s.forwards id (rejectUpdateData actor b now)).1
      ∧ (rejectForward s actor id b now).1.movements = s2.movements := by
  generalize hr : rejectForward s actor id b now = r at h ⊢
  unfold rejectForward at hr
  split at hr
  · subst hr; simp [Response.isSuccess] at h
  rename_i hval
  split at hr
  · subst hr; simp [Response.isSuccess] at h
  rename_i forward hf
  split at hr
  · subst hr; simp [Response.isSuccess] at h
  rename_i hauth
  split at hr
  · subst hr; simp [Response.isSuccess] at h
  rename_i hst
  simp only at hr
  split at hr
  · subst hr; simp [Response.isSuccess] at h
  rename_i s2 hs2
  subst hr
  refine ⟨forward, s2, hf, by simpa [check] using hval, by simpa using hauth,
    by simpa using hst, hs2, ?_, ?_, ?_, ?_⟩
  · simp only
    rw [(notifyUser_frame _ _ _ _ _ _ _).1, (Movement.create_eq hs2).1]
  · simp only
    rw [(notifyUser_frame _ _ _ _ _ _ _).2.1, (Movement.create_eq hs2).2.1]
  · simp only
    rw [(notifyUser_frame _ _ _ _ _ _ _).2.2.1, (Movement.create_eq hs2).2.2.1]
  · simp only
    rw [(notifyUser_frame _ _ _ _ _ _ _).2.2.2]

/-- Inversion of a successful receive. -/
theorem receiveForward_success {s : Store} {actor : User} {id : Nat} {now : Nat}
    (h : (receiveForward s actor id now).2.isSuccess = true) :
    ∃ forward s2 s3,
      Forward.findById s.forwards id = some forward
      ∧ forward.distributedTo = some actor.name
      ∧ forward.status = "Distributed to Employee"
      ∧ File.assignAndSave
          { s with forwards :=
              (Forward.findByIdAndUpdate s.forwards id
                { status := some "Received", receivedAt := some now }).1 }
          forward.fileCode (receiveAssign actor) = some s2
      ∧ Movement.create s2 (receiveMovement forward actor now) = some s3
      ∧ (receiveForward s actor id now).1.users = s.users
      ∧ (receiveForward s actor id now).1.files = s2.files
      ∧ (receiveForward s actor id now).1.forwards
          = (Forward.findByIdAndUpdate s.forwards id
              { status := some "Received", receivedAt := some now }).1
      ∧ (receiveForward s actor id now).1.movements = s3.movements := by
  generalize hr : receiveForward s actor id now = r at h ⊢
  unfold receiveForward at hr
  split at hr
  · subst hr; simp [Response.isSuccess] at h
  rename_i forward hf
  split at hr
  · subst hr; simp [Response.isSuccess] at h
  rename_i hauth
  split at hr
  · subst hr; simp [Response.isSuccess] at h
  rename_i hst
  simp only at hr
  split at hr
  · subst hr; simp [Response.isSuccess] at h
  rename_i s2 hs2
  split at hr
  · subst hr; simp [Response.isSuccess] at h
  rename_i s3 hs3
  subst hr
  refine ⟨forward, s2, s3, hf, by simpa using hauth, by simpa using hst, hs2, hs3, ?_, ?_, ?_,
    ?_⟩
  · simp only
    rw [(notifyUser_frame _ _ _ _ _ _ _).1, (Movement.create_eq hs3).1,
      (File.assignAndSave_eq hs2).1]
  · simp only
    rw [(notifyUser_frame _ _ _ _ _ _ _).2.1, (Movement.create_eq hs3).2.1]
  · simp only
    rw [(notifyUser_frame _ _ _ _ _ _ _).2.2.1, (Movement.create_eq hs3).2.2.1,
      (File.assignAndSave_eq hs2).2.1]
  · simp only
    rw [(notifyUser_frame _ _ _ _ _ _ _).2.2.2]

/-- Inversion of a successful complete. -/
theorem completeForward_success {s : Store} {actor : User} {id : Nat} {b : Body} {now : Nat}
    (h : (completeForward s actor id b now).2.isSuccess = true) :
    ∃ forward s2,
      Forward.findById s.forwards id = some forward
      ∧ forward.distributedTo = some actor.name
      ∧ forward.status = "Received"
      ∧ Movement.create
          { s with forwards :=
              (Forward.findByIdAndUpdate s.forwards id
                { status := some "Completed", completedAt := some now }).1 }
          (completeMovement forward actor b now) = some s2
      ∧ (completeForward s actor id b now).1.users = s.users
      ∧ (completeForward s actor id b now).1.files = s.files
      ∧ (completeForward s actor id b now).1.forwards
          = (Forward.findByIdAndUpdate s.forwards id
              { status := some "Completed", completedAt := some now }).1
      ∧ (completeForward s actor id b now).1.movements = s2.movements := by
  generalize hr : completeForward s actor id b now = r at h ⊢
  unfold completeForward at hr
  split at hr
  · subst hr; simp [Response.isSuccess] at h
  rename_i forward hf
  split at hr
  · subst hr; simp [Response.isSuccess] at h
  rename_i hauth
  split at hr
  · subst hr; simp [Response.isSuccess] at h
  rename_i hst
  simp only at hr
  split at hr
  · subst hr; simp [Response.isSuccess] at h
  rename_i s2 hs2
  subst hr
  refine ⟨forward, s2, hf, by simpa using hauth, by simpa using hst, hs2, ?_, ?_, ?_, ?_⟩
  · simp only
    rw [(completeNotify_frame _ _ _ _).1, (Movement.create_eq hs2).1]
  · simp only
    rw [(completeNotify_frame _ _ _ _).2.1, (Movement.create_eq hs2).2.1]
  · simp only
    rw [(completeNotify_frame _ _ _ _).2.2.1, (Movement.create_eq hs2).2.2.1]
  · simp only
    rw [(completeNotify_frame _ _ _ _).2.2.2]

theorem mem_updateFirst_find {α : Type} (p : α → Bool) (g : α → α) (xs : List α) (y : α)
    (hy : y ∈ updateFirst p g xs) : y ∈ xs ∨ ∃ x, xs.find? p = some x ∧ y = g x := by
  induction xs with
  | nil => simp [updateFirst] at hy
  | cons x xs ih =>
    by_cases hx : p x = true
    · simp only [updateFirst, hx, if_true, List.mem_cons] at hy
      rcases hy with rfl | hy
      · exact Or.inr ⟨x, by simp [List.find?, hx], rfl⟩
      · exact Or.inl (List.mem_cons_of_mem _ hy)
    · simp only [updateFirst, hx, List.mem_cons, if_false, Bool.false_eq_true] at hy
      rcases hy with rfl | hy
      · exact Or.inl (List.mem_cons_self _ _)
      · rcases ih hy with h | ⟨z, hz, rfl⟩
        · exact Or.inl (List.mem_cons_of_mem _ h)
        · exact Or.inr ⟨z, by simpa [List.find?, hx] using hz, rfl⟩

theorem Forward.findById_mem {fs : List Forward} {id : Nat} {f : Forward}
    (h : Forward.findById fs id = some f) : f ∈ fs ∧ f._id = id := by
  unfold Forward.findById at h
  exact ⟨List.mem_of_find?_eq_some h, by simpa using List.find?_some h⟩

/-- Where a document of the collection after `findByIdAndUpdate` comes
from: it was there, or it is the update of the document `findById`
returns. -/
theorem Forward.mem_findByIdAndUpdate {fs : List Forward} {id : Nat} {u : ForwardFields}
    {y : Forward} (hy : y ∈ (Forward.findByIdAndUpdate fs id u).1) :
    y ∈ fs ∨ ∃ x, Forward.findById fs id = some x ∧ y = x.applyUpdate u :=
  mem_updateFirst_find _ _ _ _ hy

/-- The forwards collection after the approve route, on every path. -/
theorem approveForward_forwards (s : Store) (actor : User) (id : Nat) (b : Body) (now : Nat) :
    (approveForward s actor id b now).1.forwards = s.forwards
      ∨ ∃ forward, Forward.findById s.forwards id = some forward
          ∧ forward.status = "Pending Admin Review"
          ∧ (approveForward s actor id b now).1.forwards
              = (Forward.findByIdAndUpdate s.forwards id (approveUpdateData actor b now)).1 := by
  generalize hr : approveForward s actor id b now = r
  unfold approveForward at hr
  split at hr
  · subst hr; exact Or.inl rfl
  split at hr
  · subst hr; exact Or.inl rfl
  rename_i forward hf
  split at hr
  · subst hr; exact Or.inl rfl
  split at hr
  · subst hr; exact Or.inl rfl
  rename_i hst
  refine Or.inr ⟨forward, hf, by simpa using hst, ?_⟩
  simp only at hr
  split at hr
  · subst hr; rfl
  rename_i s2 hs2
  split at hr
  · subst hr
    exact (File.assignAndSave_eq hs2).2.1
  rename_i s3 hs3
  subst hr
  simp only
  rw [(approveNotify_frame _ _ _ _ _).2.2.1, (Movement.create_eq hs3).2.2.1,
    (File.assignAndSave_eq hs2).2.1]

/-- The forwards collection after the reject route, on every path. -/
theorem rejectForward_forwards (s : Store) (actor : User) (id : Nat) (b : Body) (now : Nat) :
    (rejectForward s actor id b now).1.forwards = s.forwards
      ∨ ∃ forward, Forward.findById s.forwards id = some forward
          ∧ forward.status = "Pending Admin Review"
          ∧ (rejectForward s actor id b now).1.forwards
              = (Forward.findByIdAndUpdate s.forwards id (rejectUpdateData actor b now)).1 := by
  generalize hr : rejectForward s actor id b now = r
  unfold rejectForward at hr
  split at hr
  · subst hr; exact Or.inl rfl
  split at hr
  · subst hr; exact Or.inl rfl
  rename_i forward hf
  split at hr
  · subst hr; exact Or.inl rfl
  split at hr
  · subst hr; exact Or.inl rfl
  rename_i hst
  refine Or.inr ⟨forward, hf, by simpa using hst, ?_⟩
  simp only at hr
  split at hr
  · subst hr; rfl
  rename_i s2 hs2
  subst hr
  simp only
  rw [(notifyUser_frame _ _ _ _ _ _ _).2.2.1, (Movement.create_eq hs2).2.2.1]

/-- The forwards collection after the receive route, on every path. -/
theorem receiveForward_forwards (s : Store) (actor : User) (id : Nat) (now : Nat) :
    (receiveForward s actor id now).1.forwards = s.forwards
      ∨ ∃ forward, Forward.findById s.forwards id = some forward
          ∧ forward.status = "Distributed to Employee"
          ∧ (receiveForward s actor id now).1.forwards
              = (Forward.findByIdAndUpdate s.forwards id
                  { status := some "Received", receivedAt := some now }).1 := by
  generalize hr : receiveForward s actor id now = r
  unfold receiveForward at hr
  split at hr
  · subst hr; exact Or.inl rfl
  rename_i forward hf
  split at hr
  · subst hr; exact Or.inl rfl
  split at hr
  · subst hr; exact Or.inl rfl
  rename_i hst
  refine Or.inr ⟨forward, hf, by simpa using hst, ?_⟩
  simp only at hr
  split at hr
  · subst hr; rfl
  rename_i s2 hs2
  split at hr
  · subst hr
    exact (File.assignAndSave_eq hs2).2.1
  rename_i s3 hs3
  subst hr
  simp only
  rw [(notifyUser_frame _ _ _ _ _ _ _).2.2.1, (Movement.create_eq hs3).2.2.1,
    (File.assignAndSave_eq hs2).2.1]

/-- The forwards collection after the complete route, on every path. -/
theorem completeForward_forwards (s : Store) (actor : User) (id : Nat) (b : Body) (now : Nat) :
    (completeForward s actor id b now).1.forwards = s.forwards
      ∨ ∃ forward, Forward.findById s.forwards id = some forward
          ∧ forward.status = "Received"
          ∧ (completeForward s actor id b now).1.forwards
              = (Forward.findByIdAndUpdate s.forwards id
                  { status := some "Completed", completedAt := some now }).1 := by
  generalize hr : completeForward s actor id b now = r
  unfold completeForward at hr
  split at hr
  · subst hr; exact Or.inl rfl
  rename_i forward hf
  split at hr
  · subst hr; exact Or.inl rfl
  split at hr
  · subst hr; exact Or.inl rfl
  rename_i hst
  refine Or.inr ⟨forward, hf, by simpa using hst, ?_⟩
  simp only at hr
  split at hr
  · subst hr; rfl
  rename_i s2 hs2
  subst hr
  simp only
  rw [(completeNotify_frame _ _ _ _).2.2.1, (Movement.create_eq hs2).2.2.1]

/-- The status of a forward built by Create Forward. -/
theorem Forward.build_createForwardData {id now : Nat} {b : Body} {actor admin : User}
    {fw : Forward} (h : Forward.build id now (createForwardData b actor admin) = some fw) :
    fw._id = id ∧ fw.status = "Pending Admin Review" ∧ fw.sentBy = actor.name
      ∧ fw.recipientName = admin.name
      ∧ fw.recipientDepartment = b.recipientDepartment.getD ""
      ∧ fw.fileCode = b.fileCode.getD ""
      ∧ fw.originalRecipientName = b.recipientName
      ∧ fw.originalRecipientDepartment = b.recipientDepartment
      ∧ fw.priority = b.priority.getD "Normal"
      ∧ fw.isUrgent = (b.priority == some "Urgent" || b.priority == some "Critical")
      ∧ fw.fileCode ≠ "" ∧ fw.sentBy ≠ "" ∧ fw.recipientName ≠ ""
      ∧ priorities.contains fw.priority = true := by
  unfold Forward.build at h
  simp only at h
  split at h
  · rename_i hv
    cases h
    simp only [Bool.and_eq_true, bne_iff_ne, ne_eq, createForwardData, Option.getD_some] at hv
    exact ⟨rfl, rfl, rfl, rfl, rfl, rfl, rfl, rfl, rfl, rfl, hv.1.1.1.1.1.1, hv.1.1.1.2,
      hv.1.1.1.1.2, hv.1.1.2⟩
  · cases h

/-- The forwards collection after Create Forward, on every path. -/
theorem createForward_forwards (s : Store) (actor : User) (b : Body) (now : Nat) :
    (createForward s actor b now).1.forwards = s.forwards
      ∨ ∃ fw, fw.status = "Pending Admin Review"
          ∧ (createForward s actor b now).1.forwards = s.forwards ++ [fw] := by
  generalize hr : createForward s actor b now = r
  unfold createForward at hr
  split at hr
  · subst hr; exact Or.inl rfl
  split at hr
  · subst hr; exact Or.inl rfl
  split at hr
  · subst hr; exact Or.inl rfl
  split at hr
  · subst hr; exact Or.inl rfl
  rename_i newForward hbuild
  refine Or.inr ⟨newForward, (Forward.build_createForwardData hbuild).2.1, ?_⟩
  split at hr
  · subst hr; rfl
  rename_i s2 hs2
  subst hr
  simp only
  rw [(createNotification_frame _ _ _ _ _ _ _ _ _ _ _).2.2.1, (Movement.create_eq hs2).2.2.1]

/-- The forwards collection after the delete route. -/
theorem deleteForward_forwards (s : Store) (id : Nat) :
    ∀ y ∈ (deleteForward s id).1.forwards, y ∈ s.forwards := by
  intro y hy
  unfold deleteForward at hy
  split at hy
  · exact hy
  · exact mem_deleteFirst _ _ _ hy

/-- The document a successful approve answers with. -/
theorem approveForward_data {s : Store} {actor : User} {id : Nat} {b : Body} {now : Nat}
    (h : (approveForward s actor id b now).2.isSuccess = true) :
    (approveForward s actor id b now).2.data
      = (Forward.findById s.forwards id).map
          (fun f => f.applyUpdate (approveUpdateData actor b now)) := by
  generalize hr : approveForward s actor id b now = r at h ⊢
  unfold approveForward at hr
  split at hr
  · subst hr; simp [Response.isSuccess] at h
  split at hr
  · subst hr; simp [Response.isSuccess] at h
  split at hr
  · subst hr; simp [Response.isSuccess] at h
  split at hr
  · subst hr; simp [Response.isSuccess] at h
  simp only at hr
  split at hr
  · subst hr; simp [Response.isSuccess] at h
  split at hr
  · subst hr; simp [Response.isSuccess] at h
  subst hr
  rfl

/-- The document a successful reject answers with. -/
theorem rejectForward_data {s : Store} {actor : User} {id : Nat} {b : Body} {now : Nat}
    (h : (rejectForward s actor id b now).2.isSuccess = true) :
    (rejectForward s actor id b now).2.data
      = (Forward.findById s.forwards id).map
          (fun f => f.applyUpdate (rejectUpdateData actor b now)) := by
  generalize hr : rejectForward s actor id b now = r at h ⊢
  unfold rejectForward at hr
  split at hr
  · subst hr; simp [Response.isSuccess] at h
  split at hr
  · subst hr; simp [Response.isSuccess] at h
  split at hr
  · subst hr; simp [Response.isSuccess] at h
  split at hr
  · subst hr; simp [Response.isSuccess] at h
  simp only at hr
  split at hr
  · subst hr; simp [Response.isSuccess] at h
  subst hr
  rfl

/-- The document a successful receive answers with. -/
theorem receiveForward_data {s : Store} {actor : User} {id : Nat} {now : Nat}
    (h : (receiveForward s actor id now).2.isSuccess = true) :
    (receiveForward s actor id now).2.data
      = (Forward.findById s.forwards id).map
          (fun f => f.applyUpdate { status := some "Received", receivedAt := some now }) := by
  generalize hr : receiveForward s actor id now = r at h ⊢
  unfold receiveForward at hr
  split at hr
  · subst hr; simp [Response.isSuccess] at h
  split at hr
  · subst hr; simp [Response.isSuccess] at h
  split at hr
  · subst hr; simp [Response.isSuccess] at h
  simp only at hr
  split at hr
  · subst hr; simp [Response.isSuccess] at h
  split at hr
  · subst hr; simp [Response.isSuccess] at h
  subst hr
  rfl

/-- The document a successful complete answers with. -/
theorem completeForward_data {s : Store} {actor : User} {id : Nat} {b : Body} {now : Nat}
    (h : (completeForward s actor id b now).2.isSuccess = true) :
    (completeForward s actor id b now).2.data
      = (Forward.findById s.forwards id).map
          (fun f => f.applyUpdate { status := some "Completed", completedAt := some now }) := by
  generalize hr : completeForward s actor id b now = r at h ⊢
  unfold completeForward at hr
  split at hr
  · subst hr; simp [Response.isSuccess] at h
  split at hr
  · subst hr; simp [Response.isSuccess] at h
  split at hr
  · subst hr; simp [Response.isSuccess] at h
  simp only at hr
  split at hr
  · subst hr; simp [Response.isSuccess] at h
  subst hr
  rfl

/-- After `findByIdAndUpdate`, `findById` returns the updated document. -/
theorem Forward.findById_findByIdAndUpdate (fs : List Forward) (id : Nat) (u : ForwardFields) :
    Forward.findById (Forward.findByIdAndUpdate fs id u).1 id
      = (Forward.findById fs id).map (fun f => f.applyUpdate u) := by
  unfold Forward.findById Forward.findByIdAndUpdate
  exact find?_updateFirst (fun f => f._id == id) (fun f => f.applyUpdate u) (fun _ => rfl) fs

/-- The validation chain of Create Forward passes exactly when its four
checks hold. -/
theorem createForwardErrors_eq_nil (b : Body) :
    createForwardErrors b = [] ↔
      notEmpty b.fileCode = true ∧ notEmpty b.recipientDepartment = true
        ∧ notEmpty b.recipientName = true ∧ optionalIsIn b.priority priorities = true := by
  unfold createForwardErrors check
  cases notEmpty b.fileCode <;> cases notEmpty b.recipientDepartment
    <;> cases notEmpty b.recipientName <;> cases optionalIsIn b.priority priorities <;> simp

theorem notEmpty_getD {a : Option String} (h : notEmpty a = true) : a.getD "" ≠ "" := by
  cases a with
  | none => simp [notEmpty] at h
  | some v => simpa [notEmpty] using h

/-- After a validated body, `Forward.create` accepts the data of Create
Forward exactly when the names of the actor and of the admin are not
empty and the dates of the body cast. -/
theorem Forward.build_createForwardData_isSome (id now : Nat) (b : Body) (actor admin : User)
    (hval : createForwardErrors b = []) :
    (Forward.build id now (createForwardData b actor admin)).isSome = true
      ↔ actor.name ≠ "" ∧ admin.name ≠ "" ∧ b.toForwardFields.datesCast = true := by
  obtain ⟨hcode, hdept, -, hprio⟩ := (createForwardErrors_eq_nil b).1 hval
  have h1 := notEmpty_getD hcode
  have h2 := notEmpty_getD hdept
  have h3 : priorities.contains (b.priority.getD "Normal") = true := by
    cases hb : b.priority with
    | none => decide
    | some p => simpa [optionalIsIn, hb] using hprio
  have h4 : forwardStatuses.contains "Pending Admin Review" = true := by decide
  unfold Forward.build
  have h5 : (createForwardData b actor admin).datesCast = b.toForwardFields.datesCast := rfl
  simp only [h5]
  simp only [createForwardData, Option.getD_some, h3, h4, Bool.and_true]
  by_cases ha : actor.name = "" <;> by_cases hb : admin.name = "" <;>
    cases hc : b.toForwardFields.datesCast <;> simp [ha, hb, h1, h2]

/-- Once `Forward.create` accepted the forward, the movement of Create
Forward is accepted too. -/
theorem createForwardMovement_isSome {id now : Nat} {b : Body} {actor admin : User}
    {fw : Forward} (s1 : Store)
    (h : Forward.build id now (createForwardData b actor admin) = some fw) :
    ∃ s2, Movement.create s1 (createForwardMovement b actor admin now) = some s2 := by
  obtain ⟨-, -, hsent, -, -, hcode, -, -, -, -, hcode', hsent', -⟩ :=
    Forward.build_createForwardData h
  rw [hcode] at hcode'
  rw [hsent] at hsent'
  unfold Movement.create
  simp [createForwardMovement, hcode', hsent']

/-- The lookup by code sees a change of holders in the holder only. -/
theorem File.findOneByCode_setHolder (holder : File → Option String) (fs : List File)
    (code : String) :
    File.findOneByCode (fs.map (fun f => { f with currentHolder := holder f })) code
      = (File.findOneByCode fs code).map (fun f => { f with currentHolder := holder f }) := by
  unfold File.findOneByCode
  induction fs with
  | nil => rfl
  | cons f fs ih =>
    simp only [List.map_cons, List.find?_cons]
    cases hc : f.code == code
    · exact ih
    · rfl

/-- Create Forward reads of the file store only whether the code is that
of a stored file. -/
theorem createForward_of_files (s : Store) (actor : User) (b : Body) (now : Nat)
    (fs : List File)
    (h : (File.findOneByCode fs (b.fileCode.getD "")).isSome
      = (File.findOneByCode s.files (b.fileCode.getD "")).isSome) :
    createForward { s with files := fs } actor b now
      = ({ (createForward s actor b now).1 with files := fs },
         (createForward s actor b now).2) := by
  unfold createForward
  by_cases hval : createForwardErrors b = []
  · rw [if_neg (by simpa using hval), if_neg (by simpa using hval)]
    cases hfile : File.findOneByCode s.files (b.fileCode.getD "") with
    | none =>
      rw [hfile] at h
      have hnone : File.findOneByCode fs (b.fileCode.getD "") = none := by
        simpa using h
      simp only [hnone]
    | some file =>
      rw [hfile] at h
      obtain ⟨file2, hsome⟩ := Option.isSome_iff_exists.1 h
      simp only [hsome]
      cases hadmin : User.findDepartmentAdmin s.users (b.recipientDepartment.getD "") with
      | none => rfl
      | some admin =>
        simp only
        cases hbuild : Forward.build s.nextId now (createForwardData b actor admin) with
        | none => rfl
        | some fw =>
          simp only
          generalize createForwardMovement b actor admin now = md
          unfold Movement.create
          by_cases hm : (md.fileCode != "" && md.user != "" && md.action != "") = true
          · simp only [if_pos hm]
            unfold createNotification
            simp only
            cases hu : User.findById s.users admin._id with
            | none => rfl
            | some recipient =>
              simp only
              split <;> rfl
          · simp only [if_neg hm]
  · rw [if_pos hval, if_pos hval]

/-- A date of the body beyond the range of `Date` makes Create Forward
answer 500 and store nothing. -/
theorem createForward_date_out_of_range :
    createForward demoStore demoUser { demoForwardBody with sentAt := some 9000000000000000 } 5
      = (demoStore, .failure 500 "Server error") := by
  decide

/-- A date of the body beyond the range of `Date` makes Update Forward
answer 500 and store nothing. -/
theorem updateForward_date_out_of_range :
    updateForward demoPending 100 { receivedAt := some 9000000000000000 }
      = (demoPending, .failure 500 "Server error") := by
  decide

/-! ## Authorization lemmas -/

/-- The department check in the words of the policy. -/
theorem notDepartmentAdmin_eq_false (actor : User) (department : String) :
    notDepartmentAdmin actor department = false
      ↔ actor.role = "superadmin" ∨ (actor.role = "admin" ∧ actor.department = department) := by
  unfold notDepartmentAdmin
  by_cases h1 : actor.role = "superadmin" <;> by_cases h2 : actor.role = "admin"
    <;> by_cases h3 : actor.department = department <;> simp [h1, h2, h3]

/-- An actor the department check refuses gets 403 from the approve
route, whatever the status of the forward. -/
theorem approveForward_of_refused {s : Store} {actor : User} {id : Nat} {b : Body} {now : Nat}
    {forward : Forward} (hf : Forward.findById s.forwards id = some forward)
    (hb : notEmpty b.distributedTo = true)
    (hauth : notDepartmentAdmin actor forward.recipientDepartment = true) :
    approveForward s actor id b now
      = (s, .failure 403 "Not authorized to approve forwards for this department") := by
  unfold approveForward
  simp [check, hb, hf, hauth]

/-- An actor the department check lets through never gets 403 from the
approve route. -/
theorem approveForward_of_admitted {s : Store} {actor : User} {id : Nat} {b : Body} {now : Nat}
    {forward : Forward} (hf : Forward.findById s.forwards id = some forward)
    (hauth : notDepartmentAdmin actor forward.recipientDepartment = false) :
    (approveForward s actor id b now).2.status ≠ 403 := by
  generalize hr : approveForward s actor id b now = r
  unfold approveForward at hr
  split at hr
  · subst hr; exact (by decide : (400 : Nat) ≠ 403)
  split at hr
  · subst hr; exact (by decide : (404 : Nat) ≠ 403)
  rename_i forward' hf'
  rw [hf] at hf'
  cases hf'
  split at hr
  · rename_i hrefused
    rw [hauth] at hrefused
    cases hrefused
  split at hr
  · subst hr; exact (by decide : (400 : Nat) ≠ 403)
  simp only at hr
  split at hr
  · subst hr; exact (by decide : (500 : Nat) ≠ 403)
  split at hr
  · subst hr; exact (by decide : (500 : Nat) ≠ 403)
  subst hr
  exact (by decide : (200 : Nat) ≠ 403)

/-- An actor the department check refuses gets 403 from the reject route,
whatever the status of the forward. -/
theorem rejectForward_of_refused {s : Store} {actor : User} {id : Nat} {b : Body} {now : Nat}
    {forward : Forward} (hf : Forward.findById s.forwards id = some forward)
    (hb : notEmpty b.rejectionReason = true)
    (hauth : notDepartmentAdmin actor forward.recipientDepartment = true) :
    rejectForward s actor id b now
      = (s, .failure 403 "Not authorized to reject forwards for this department") := by
  unfold rejectForward
  simp [check, hb, hf, hauth]

/-- An actor the department check lets through never gets 403 from the
reject route. -/
theorem rejectForward_of_admitted {s : Store} {actor : User} {id : Nat} {b : Body} {now : Nat}
    {forward : Forward} (hf : Forward.findById s.forwards id = some forward)
    (hauth : notDepartmentAdmin actor forward.recipientDepartment = false) :
    (rejectForward s actor id b now).2.status ≠ 403 := by
  generalize hr : rejectForward s actor id b now = r
  unfold rejectForward at hr
  split at hr
  · subst hr; exact (by decide : (400 : Nat) ≠ 403)
  split at hr
  · subst hr; exact (by decide : (404 : Nat) ≠ 403)
  rename_i forward' hf'
  rw [hf] at hf'
  cases hf'
  split at hr
  · rename_i hrefused
    rw [hauth] at hrefused
    cases hrefused
  split at hr
  · subst hr; exact (by decide : (400 : Nat) ≠ 403)
  simp only at hr
  split at hr
  · subst hr; exact (by decide : (500 : Nat) ≠ 403)
  subst hr
  exact (by decide : (200 : Nat) ≠ 403)

/-- Create Forward has no authorization check: it never answers 403. -/
theorem createForward_status_ne_403 (s : Store) (actor : User) (b : Body) (now : Nat) :
    (createForward s actor b now).2.status ≠ 403 := by
  generalize hr : createForward s actor b now = r
  unfold createForward at hr
  split at hr
  · subst hr; exact (by decide : (400 : Nat) ≠ 403)
  split at hr
  · subst hr; exact (by decide : (404 : Nat) ≠ 403)
  split at hr
  · subst hr; exact (by decide : (400 : Nat) ≠ 403)
  split at hr
  · subst hr; exact (by decide : (500 : Nat) ≠ 403)
  split at hr
  · subst hr; exact (by decide : (500 : Nat) ≠ 403)
  subst hr
  exact (by decide : (201 : Nat) ≠ 403)

/-- An actor the department check lets through never gets 403 from the
release route. -/
theorem releaseFile_of_admitted {s : Store} {actor : User} {id : Nat} {b : FileBody} {now : Nat}
    (hauth : ∀ file, File.findById s.files id = some file →
      notDepartmentAdmin actor file.department = false) :
    (releaseFile s actor id b now).2.status ≠ 403 := by
  generalize hr : releaseFile s actor id b now = r
  unfold releaseFile at hr
  split at hr
  · subst hr; exact (by decide : (400 : Nat) ≠ 403)
  split at hr
  · subst hr; exact (by decide : (404 : Nat) ≠ 403)
  rename_i file hfile
  split at hr
  · rename_i hrefused
    rw [hauth file hfile] at hrefused
    cases hrefused
  split at hr
  · subst hr; exact (by decide : (500 : Nat) ≠ 403)
  subst hr
  exact (by decide : (200 : Nat) ≠ 403)

/-- The receive route answers 403 exactly to an actor who is not the
distributee. -/
theorem receiveForward_status_403_iff {s : Store} {actor : User} {id : Nat} {now : Nat}
    {forward : Forward} (hf : Forward.findById s.forwards id = some forward) :
    (receiveForward s actor id now).2.status = 403
      ↔ forward.distributedTo ≠ some actor.name := by
  generalize hr : receiveForward s actor id now = r
  unfold receiveForward at hr
  rw [hf] at hr
  simp only at hr
  split at hr
  · rename_i hne
    subst hr
    simpa [Response.status] using hne
  rename_i heq
  have heq' : forward.distributedTo = some actor.name := by simpa using heq
  have hne : r.2.status ≠ 403 := by
    split at hr
    · subst hr; exact (by decide : (400 : Nat) ≠ 403)
    split at hr
    · subst hr; exact (by decide : (500 : Nat) ≠ 403)
    split at hr
    · subst hr; exact (by decide : (500 : Nat) ≠ 403)
    subst hr
    exact (by decide : (200 : Nat) ≠ 403)
  exact ⟨fun h => absurd h hne, fun h => absurd heq' h⟩

/-- The complete route answers 403 exactly to an actor who is not the
distributee. -/
theorem completeForward_status_403_iff {s : Store} {actor : User} {id : Nat} {b : Body}
    {now : Nat} {forward : Forward} (hf : Forward.findById s.forwards id = some forward) :
    (completeForward s actor id b now).2.status = 403
      ↔ forward.distributedTo ≠ some actor.name := by
  generalize hr : completeForward s actor id b now = r
  unfold completeForward at hr
  rw [hf] at hr
  simp only at hr
  split at hr
  · rename_i hne
    subst hr
    simpa [Response.status] using hne
  rename_i heq
  have heq' : forward.distributedTo = some actor.name := by simpa using heq
  have hne : r.2.status ≠ 403 := by
    split at hr
    · subst hr; exact (by decide : (400 : Nat) ≠ 403)
    split at hr
    · subst hr; exact (by decide : (500 : Nat) ≠ 403)
    subst hr
    exact (by decide : (200 : Nat) ≠ 403)
  exact ⟨fun h => absurd h hne, fun h => absurd heq' h⟩

/-- A superadmin never gets 403 from the approve route. -/
theorem approveForward_of_superadmin (s : Store) (actor : User) (id : Nat) (b : Body)
    (now : Nat) (hrole : actor.role = "superadmin") :
    (approveForward s actor id b now).2.status ≠ 403 := by
  cases hfind : Forward.findById s.forwards id with
  | none =>
    unfold approveForward
    split
    · exact (by decide : (400 : Nat) ≠ 403)
    · rw [hfind]
      exact (by decide : (404 : Nat) ≠ 403)
  | some forward =>
    exact approveForward_of_admitted hfind
      ((notDepartmentAdmin_eq_false _ _).2 (Or.inl hrole))

/-- A superadmin never gets 403 from the reject route. -/
theorem rejectForward_of_superadmin (s : Store) (actor : User) (id : Nat) (b : Body)
    (now : Nat) (hrole : actor.role = "superadmin") :
    (rejectForward s actor id b now).2.status ≠ 403 := by
  cases hfind : Forward.findById s.forwards id with
  | none =>
    unfold rejectForward
    split
    · exact (by decide : (400 : Nat) ≠ 403)
    · rw [hfind]
      exact (by decide : (404 : Nat) ≠ 403)
  | some forward =>
    exact rejectForward_of_admitted hfind
      ((notDepartmentAdmin_eq_false _ _).2 (Or.inl hrole))

/-! ## The file store under the forward routes -/

/-- Create Forward never writes the file store. -/
theorem createForward_files (s : Store) (actor : User) (b : Body) (now : Nat) :
    (createForward s actor b now).1.files = s.files := by
  generalize hr : createForward s actor b now = r
  unfold createForward at hr
  split at hr
  · subst hr; rfl
  split at hr
  · subst hr; rfl
  split at hr
  · subst hr; rfl
  split at hr
  · subst hr; rfl
  split at hr
  · subst hr; rfl
  rename_i s2 hs2
  subst hr
  simp only
  rw [(createNotification_frame _ _ _ _ _ _ _ _ _ _ _).2.1, (Movement.create_eq hs2).2.1]

/-- Admin Reject never writes the file store. -/
theorem rejectForward_files (s : Store) (actor : User) (id : Nat) (b : Body) (now : Nat) :
    (rejectForward s actor id b now).1.files = s.files := by
  generalize hr : rejectForward s actor id b now = r
  unfold rejectForward at hr
  split at hr
  · subst hr; rfl
  split at hr
  · subst hr; rfl
  split at hr
  · subst hr; rfl
  split at hr
  · subst hr; rfl
  simp only at hr
  split at hr
  · subst hr; rfl
  rename_i s2 hs2
  subst hr
  simp only
  rw [(notifyUser_frame _ _ _ _ _ _ _).2.1, (Movement.create_eq hs2).2.1]

/-- Employee Complete never writes the file store. -/
theorem completeForward_files (s : Store) (actor : User) (id : Nat) (b : Body) (now : Nat) :
    (completeForward s actor id b now).1.files = s.files := by
  generalize hr : completeForward s actor id b now = r
  unfold completeForward at hr
  split at hr
  · subst hr; rfl
  split at hr
  · subst hr; rfl
  split at hr
  · subst hr; rfl
  simp only at hr
  split at hr
  · subst hr; rfl
  rename_i s2 hs2
  subst hr
  simp only
  rw [(completeNotify_frame _ _ _ _).2.1, (Movement.create_eq hs2).2.1]

/-! ## Refusals come before the writes -/

/-- Create Forward returns the store untouched unless it answers 500 or
201. -/
theorem createForward_unchanged_or (s : Store) (actor : User) (b : Body) (now : Nat) :
    (createForward s actor b now).1 = s ∨ (createForward s actor b now).2.status = 500
      ∨ (createForward s actor b now).2.status = 201 := by
  generalize hr : createForward s actor b now = r
  unfold createForward at hr
  split at hr
  · subst hr; exact Or.inl rfl
  split at hr
  · subst hr; exact Or.inl rfl
  split at hr
  · subst hr; exact Or.inl rfl
  split at hr
  · subst hr; exact Or.inl rfl
  split at hr
  · subst hr; exact Or.inr (Or.inl rfl)
  subst hr
  exact Or.inr (Or.inr rfl)

/-- The approve route returns the store untouched unless it answers 500
or 200. -/
theorem approveForward_unchanged_or (s : Store) (actor : User) (id : Nat) (b : Body)
    (now : Nat) :
    (approveForward s actor id b now).1 = s ∨ (approveForward s actor id b now).2.status = 500
      ∨ (approveForward s actor id b now).2.status = 200 := by
  generalize hr : approveForward s actor id b now = r
  unfold approveForward at hr
  split at hr
  · subst hr; exact Or.inl rfl
  split at hr
  · subst hr; exact Or.inl rfl
  split at hr
  · subst hr; exact Or.inl rfl
  split at hr
  · subst hr; exact Or.inl rfl
  simp only at hr
  split at hr
  · subst hr; exact Or.inr (Or.inl rfl)
  split at hr
  · subst hr; exact Or.inr (Or.inl rfl)
  subst hr
  exact Or.inr (Or.inr rfl)

/-- The reject route returns the store untouched unless it answers 500
or 200. -/
theorem rejectForward_unchanged_or (s : Store) (actor : User) (id : Nat) (b : Body)
    (now : Nat) :
    (rejectForward s actor id b now).1 = s ∨ (rejectForward s actor id b now).2.status = 500
      ∨ (rejectForward s actor id b now).2.status = 200 := by
  generalize hr : rejectForward s actor id b now = r
  unfold rejectForward at hr
  split at hr
  · subst hr; exact Or.inl rfl
  split at hr
  · subst hr; exact Or.inl rfl
  split at hr
  · subst hr; exact Or.inl rfl
  split at hr
  · subst hr; exact Or.inl rfl
  simp only at hr
  split at hr
  · subst hr; exact Or.inr (Or.inl rfl)
  subst hr
  exact Or.inr (Or.inr rfl)

/-- The receive route returns the store untouched unless it answers 500
or 200. -/
theorem receiveForward_unchanged_or (s : Store) (actor : User) (id : Nat) (now : Nat) :
    (receiveForward s actor id now).1 = s ∨ (receiveForward s actor id now).2.status = 500
      ∨ (receiveForward s actor id now).2.status = 200 := by
  generalize hr : receiveForward s actor id now = r
  unfold receiveForward at hr
  split at hr
  · subst hr; exact Or.inl rfl
  split at hr
  · subst hr; exact Or.inl rfl
  split at hr
  · subst hr; exact Or.inl rfl
  simp only at hr
  split at hr
  · subst hr; exact Or.inr (Or.inl rfl)
  split at hr
  · subst hr; exact Or.inr (Or.inl rfl)
  subst hr
  exact Or.inr (Or.inr rfl)

/-- The complete route returns the store untouched unless it answers 500
or 200. -/
theorem completeForward_unchanged_or (s : Store) (actor : User) (id : Nat) (b : Body)
    (now : Nat) :
    (completeForward s actor id b now).1 = s
      ∨ (completeForward s actor id b now).2.status = 500
      ∨ (completeForward s actor id b now).2.status = 200 := by
  generalize hr : completeForward s actor id b now = r
  unfold completeForward at hr
  split at hr
  · subst hr; exact Or.inl rfl
  split at hr
  · subst hr; exact Or.inl rfl
  split at hr
  · subst hr; exact Or.inl rfl
  simp only at hr
  split at hr
  · subst hr; exact Or.inr (Or.inl rfl)
  subst hr
  exact Or.inr (Or.inr rfl)

/-- The release route returns the store untouched unless it answers 200. -/
theorem releaseFile_unchanged_or (s : Store) (actor : User) (id : Nat) (b : FileBody)
    (now : Nat) :
    (releaseFile s actor id b now).1 = s ∨ (releaseFile s actor id b now).2.status = 200 := by
  generalize hr : releaseFile s actor id b now = r
  unfold releaseFile at hr
  split at hr
  · subst hr; exact Or.inl rfl
  split at hr
  · subst hr; exact Or.inl rfl
  split at hr
  · subst hr; exact Or.inl rfl
  split at hr
  · subst hr; exact Or.inl rfl
  subst hr
  exact Or.inr rfl

/-- A status among 400, 403 and 404 is neither 500, 201 nor 200. -/
theorem refusal_status {n : Nat} (h : n = 400 ∨ n = 403 ∨ n = 404) :
    n ≠ 500 ∧ n ≠ 201 ∧ n ≠ 200 := by
  rcases h with h | h | h <;> subst h <;> decide

/-! ## Identity and code of the stored files -/

theorem map_updateFirst_of_preserved {α β : Type} (p : α → Bool) (g : α → α) (h : α → β)
    (hg : ∀ x, h (g x) = h x) (xs : List α) : (updateFirst p g xs).map h = xs.map h := by
  induction xs with
  | nil => rfl
  | cons x xs ih =>
    by_cases hx : p x = true
    · simp [updateFirst, hx, hg]
    · simp [updateFirst, hx, ih]

/-- The route that adds a movement writes the ledger and the id counter
only. -/
theorem addMovement_frame (s : Store) (actor : User) (fileId : String) (b : MovementBody)
    (now : Nat) :
    (addMovement s actor fileId b now).1.users = s.users
      ∧ (addMovement s actor fileId b now).1.files = s.files
      ∧ (addMovement s actor fileId b now).1.forwards = s.forwards
      ∧ (addMovement s actor fileId b now).1.notifications = s.notifications := by
  generalize hr : addMovement s actor fileId b now = r
  unfold addMovement at hr
  split at hr
  · subst hr; exact ⟨rfl, rfl, rfl, rfl⟩
  split at hr
  · subst hr; exact ⟨rfl, rfl, rfl, rfl⟩
  split at hr
  · subst hr; exact ⟨rfl, rfl, rfl, rfl⟩
  rename_i s1 hs1
  subst hr
  obtain ⟨h1, h2, h3, h4, -⟩ := Movement.create_eq hs1
  exact ⟨h1, h2, h3, h4⟩

theorem createMovement_frame (s : Store) (actor : User) (fileId : String) (b : MovementBody)
    (now : Nat) :
    (createMovement s actor fileId b now).users = s.users
      ∧ (createMovement s actor fileId b now).files = s.files
      ∧ (createMovement s actor fileId b now).forwards = s.forwards
      ∧ (createMovement s actor fileId b now).notifications = s.notifications :=
  addMovement_frame s actor fileId b now

/-- Saving assignments that keep id and code keeps the ids and codes of
the file store. -/
theorem File.assignAndSave_keys {s s' : Store} {code : String} {assign : File → File}
    (h : File.assignAndSave s code assign = some s')
    (hassign : ∀ f, ((assign f)._id, (assign f).code) = (f._id, f.code)) :
    s'.files.map (fun f => (f._id, f.code)) = s.files.map (fun f => (f._id, f.code)) := by
  rw [(File.assignAndSave_eq h).2.2.2.2.2]
  split
  · rfl
  · exact map_updateFirst_of_preserved _ _ _ hassign _

/-- The approve route keeps the ids and codes of the file store. -/
theorem approveForward_file_keys (s : Store) (actor : User) (id : Nat) (b : Body) (now : Nat) :
    (approveForward s actor id b now).1.files.map (fun f => (f._id, f.code))
      = s.files.map (fun f => (f._id, f.code)) := by
  generalize hr : approveForward s actor id b now = r
  unfold approveForward at hr
  split at hr
  · subst hr; rfl
  split at hr
  · subst hr; rfl
  split at hr
  · subst hr; rfl
  split at hr
  · subst hr; rfl
  simp only at hr
  split at hr
  · subst hr; rfl
  rename_i s2 hs2
  have hkeys := File.assignAndSave_keys hs2 (fun _ => rfl)
  split at hr
  · subst hr; exact hkeys
  rename_i s3 hs3
  subst hr
  simp only
  rw [(approveNotify_frame _ _ _ _ _).2.1, (Movement.create_eq hs3).2.1]
  exact hkeys

/-- The receive route keeps the ids and codes of the file store. -/
theorem receiveForward_file_keys (s : Store) (actor : User) (id : Nat) (now : Nat) :
    (receiveForward s actor id now).1.files.map (fun f => (f._id, f.code))
      = s.files.map (fun f => (f._id, f.code)) := by
  generalize hr : receiveForward s actor id now = r
  unfold receiveForward at hr
  split at hr
  · subst hr; rfl
  split at hr
  · subst hr; rfl
  split at hr
  · subst hr; rfl
  simp only at hr
  split at hr
  · subst hr; rfl
  rename_i s2 hs2
  have hkeys := File.assignAndSave_keys hs2 (fun _ => rfl)
  split at hr
  · subst hr; exact hkeys
  rename_i s3 hs3
  subst hr
  simp only
  rw [(notifyUser_frame _ _ _ _ _ _ _).2.1, (Movement.create_eq hs3).2.1]
  exact hkeys

/-- The generic routes of the forwards API never write the file store. -/
theorem updateForward_files (s : Store) (id : Nat) (b : Body) :
    (updateForward s id b).1.files = s.files := by
  unfold updateForward
  split
  · rfl
  · split
    · rfl
    · split <;> rfl

theorem updateForwardStatus_files (s : Store) (id : Nat) (b : Body) (now : Nat) :
    (updateForwardStatus s id b now).1.files = s.files := by
  unfold updateForwardStatus
  split
  · rfl
  · split <;> rfl

theorem deleteForward_files (s : Store) (id : Nat) : (deleteForward s id).1.files = s.files := by
  unfold deleteForward
  split <;> rfl

/-- The file store after Create File: as before, or with the new document
at the end. -/
theorem createFile_files (s : Store) (actor : User) (b : FileBody) (now currentYear : Nat) :
    (createFile s actor b now currentYear).1.files = s.files
      ∨ ((createFile s actor b now currentYear).2.isSuccess = true
          ∧ createFileErrors b = []
          ∧ (createFile s actor b now currentYear).2.data
              = some (createFileDoc s actor b now currentYear)
          ∧ (createFile s actor b now currentYear).1.files
              = s.files ++ [createFileDoc s actor b now currentYear]) := by
  generalize hr : createFile s actor b now currentYear = r
  unfold createFile at hr
  split at hr
  · subst hr; exact Or.inl rfl
  rename_i hval
  split at hr
  · subst hr; exact Or.inl rfl
  rename_i s1 hs1
  subst hr
  refine Or.inr ⟨rfl, by simpa using hval, rfl, ?_⟩
  simp only
  rw [(createMovement_frame _ _ _ _ _).2.1]
  unfold File.create at hs1
  split at hs1
  · cases hs1; rfl
  · cases hs1

/-- The release route keeps the ids and codes of the file store. -/
theorem releaseFile_file_keys (s : Store) (actor : User) (id : Nat) (b : FileBody) (now : Nat) :
    (releaseFile s actor id b now).1.files.map (fun f => (f._id, f.code))
      = s.files.map (fun f => (f._id, f.code)) := by
  generalize hr : releaseFile s actor id b now = r
  unfold releaseFile at hr
  split at hr
  · subst hr; rfl
  split at hr
  · subst hr; rfl
  split at hr
  · subst hr; rfl
  split at hr
  · subst hr; rfl
  subst hr
  simp only
  rw [(createMovement_frame _ _ _ _ _).2.1]
  exact map_updateFirst_of_preserved (fun f => f._id == id) (releaseAssign b)
    (fun f => (f._id, f.code)) (fun _ => rfl) s.files

/-! ## The holder after a release -/

/-- After a successful approve, the file the forward's code finds is held
by the employee named in the body. -/
theorem approveForward_holder {s : Store} {actor : User} {id : Nat} {b : Body} {now : Nat}
    (h : (approveForward s actor id b now).2.isSuccess = true) :
    ∃ forward d, Forward.findById s.forwards id = some forward
      ∧ b.distributedTo = some d ∧ d ≠ ""
      ∧ ∀ file, File.findOneByCode (approveForward s actor id b now).1.files forward.fileCode
            = some file → file.currentHolder = some d := by
  obtain ⟨forward, s2, s3, hf, hd, -, -, hs2, hs3, hres⟩ := approveForward_success h
  obtain ⟨d, hbd, hne⟩ : ∃ d, b.distributedTo = some d ∧ d ≠ "" := by
    cases hb : b.distributedTo with
    | none => simp [hb, notEmpty] at hd
    | some d => exact ⟨d, rfl, by simpa [hb, notEmpty] using hd⟩
  refine ⟨forward, d, hf, hbd, hne, ?_⟩
  intro file hafter
  rw [hres, (approveNotify_frame _ _ _ _ _).2.1, (Movement.create_eq hs3).2.1,
    (File.assignAndSave_eq hs2).2.2.2.2.2] at hafter
  cases hfile : File.findOneByCode s.files forward.fileCode with
  | none =>
    rw [hfile] at hafter
    simp only at hafter
    rw [hfile] at hafter
    cases hafter
  | some file0 =>
    rw [hfile] at hafter
    simp only at hafter
    unfold File.findOneByCode at hfile hafter
    rw [find?_updateFirst _ _ (fun x => by simp [approveAssign]), hfile] at hafter
    cases hafter
    simp [approveAssign, hbd]

/-- Inversion of a successful release. -/
theorem releaseFile_success {s : Store} {actor : User} {id : Nat} {b : FileBody} {now : Nat}
    (h : (releaseFile s actor id b now).2.isSuccess = true) :
    ∃ file a, File.findById s.files id = some file
      ∧ b.assignedTo = some a ∧ a ≠ ""
      ∧ notDepartmentAdmin actor file.department = false
      ∧ (releaseFile s actor id b now).2.data = some (releaseAssign b file)
      ∧ (releaseFile s actor id b now).1.files
          = updateFirst (fun f => f._id == id) (releaseAssign b) s.files
      ∧ File.findById (releaseFile s actor id b now).1.files id = some (releaseAssign b file) := by
  generalize hr : releaseFile s actor id b now = r at h ⊢
  unfold releaseFile at hr
  split at hr
  · subst hr; simp [Response.isSuccess] at h
  rename_i hval
  split at hr
  · subst hr; simp [Response.isSuccess] at h
  rename_i file hfile
  split at hr
  · subst hr; simp [Response.isSuccess] at h
  rename_i hauth
  split at hr
  · subst hr; simp [Response.isSuccess] at h
  subst hr
  obtain ⟨a, hba, hne⟩ : ∃ a, b.assignedTo = some a ∧ a ≠ "" := by
    cases hb : b.assignedTo with
    | none => simp [hb, notEmpty, check] at hval
    | some a => exact ⟨a, rfl, by simpa [hb, notEmpty, check] using hval⟩
  have hfiles : (createMovement
      { s with files := updateFirst (fun f => f._id == id) (releaseAssign b) s.files }
      actor file.code (releaseMovement actor b) now).files
      = updateFirst (fun f => f._id == id) (releaseAssign b) s.files :=
    (createMovement_frame _ _ _ _ _).2.1
  refine ⟨file, a, hfile, hba, hne, by simpa using hauth, rfl, hfiles, ?_⟩
  simp only
  rw [hfiles]
  unfold File.findById at hfile ⊢
  rw [find?_updateFirst (fun f => f._id == id) (releaseAssign b) (fun _ => rfl), hfile]
  rfl

/-! ## Create File -/

/-- The validation chain of Create File passes exactly when its four
checks hold. -/
theorem createFileErrors_eq_nil (b : FileBody) :
    createFileErrors b = [] ↔
      notEmpty b.title = true ∧ notEmpty b.department = true
        ∧ priorities.contains (b.priority.getD "") = true
        ∧ isBooleanValue b.isDigital = true := by
  unfold createFileErrors check
  generalize notEmpty b.title = c1
  generalize notEmpty b.department = c2
  generalize priorities.contains (b.priority.getD "") = c3
  generalize isBooleanValue b.isDigital = c4
  cases c1 <;> cases c2 <;> cases c3 <;> cases c4 <;> simp

/-- Inversion of a successful Create File. -/
theorem createFile_success {s : Store} {actor : User} {b : FileBody} {now currentYear : Nat}
    (h : (createFile s actor b now currentYear).2.isSuccess = true) :
    createFileErrors b = []
      ∧ (createFile s actor b now currentYear).2.data
          = some (createFileDoc s actor b now currentYear)
      ∧ (createFile s actor b now currentYear).1.files
          = s.files ++ [createFileDoc s actor b now currentYear] := by
  generalize hr : createFile s actor b now currentYear = r at h ⊢
  unfold createFile at hr
  split at hr
  · subst hr; simp [Response.isSuccess] at h
  rename_i hval
  split at hr
  · subst hr; simp [Response.isSuccess] at h
  rename_i s1 hs1
  subst hr
  refine ⟨by simpa using hval, rfl, ?_⟩
  simp only
  rw [(createMovement_frame _ _ _ _ _).2.1]
  unfold File.create at hs1
  split at hs1
  · cases hs1; rfl
  · cases hs1

/-- The length of a padded string. -/
theorem padStart_length (str : String) (n : Nat) (c : Char) :
    (padStart str n c).length = (n - str.length) + str.length := by
  unfold padStart
  rw [String.length_append, String.length_mk, List.length_replicate]

/-- A string that starts with the pattern matches it. -/
theorem regexMatch_append (pattern rest : String) :
    regexMatch (pattern ++ rest) pattern = true := by
  unfold regexMatch
  rw [List.any_eq_true]
  refine ⟨(pattern ++ rest).data, ?_, ?_⟩
  · cases h : (pattern ++ rest).data <;> simp [List.tails]
  · rw [List.isPrefixOf_iff_prefix, String.data_append]
    exact List.prefix_append _ _

/-! ## The year with 9999 files -/

theorem demoFullYear_matches : ∀ f ∈ demoFullYearFiles,
    regexMatch f.code ("THDC-F-" ++ toString 2026) = true := by
  intro f hf
  rw [demoFullYearFiles] at hf
  obtain ⟨i, -, rfl⟩ := List.mem_map.1 hf
  have h1 : ("THDC-F-" ++ toString 2026 : String) = "THDC-F-2026" := by decide
  have h2 : ("THDC-F-2026-" : String) = "THDC-F-2026" ++ "-" := by decide
  simp only
  rw [h1, h2, String.append_assoc]
  exact regexMatch_append _ _

theorem demoFullYear_count : File.countYear demoFullYearFiles 2026 = 9999 := by
  unfold File.countYear
  rw [List.filter_eq_self.2 demoFullYear_matches]
  rw [demoFullYearFiles, List.length_map, List.length_range]

theorem demoFullYear_code_length : ∀ f ∈ demoFullYearFiles, f.code.length = 16 := by
  intro f hf
  rw [demoFullYearFiles] at hf
  obtain ⟨i, hi, rfl⟩ := List.mem_map.1 hf
  have hi := List.mem_range.1 hi
  simp only
  rw [String.length_append, padStart_length]
  have hlen : (toString (i + 1)).length ≤ 4 := Nat.repr_length (i + 1) 4 (by decide) (by omega)
  have h12 : ("THDC-F-2026-" : String).length = 12 := by decide
  omega

theorem demoFullYear_next : File.findOneByCode demoFullYearFiles "THDC-F-2026-10000" = none := by
  unfold File.findOneByCode
  rw [List.find?_eq_none]
  intro f hf hcode
  have hlen := demoFullYear_code_length f hf
  have : f.code = "THDC-F-2026-10000" := by simpa using hcode
  rw [this] at hlen
  exact absurd hlen (by decide)

theorem demoFullYear_generate : generateFileCode demoFullYearFiles 2026 = "THDC-F-2026-10000" := by
  unfold generateFileCode
  rw [demoFullYear_count]
  decide

theorem demoFullYear_doc_code :
    (createFileDoc demoFullYear demoUser demoFileBody 3 2026).code = "THDC-F-2026-10000" := by
  have h : demoFullYear.files = demoFullYearFiles := rfl
  simp only [createFileDoc, h]
  exact demoFullYear_generate

theorem demoFullYear_create :
    (createFile demoFullYear demoUser demoFileBody 3 2026).2
      = .success 201 (some (createFileDoc demoFullYear demoUser demoFileBody 3 2026)) none := by
  have hvalid : (createFileDoc demoFullYear demoUser demoFileBody 3 2026).valid = true := by
    unfold File.valid
    rw [demoFullYear_doc_code]
    decide
  have hprio : priorities.contains
      (createFileDoc demoFullYear demoUser demoFileBody 3 2026).priority = true := by decide
  have hfree : (File.findOneByCode demoFullYear.files
      (createFileDoc demoFullYear demoUser demoFileBody 3 2026).code).isNone = true := by
    rw [demoFullYear_doc_code]
    exact Option.isNone_iff_eq_none.2 demoFullYear_next
  have hcreate : File.create demoFullYear
      (createFileDoc demoFullYear demoUser demoFileBody 3 2026)
      = some { demoFullYear with
          files := demoFullYear.files
            ++ [createFileDoc demoFullYear demoUser demoFileBody 3 2026]
          nextId := demoFullYear.nextId + 1 } := by
    unfold File.create
    rw [hvalid, hprio, hfree]
    rfl
  unfold createFile
  rw [if_neg (by decide), hcreate]

/-! ## The listing of files -/

theorem optionalField_all (m : String → String → Bool) (f : File) (path : String)
    (x : Option String) (value : String) (hget : f.get path = some value) :
    (optionalField path x).all (Condition.holds m f) = suppliedFilterMet x value := by
  unfold optionalField suppliedFilterMet notEmpty
  cases x with
  | none => rfl
  | some d =>
    by_cases hd : d = ""
    · simp [hd]
    · simp [hd, Condition.holds, hget]

theorem callerFilter_fields (m : String → String → Bool) (q : FileQuery) (f : File) :
    (callerFilter q).fields.all (Condition.holds m f) = callerPredicate q f := by
  unfold callerFilter callerPredicate
  simp only [List.all_append]
  rw [optionalField_all m f "department" q.department f.department rfl,
    optionalField_all m f "status" q.status f.status rfl,
    optionalField_all m f "priority" q.priority f.priority rfl,
    optionalField_all m f "type" q.type f.type rfl]

theorem roleOr_any (m : String → String → Bool) (actor : User) (f : File) :
    (match roleOr actor with
      | none => true
      | some cs => cs.any (Condition.holds m f)) = rolePredicate actor f := by
  unfold roleOr rolePredicate
  by_cases h1 : actor.role = "admin"
  · simp [h1, Condition.holds, File.get]
  · by_cases h2 : actor.role = "user"
    · simp [h2, Condition.holds, File.get, Bool.or_assoc]
    · simp [h1, h2]

theorem holds_scopeFilter (m : String → String → Bool) (q : FileQuery) (actor : User)
    (f : File) :
    Filter.holds m (scopeFilter (callerFilter q) actor) f
      = (callerPredicate q f && searchPredicate m q f && rolePredicate actor f) := by
  rw [← callerFilter_fields m q f, ← roleOr_any m actor f]
  unfold scopeFilter Filter.holds searchPredicate
  cases hrole : roleOr actor with
  | none =>
    cases hs : q.search with
    | none => simp [callerFilter, hs, notEmpty]
    | some t =>
      by_cases ht : t = ""
      · simp [callerFilter, hs, notEmpty, ht]
      · have hb : (t == "") = false := by simpa using ht
        cases hreq : f.requisitioner <;>
          simp [callerFilter, hs, notEmpty, ht, hb, Condition.holds, File.get, hreq,
            Bool.or_assoc, Bool.and_assoc]
  | some role =>
    cases hs : q.search with
    | none => simp [callerFilter, hs, notEmpty]
    | some t =>
      by_cases ht : t = ""
      · simp [callerFilter, hs, notEmpty, ht]
      · have hb : (t == "") = false := by simpa using ht
        cases hreq : f.requisitioner <;>
          simp [callerFilter, hs, notEmpty, ht, hb, Condition.holds, File.get, hreq,
            Bool.or_assoc, Bool.and_assoc]

/-! ## Forward statistics -/

theorem countStatus_cons (x : Forward) (l : List Forward) (st : String) :
    countStatus (x :: l) st = (if x.status = st then 1 else 0) + countStatus l st := by
  unfold countStatus
  by_cases h : x.status = st
  · simp [List.filter_cons, h, Nat.add_comm]
  · simp [List.filter_cons, h]

/-- The six counted statuses, In Transit and the statuses outside the
enum partition a list of forwards. -/
theorem countStatus_partition (l : List Forward) :
    countStatus l "Pending Admin Review" + countStatus l "Admin Approved"
      + countStatus l "Distributed to Employee" + countStatus l "Received"
      + countStatus l "Completed" + countStatus l "Rejected" + countStatus l "In Transit"
      + (l.filter (fun f => !forwardStatuses.contains f.status)).length = l.length := by
  induction l with
  | nil => rfl
  | cons x l ih =>
    simp only [countStatus_cons, List.filter_cons, List.length_cons]
    by_cases h1 : x.status = "Pending Admin Review"
    · have hc : "Pending Admin Review" ∈ forwardStatuses := by decide
      simp [h1, hc] at ih ⊢; omega
    by_cases h2 : x.status = "Admin Approved"
    · have hc : "Admin Approved" ∈ forwardStatuses := by decide
      simp [h2, hc] at ih ⊢; omega
    by_cases h3 : x.status = "Distributed to Employee"
    · have hc : "Distributed to Employee" ∈ forwardStatuses := by decide
      simp [h3, hc] at ih ⊢; omega
    by_cases h4 : x.status = "Received"
    · have hc : "Received" ∈ forwardStatuses := by decide
      simp [h4, hc] at ih ⊢; omega
    by_cases h5 : x.status = "Completed"
    · have hc : "Completed" ∈ forwardStatuses := by decide
      simp [h5, hc] at ih ⊢; omega
    by_cases h6 : x.status = "Rejected"
    · have hc : "Rejected" ∈ forwardStatuses := by decide
      simp [h6, hc] at ih ⊢; omega
    by_cases h7 : x.status = "In Transit"
    · have hc : "In Transit" ∈ forwardStatuses := by decide
      simp [h7, hc] at ih ⊢; omega
    · have hc : x.status ∉ forwardStatuses := by
        simp [forwardStatuses, h1, h2, h3, h4, h5, h6, h7]
      simp [h1, h2, h3, h4, h5, h6, h7, hc] at ih ⊢; omega
/-! ## The claims -/

/-- C1: whenever Admin Approve and Distribute answers with success, the
request named a forward and an employee, and the file carrying the
forward's file code (the one the route looks up; it is kept when it was
there before) afterwards has currentHolder = distributedTo, status =
Released and department = the forward's recipientDepartment, all three
together. -/
theorem C1_approve_sets_holder_status_department (s : Store) (actor : User) (id : Nat)
    (b : Body) (now : Nat) (h : (approveForward s actor id b now).2.isSuccess = true) :
    ∃ forward distributedTo,
      Forward.findById s.forwards id = some forward ∧ b.distributedTo = some distributedTo
      ∧ ((File.findOneByCode s.files forward.fileCode).isSome →
          (File.findOneByCode (approveForward s actor id b now).1.files
            forward.fileCode).isSome)
      ∧ ∀ file, File.findOneByCode (approveForward s actor id b now).1.files forward.fileCode
            = some file →
          file.currentHolder = some distributedTo ∧ file.status = "Released"
            ∧ file.department = forward.recipientDepartment := by
  obtain ⟨forward, s2, s3, hf, hd, -, -, hs2, hs3, hres⟩ := approveForward_success h
  obtain ⟨d, hbd⟩ : ∃ d, b.distributedTo = some d := by
    cases hb : b.distributedTo with
    | none => simp [hb, notEmpty] at hd
    | some d => exact ⟨d, rfl⟩
  have hfiles : (approveForward s actor id b now).1.files
      = (match File.findOneByCode s.files forward.fileCode with
          | none => s.files
          | some _ => updateFirst (fun f => f.code == forward.fileCode)
              (approveAssign forward b) s.files) := by
    rw [hres, (approveNotify_frame _ _ _ _ _).2.1, (Movement.create_eq hs3).2.1,
      (File.assignAndSave_eq hs2).2.2.2.2.2]
  refine ⟨forward, d, hf, hbd, ?_, ?_⟩
  · intro hsome
    rw [hfiles]
    cases hfile : File.findOneByCode s.files forward.fileCode with
    | none => simp [hfile] at hsome
    | some file =>
      simp only
      unfold File.findOneByCode at hfile ⊢
      rw [find?_updateFirst _ _ (fun x => by simp [approveAssign]), hfile]
      rfl
  · intro file hafter
    rw [hfiles] at hafter
    cases hfile : File.findOneByCode s.files forward.fileCode with
    | none =>
      rw [hfile] at hafter
      simp only at hafter
      rw [hfile] at hafter
      cases hafter
    | some file0 =>
      rw [hfile] at hafter
      simp only at hafter
      unfold File.findOneByCode at hfile hafter
      rw [find?_updateFirst _ _ (fun x => by simp [approveAssign]), hfile] at hafter
      cases hafter
      simp [approveAssign, hbd]

/-- Witness of C1: the HR admin approves the pending sample forward for
Alice. -/
theorem C1_witness :
    (approveForward demoPending demoAdmin 100 demoApproveBody 6).2.isSuccess = true
    ∧ ∃ forward distributedTo,
      Forward.findById demoPending.forwards 100 = some forward
      ∧ demoApproveBody.distributedTo = some distributedTo
      ∧ ((File.findOneByCode demoPending.files forward.fileCode).isSome →
          (File.findOneByCode
            (approveForward demoPending demoAdmin 100 demoApproveBody 6).1.files
            forward.fileCode).isSome)
      ∧ ∀ file, File.findOneByCode
            (approveForward demoPending demoAdmin 100 demoApproveBody 6).1.files
            forward.fileCode = some file →
          file.currentHolder = some distributedTo ∧ file.status = "Released"
            ∧ file.department = forward.recipientDepartment :=
  ⟨by decide,
   C1_approve_sets_holder_status_department demoPending demoAdmin 100 demoApproveBody 6
    (by decide)⟩

/-- C2, as stated, fails: on the store with the pending sample forward,
one call of `PATCH /forwards/:id/status` with status Received, made by
any user, leaves that forward Received. -/
theorem C2_counterexample_status_route :
    demoPending.forwards.map (fun f => (f._id, f.status)) = [(100, "Pending Admin Review")]
      ∧ (forwardsApi demoPending demoBob 6
          (.setStatus 100 { status := some "Received" })).1.forwards.map
            (fun f => (f._id, f.status)) = [(100, "Received")] := by
  decide

/-- C2, amended: for every request to the forwards API other than the
two generic updates (`PUT /:id`, `PATCH /:id/status`), a forward that is
Received afterwards was already in the store as it is or comes from a
forward of the same id that was Distributed to Employee, and one that is
Completed afterwards was already there or comes from one that was
Received; hence, when the ids of the store are distinct, a forward
Pending Admin Review before the request is neither Received nor
Completed after it. -/
theorem C2_engine_transitions_respect_order (s : Store) (actor : User) (now : Nat)
    (op : ForwardOp) (hop : op.isGenericUpdate = false) :
    (∀ fw' ∈ (forwardsApi s actor now op).1.forwards,
      (fw'.status = "Received" →
        fw' ∈ s.forwards
          ∨ ∃ fw ∈ s.forwards, fw._id = fw'._id ∧ fw.status = "Distributed to Employee")
      ∧ (fw'.status = "Completed" →
        fw' ∈ s.forwards ∨ ∃ fw ∈ s.forwards, fw._id = fw'._id ∧ fw.status = "Received"))
    ∧ ((s.forwards.map (fun f => f._id)).Nodup →
        ∀ fw ∈ s.forwards, fw.status = "Pending Admin Review" →
          ∀ fw' ∈ (forwardsApi s actor now op).1.forwards, fw'._id = fw._id →
            fw'.status ≠ "Received" ∧ fw'.status ≠ "Completed") := by
  have key : ∀ fw' ∈ (forwardsApi s actor now op).1.forwards,
      (fw'.status = "Received" →
        fw' ∈ s.forwards
          ∨ ∃ fw ∈ s.forwards, fw._id = fw'._id ∧ fw.status = "Distributed to Employee")
      ∧ (fw'.status = "Completed" →
        fw' ∈ s.forwards ∨ ∃ fw ∈ s.forwards, fw._id = fw'._id ∧ fw.status = "Received") := by
    intro fw' hmem
    cases op with
    | update id b => simp [ForwardOp.isGenericUpdate] at hop
    | setStatus id b => simp [ForwardOp.isGenericUpdate] at hop
    | create b =>
      simp only [forwardsApi] at hmem
      rcases createForward_forwards s actor b now with heq | ⟨fw, hst, heq⟩
      · rw [heq] at hmem
        exact ⟨fun _ => Or.inl hmem, fun _ => Or.inl hmem⟩
      · rw [heq, List.mem_append, List.mem_singleton] at hmem
        rcases hmem with hmem | rfl
        · exact ⟨fun _ => Or.inl hmem, fun _ => Or.inl hmem⟩
        · rw [hst]
          exact ⟨fun h => absurd h (by decide), fun h => absurd h (by decide)⟩
    | approve id b =>
      simp only [forwardsApi] at hmem
      rcases approveForward_forwards s actor id b now with heq | ⟨fw, -, -, heq⟩
      · rw [heq] at hmem
        exact ⟨fun _ => Or.inl hmem, fun _ => Or.inl hmem⟩
      · rw [heq] at hmem
        rcases Forward.mem_findByIdAndUpdate hmem with hmem | ⟨x, -, rfl⟩
        · exact ⟨fun _ => Or.inl hmem, fun _ => Or.inl hmem⟩
        · have hst : (x.applyUpdate (approveUpdateData actor b now)).status
              = "Distributed to Employee" := rfl
          rw [hst]
          exact ⟨fun h => absurd h (by decide), fun h => absurd h (by decide)⟩
    | reject id b =>
      simp only [forwardsApi] at hmem
      rcases rejectForward_forwards s actor id b now with heq | ⟨fw, -, -, heq⟩
      · rw [heq] at hmem
        exact ⟨fun _ => Or.inl hmem, fun _ => Or.inl hmem⟩
      · rw [heq] at hmem
        rcases Forward.mem_findByIdAndUpdate hmem with hmem | ⟨x, -, rfl⟩
        · exact ⟨fun _ => Or.inl hmem, fun _ => Or.inl hmem⟩
        · have hst : (x.applyUpdate (rejectUpdateData actor b now)).status = "Rejected" := rfl
          rw [hst]
          exact ⟨fun h => absurd h (by decide), fun h => absurd h (by decide)⟩
    | delete id =>
      simp only [forwardsApi] at hmem
      have := deleteForward_forwards s id fw' hmem
      exact ⟨fun _ => Or.inl this, fun _ => Or.inl this⟩
    | receive id =>
      simp only [forwardsApi] at hmem
      rcases receiveForward_forwards s actor id now with heq | ⟨fw, hfw, hfst, heq⟩
      · rw [heq] at hmem
        exact ⟨fun _ => Or.inl hmem, fun _ => Or.inl hmem⟩
      · rw [heq] at hmem
        rcases Forward.mem_findByIdAndUpdate hmem with hmem | ⟨x, hx, rfl⟩
        · exact ⟨fun _ => Or.inl hmem, fun _ => Or.inl hmem⟩
        · rw [hfw] at hx
          cases hx
          refine ⟨fun _ => Or.inr ⟨fw, (Forward.findById_mem hfw).1, rfl, hfst⟩, fun h => ?_⟩
          exact absurd (show "Received" = "Completed" from h) (by decide)
    | complete id b =>
      simp only [forwardsApi] at hmem
      rcases completeForward_forwards s actor id b now with heq | ⟨fw, hfw, hfst, heq⟩
      · rw [heq] at hmem
        exact ⟨fun _ => Or.inl hmem, fun _ => Or.inl hmem⟩
      · rw [heq] at hmem
        rcases Forward.mem_findByIdAndUpdate hmem with hmem | ⟨x, hx, rfl⟩
        · exact ⟨fun _ => Or.inl hmem, fun _ => Or.inl hmem⟩
        · rw [hfw] at hx
          cases hx
          refine ⟨fun h => ?_, fun _ => Or.inr ⟨fw, (Forward.findById_mem hfw).1, rfl, hfst⟩⟩
          exact absurd (show "Completed" = "Received" from h) (by decide)
  refine ⟨key, ?_⟩
  intro hnodup fw hfw hpending fw' hfw' hid
  have hinj := List.inj_on_of_nodup_map hnodup
  constructor
  · intro hrec
    rcases (key fw' hfw').1 hrec with hmem | ⟨x, hx, hxid, hxst⟩
    · have := hinj hmem hfw hid
      rw [this, hpending] at hrec
      exact absurd hrec (by decide)
    · have := hinj hx hfw (hxid.trans hid)
      rw [this, hpending] at hxst
      exact absurd hxst (by decide)
  · intro hcomp
    rcases (key fw' hfw').2 hcomp with hmem | ⟨x, hx, hxid, hxst⟩
    · have := hinj hmem hfw hid
      rw [this, hpending] at hcomp
      exact absurd hcomp (by decide)
    · have := hinj hx hfw (hxid.trans hid)
      rw [this, hpending] at hxst
      exact absurd hxst (by decide)

/-- Witness of C2 (amended): Alice asks to receive forward 100 while it is
still pending; it stays out of Received and Completed. -/
theorem C2_witness :
    (ForwardOp.receive 100).isGenericUpdate = false
    ∧ (demoPending.forwards.map (fun f => f._id)).Nodup
    ∧ ∀ fw ∈ demoPending.forwards, fw.status = "Pending Admin Review" →
        ∀ fw' ∈ (forwardsApi demoPending demoAlice 7 (.receive 100)).1.forwards,
          fw'._id = fw._id → fw'.status ≠ "Received" ∧ fw'.status ≠ "Completed" :=
  ⟨by decide, by decide,
   (C2_engine_transitions_respect_order demoPending demoAlice 7 (.receive 100) (by decide)).2
    (by decide)⟩

/-- C3: Employee Complete, asked by the very user the forward was
distributed to, fails with status 400 and leaves the whole store as it
was whenever the forward's status is not Received. -/
theorem C3_complete_requires_received (s : Store) (actor : User) (id : Nat) (b : Body)
    (now : Nat) (forward : Forward) (hf : Forward.findById s.forwards id = some forward)
    (hd : forward.distributedTo = some actor.name) (hs : forward.status ≠ "Received") :
    completeForward s actor id b now
      = (s, .failure 400 "File must be received before it can be completed")
    ∧ (completeForward s actor id b now).2.status = 400 := by
  have : completeForward s actor id b now
      = (s, .failure 400 "File must be received before it can be completed") := by
    unfold completeForward
    simp [hf, hd, hs]
  rw [this]
  exact ⟨rfl, rfl⟩

/-- Witness of C3: Alice asks to complete forward 100 right after it was
distributed to her, before receiving it. -/
theorem C3_witness :
    (∃ forward, Forward.findById demoDistributed.forwards 100 = some forward
      ∧ forward.distributedTo = some demoAlice.name ∧ forward.status ≠ "Received")
    ∧ completeForward demoDistributed demoAlice 100 {} 7
      = (demoDistributed, .failure 400 "File must be received before it can be completed")
    ∧ (completeForward demoDistributed demoAlice 100 {} 7).2.status = 400 :=
  ⟨⟨(demoDistributed.forwards.head (by decide)), by decide, by decide, by decide⟩,
   C3_complete_requires_received demoDistributed demoAlice 100 {} 7
    (demoDistributed.forwards.head (by decide)) (by decide) (by decide) (by decide)⟩

/-- C4 fails on the code: Update Forward computes the urgency flag from
the priority of the body alone, so the update of the pending sample
forward (priority Critical, urgent) with a body that carries remarks and
no priority succeeds and stores isUrgent = false beside priority =
Critical. -/
theorem C4_update_without_priority_clears_urgency :
    demoPending.forwards.map (fun f => (f._id, f.priority, f.isUrgent))
      = [(100, "Critical", true)]
    ∧ (forwardsApi demoPending demoUser 6
        (.update 100 { remarks := some "by hand" })).2.isSuccess = true
    ∧ (forwardsApi demoPending demoUser 6
        (.update 100 { remarks := some "by hand" })).1.forwards.map
          (fun f => (f._id, f.priority, f.isUrgent)) = [(100, "Critical", false)] := by
  decide

/-- C5: a successful Create Forward appends one forward, the one it
answers with, whose isUrgent is true exactly when its priority is Urgent
or Critical, and whose priority is Normal with isUrgent false when the
body has no priority; a successful Update Forward whose body supplies a
priority leaves, under the id, the forward it answers with, whose
priority is the supplied one and whose isUrgent is true exactly when
that priority is Urgent or Critical. -/
theorem C5_urgency_follows_priority (s : Store) (actor : User) (id : Nat) (b : Body)
    (now : Nat) :
    ((createForward s actor b now).2.isSuccess = true →
      ∃ fw, (createForward s actor b now).2.data = some fw
        ∧ (createForward s actor b now).1.forwards = s.forwards ++ [fw]
        ∧ (fw.isUrgent = true ↔ fw.priority = "Urgent" ∨ fw.priority = "Critical")
        ∧ (b.priority = none → fw.priority = "Normal" ∧ fw.isUrgent = false))
    ∧ (∀ p, b.priority = some p → (updateForward s id b).2.isSuccess = true →
      ∃ fw, (updateForward s id b).2.data = some fw
        ∧ Forward.findById (updateForward s id b).1.forwards id = some fw
        ∧ fw.priority = p
        ∧ (fw.isUrgent = true ↔ fw.priority = "Urgent" ∨ fw.priority = "Critical")) := by
  constructor
  · intro h
    obtain ⟨admin, fw, s2, -, -, -, hbuild, -, -, -, hfw, -, hres⟩ := createForward_success h
    obtain ⟨-, -, -, -, -, -, -, -, hprio, hurg, -⟩ := Forward.build_createForwardData hbuild
    refine ⟨fw, by rw [hres]; rfl, hfw, ?_, ?_⟩
    · rw [hurg, hprio]
      cases hb : b.priority with
      | none => simp
      | some p => simp
    · intro hnone
      rw [hurg, hprio, hnone]
      exact ⟨rfl, rfl⟩
  · intro p hp h
    generalize hr : updateForward s id b = r at h ⊢
    unfold updateForward at hr
    split at hr
    · subst hr; simp [Response.isSuccess] at h
    split at hr
    · subst hr; simp [Response.isSuccess] at h
    rename_i forward hf
    split at hr
    · subst hr; simp [Response.isSuccess] at h
    subst hr
    refine ⟨forward.applyUpdate (updateForwardData b), ?_, ?_, ?_, ?_⟩
    · simp [Response.data, Forward.findByIdAndUpdate, hf]
    · simp only
      rw [Forward.findById_findByIdAndUpdate, hf]
      rfl
    · simp [Forward.applyUpdate, updateForwardData, hp]
    · simp [Forward.applyUpdate, updateForwardData, hp]

/-- Witness of C5: the sample forward is created as Critical, and the
pending forward is then updated to Normal. -/
theorem C5_witness :
    (createForward demoStore demoUser demoForwardBody 5).2.isSuccess = true
    ∧ (updateForward demoPending 100 { priority := some "Normal" }).2.isSuccess = true
    ∧ (∃ fw, (createForward demoStore demoUser demoForwardBody 5).2.data = some fw
        ∧ (createForward demoStore demoUser demoForwardBody 5).1.forwards
            = demoStore.forwards ++ [fw]
        ∧ (fw.isUrgent = true ↔ fw.priority = "Urgent" ∨ fw.priority = "Critical")
        ∧ (demoForwardBody.priority = none → fw.priority = "Normal" ∧ fw.isUrgent = false))
    ∧ ∃ fw, (updateForward demoPending 100 { priority := some "Normal" }).2.data = some fw
        ∧ Forward.findById
            (updateForward demoPending 100 { priority := some "Normal" }).1.forwards 100
            = some fw
        ∧ fw.priority = "Normal"
        ∧ (fw.isUrgent = true ↔ fw.priority = "Urgent" ∨ fw.priority = "Critical") :=
  ⟨by decide, by decide,
   (C5_urgency_follows_priority demoStore demoUser 100 demoForwardBody 5).1 (by decide),
   (C5_urgency_follows_priority demoPending demoUser 100 { priority := some "Normal" } 5).2
    "Normal" rfl (by decide)⟩

/-- C6: every successful Create Forward, Admin Approve and Distribute,
Admin Reject, Employee Receive and Employee Complete appends exactly one
movement to the ledger and changes no other; its fileCode is the file
code of the forward the route answers with (the created or updated
forward) and its action label is not empty. -/
theorem C6_one_movement_per_transition (s : Store) (actor : User) (now : Nat) (op : ForwardOp)
    (hop : op.isTransition = true) (h : (forwardsApi s actor now op).2.isSuccess = true) :
    ∃ fw m, (forwardsApi s actor now op).2.data = some fw
      ∧ (forwardsApi s actor now op).1.movements = s.movements ++ [m]
      ∧ m.fileCode = fw.fileCode ∧ m.action ≠ "" := by
  cases op with
  | update id b => simp [ForwardOp.isTransition] at hop
  | setStatus id b => simp [ForwardOp.isTransition] at hop
  | delete id => simp [ForwardOp.isTransition] at hop
  | create b =>
    simp only [forwardsApi] at h ⊢
    obtain ⟨admin, fw, s2, -, -, -, hbuild, hs2, -, -, -, hmov, hres⟩ := createForward_success h
    obtain ⟨-, -, -, -, m, hm, hcode, hact, -⟩ := Movement.create_eq hs2
    refine ⟨fw, m, by rw [hres]; rfl, by rw [hmov, hm], ?_, ?_⟩
    · rw [hcode, (Forward.build_createForwardData hbuild).2.2.2.2.2.1]
      rfl
    · rw [hact]
      exact (by decide : "Forwarded to Admin" ≠ "")
  | approve id b =>
    simp only [forwardsApi] at h ⊢
    obtain ⟨forward, s2, s3, hf, -, -, -, hs2, hs3, hres⟩ := approveForward_success h
    obtain ⟨-, -, -, -, m, hm, hcode, hact, -⟩ := Movement.create_eq hs3
    refine ⟨forward.applyUpdate (approveUpdateData actor b now), m, ?_, ?_, ?_, ?_⟩
    · rw [approveForward_data h, hf]
      rfl
    · rw [hres, (approveNotify_frame _ _ _ _ _).2.2.2, hm, (File.assignAndSave_eq hs2).2.2.1]
    · rw [hcode]
      rfl
    · rw [hact]
      exact (by decide : "Admin Approved & Distributed" ≠ "")
  | reject id b =>
    simp only [forwardsApi] at h ⊢
    obtain ⟨forward, s2, hf, -, -, -, hs2, -, -, -, hmov⟩ := rejectForward_success h
    obtain ⟨-, -, -, -, m, hm, hcode, hact, -⟩ := Movement.create_eq hs2
    refine ⟨forward.applyUpdate (rejectUpdateData actor b now), m, ?_, by rw [hmov, hm], ?_, ?_⟩
    · rw [rejectForward_data h, hf]
      rfl
    · rw [hcode]
      rfl
    · rw [hact]
      exact (by decide : "Admin Rejected" ≠ "")
  | receive id =>
    simp only [forwardsApi] at h ⊢
    obtain ⟨forward, s2, s3, hf, -, -, hs2, hs3, -, -, -, hmov⟩ := receiveForward_success h
    obtain ⟨-, -, -, -, m, hm, hcode, hact, -⟩ := Movement.create_eq hs3
    refine ⟨forward.applyUpdate { status := some "Received", receivedAt := some now }, m, ?_,
      ?_, ?_, ?_⟩
    · rw [receiveForward_data h, hf]
      rfl
    · rw [hmov, hm, (File.assignAndSave_eq hs2).2.2.1]
    · rw [hcode]
      rfl
    · rw [hact]
      exact (by decide : "File Received" ≠ "")
  | complete id b =>
    simp only [forwardsApi] at h ⊢
    obtain ⟨forward, s2, hf, -, -, hs2, -, -, -, hmov⟩ := completeForward_success h
    obtain ⟨-, -, -, -, m, hm, hcode, hact, -⟩ := Movement.create_eq hs2
    refine ⟨forward.applyUpdate { status := some "Completed", completedAt := some now }, m, ?_,
      by rw [hmov, hm], ?_, ?_⟩
    · rw [completeForward_data h, hf]
      rfl
    · rw [hcode]
      rfl
    · rw [hact]
      exact (by decide : "File Completed" ≠ "")

/-- Witness of C6: Alice receives the forward distributed to her. -/
theorem C6_witness :
    (ForwardOp.receive 100).isTransition = true
    ∧ (forwardsApi demoDistributed demoAlice 7 (.receive 100)).2.isSuccess = true
    ∧ ∃ fw m, (forwardsApi demoDistributed demoAlice 7 (.receive 100)).2.data = some fw
      ∧ (forwardsApi demoDistributed demoAlice 7 (.receive 100)).1.movements
          = demoDistributed.movements ++ [m]
      ∧ m.fileCode = fw.fileCode ∧ m.action ≠ "" :=
  ⟨by decide, by decide,
   C6_one_movement_per_transition demoDistributed demoAlice 7 (.receive 100) (by decide)
    (by decide)⟩

/-- C7 fails on the code: the sequence number is the count of stored
codes of the year plus one. After the files 0001 and 0002 were created,
deleting 0002 makes the next Create File assign 0002 a second time (not
greater than, and equal to, a code assigned earlier); deleting 0001
instead makes it generate 0002, the code of a stored file, which the
unique index refuses, so Create File answers 500 and stores nothing. -/
theorem C7_sequence_number_reused_after_delete :
    demoTwoFiles.files.map (fun f => (f._id, f.code))
      = [(100, "THDC-F-2026-0001"), (101, "THDC-F-2026-0002")]
    ∧ (deleteFile demoTwoFiles demoAdmin 101).2.isSuccess = true
    ∧ (createFile (deleteFile demoTwoFiles demoAdmin 101).1 demoUser demoFileBody 3
        2026).2.data.map (fun f => f.code) = some "THDC-F-2026-0002"
    ∧ (deleteFile demoTwoFiles demoAdmin 100).2.isSuccess = true
    ∧ (deleteFile demoTwoFiles demoAdmin 100).1.files.map (fun f => f.code)
        = ["THDC-F-2026-0002"]
    ∧ generateFileCode (deleteFile demoTwoFiles demoAdmin 100).1.files 2026
        = "THDC-F-2026-0002"
    ∧ createFile (deleteFile demoTwoFiles demoAdmin 100).1 demoUser demoFileBody 3 2026
        = ((deleteFile demoTwoFiles demoAdmin 100).1, .failure 500 "Server error") := by
  decide

/-- C8, as stated, fails: the sample file exists, no admin or superadmin
of the department Legal exists, and Create Forward answers 400, not 404. -/
theorem C8_counterexample_status_400 :
    (File.findOneByCode demoStore.files "THDC-F-2026-0001").isSome = true
    ∧ (∀ u ∈ demoStore.users,
        ¬(u.department = "Legal" ∧ (u.role = "admin" ∨ u.role = "superadmin")))
    ∧ (createForward demoStore demoUser demoLegalBody 5).2
        = .failure 400 "No admin found for department: Legal"
    ∧ (createForward demoStore demoUser demoLegalBody 5).2.status ≠ 404 := by
  decide

/-- C8, amended: when the target file exists and no user with the
requested department and role admin or superadmin exists, Create Forward
fails with status 400 and leaves the whole store (forwards, movements,
notifications included) as it was. -/
theorem C8_no_admin_is_refused_with_400 (s : Store) (actor : User) (b : Body) (now : Nat)
    (hfile : (File.findOneByCode s.files (b.fileCode.getD "")).isSome = true)
    (hno : ∀ u ∈ s.users, ¬(u.department = b.recipientDepartment.getD ""
      ∧ (u.role = "admin" ∨ u.role = "superadmin"))) :
    (createForward s actor b now).1 = s
      ∧ (createForward s actor b now).2.status = 400
      ∧ (createForward s actor b now).2.isSuccess = false := by
  have hadmin : User.findDepartmentAdmin s.users (b.recipientDepartment.getD "") = none := by
    unfold User.findDepartmentAdmin
    rw [List.find?_eq_none]
    intro u hu
    simpa using hno u hu
  unfold createForward
  split
  · exact ⟨rfl, rfl, rfl⟩
  · split
    · rename_i hnone
      rw [hnone] at hfile
      cases hfile
    · rw [hadmin]
      exact ⟨rfl, rfl, rfl⟩

/-- Witness of C8 (amended): the sample file forwarded to Legal. -/
theorem C8_witness :
    (File.findOneByCode demoStore.files (demoLegalBody.fileCode.getD "")).isSome = true
    ∧ (∀ u ∈ demoStore.users, ¬(u.department = demoLegalBody.recipientDepartment.getD ""
        ∧ (u.role = "admin" ∨ u.role = "superadmin")))
    ∧ (createForward demoStore demoUser demoLegalBody 5).1 = demoStore
    ∧ (createForward demoStore demoUser demoLegalBody 5).2.status = 400
    ∧ (createForward demoStore demoUser demoLegalBody 5).2.isSuccess = false :=
  ⟨by decide, by decide,
   C8_no_admin_is_refused_with_400 demoStore demoUser demoLegalBody 5 (by decide) (by decide)⟩

/-- C9: for every body, a successful Create Forward appends one forward,
the one it answers with, whose status is Pending Admin Review, whose
sentBy is the actor's name, whose recipientName is the name of the
resolved admin (a stored user of the requested department with role
admin or superadmin), whose recipientDepartment is the requested one,
and whose originalRecipientName and originalRecipientDepartment are the
recipient name and department of the body. -/
theorem C9_create_forward_fields (s : Store) (actor : User) (b : Body) (now : Nat)
    (h : (createForward s actor b now).2.isSuccess = true) :
    ∃ fw admin, (createForward s actor b now).2.data = some fw
      ∧ (createForward s actor b now).1.forwards = s.forwards ++ [fw]
      ∧ admin ∈ s.users ∧ admin.department = fw.recipientDepartment
      ∧ (admin.role = "admin" ∨ admin.role = "superadmin")
      ∧ fw.status = "Pending Admin Review" ∧ fw.sentBy = actor.name
      ∧ fw.recipientName = admin.name
      ∧ b.recipientDepartment = some fw.recipientDepartment
      ∧ fw.originalRecipientName = b.recipientName
      ∧ fw.originalRecipientDepartment = b.recipientDepartment := by
  obtain ⟨admin, fw, s2, hval, -, hadmin, hbuild, -, -, -, hfw, -, hres⟩ :=
    createForward_success h
  obtain ⟨-, hst, hsent, hname, hdept, -, horig, horigd, -⟩ :=
    Forward.build_createForwardData hbuild
  unfold User.findDepartmentAdmin at hadmin
  have hmem := List.mem_of_find?_eq_some hadmin
  have hprop := List.find?_some hadmin
  simp only [Bool.and_eq_true, Bool.or_eq_true, beq_iff_eq] at hprop
  have hsome : b.recipientDepartment = some fw.recipientDepartment := by
    rw [hdept]
    cases hb : b.recipientDepartment with
    | none => simp [createForwardErrors, check, notEmpty, hb] at hval
    | some d => rfl
  exact ⟨fw, admin, by rw [hres]; rfl, hfw, hmem, by rw [hdept]; exact hprop.1, hprop.2, hst,
    hsent, hname, hsome, horig, horigd⟩

/-- Witness of C9: a body that itself carries status, sentBy, isUrgent and
the two original-recipient keys. -/
theorem C9_witness :
    (createForward demoStore demoUser demoForgedBody 5).2.isSuccess = true
    ∧ ∃ fw admin, (createForward demoStore demoUser demoForgedBody 5).2.data = some fw
      ∧ (createForward demoStore demoUser demoForgedBody 5).1.forwards
          = demoStore.forwards ++ [fw]
      ∧ admin ∈ demoStore.users ∧ admin.department = fw.recipientDepartment
      ∧ (admin.role = "admin" ∨ admin.role = "superadmin")
      ∧ fw.status = "Pending Admin Review" ∧ fw.sentBy = demoUser.name
      ∧ fw.recipientName = admin.name
      ∧ demoForgedBody.recipientDepartment = some fw.recipientDepartment
      ∧ fw.originalRecipientName = demoForgedBody.recipientName
      ∧ fw.originalRecipientDepartment = demoForgedBody.recipientDepartment :=
  ⟨by decide, C9_create_forward_fields demoStore demoUser demoForgedBody 5 (by decide)⟩

/-- C10, as stated, fails: Bob does not hold the sample file (its holder
is Uma), yet his Create Forward for it succeeds and stores a forward sent
by him. -/
theorem C10_counterexample_non_holder_forwards :
    File.findOneByCode demoStore.files "THDC-F-2026-0001" = some demoFile
    ∧ demoFile.currentHolder = some "Uma" ∧ demoBob.name = "Bob"
    ∧ (createForward demoStore demoBob demoForwardBody 5).2.isSuccess = true
    ∧ (createForward demoStore demoBob demoForwardBody 5).1.forwards.map
        (fun f => (f.fileCode, f.sentBy, f.status))
        = [("THDC-F-2026-0001", "Bob", "Pending Admin Review")] := by
  decide

/-- C10, amended: Create Forward does not consult the holder of the file.
Whatever holder each stored file is given, the route answers the same
and leaves the same store but for those holders; a request that succeeds
passed validation, named a stored file and found an admin or superadmin
of the requested department; a request that does not succeed leaves the
whole store, forwards included, as it was. -/
theorem C10_create_forward_ignores_holder (s : Store) (actor : User) (b : Body) (now : Nat)
    (holder : File → Option String) :
    createForward
        { s with files := s.files.map (fun f => { f with currentHolder := holder f }) }
        actor b now
      = ({ (createForward s actor b now).1 with
            files := s.files.map (fun f => { f with currentHolder := holder f }) },
         (createForward s actor b now).2)
    ∧ ((createForward s actor b now).2.isSuccess = true →
      createForwardErrors b = []
        ∧ (File.findOneByCode s.files (b.fileCode.getD "")).isSome = true
        ∧ ∃ admin,
            User.findDepartmentAdmin s.users (b.recipientDepartment.getD "") = some admin)
    ∧ ((createForward s actor b now).2.isSuccess = false →
      (createForward s actor b now).1 = s) := by
  refine ⟨?_, ?_, ?_⟩
  · apply createForward_of_files
    rw [File.findOneByCode_setHolder]
    cases File.findOneByCode s.files (b.fileCode.getD "") <;> rfl
  · intro h
    obtain ⟨admin, fw, s2, hval, hfile, hadmin, -, -⟩ := createForward_success h
    exact ⟨hval, hfile, admin, hadmin⟩
  · intro h
    generalize hr : createForward s actor b now = r at h ⊢
    unfold createForward at hr
    split at hr
    · subst hr; rfl
    split at hr
    · subst hr; rfl
    split at hr
    · subst hr; rfl
    split at hr
    · subst hr; rfl
    rename_i fw hbuild
    rename_i admin _
    obtain ⟨s2, hs2⟩ := createForwardMovement_isSome
      { s with forwards := s.forwards ++ [fw], nextId := s.nextId + 1 } hbuild
    rw [hs2] at hr
    subst hr
    simp [Response.isSuccess] at h

/-- Witness of C10 (amended): Bob, who holds nothing, is served on the
sample store, and is answered the same when every file is put in his
hands. -/
theorem C10_witness :
    (createForward demoStore demoBob demoForwardBody 5).2.isSuccess = true
    ∧ (createForward
        { demoStore with
          files := demoStore.files.map (fun f => { f with currentHolder := some "Bob" }) }
        demoBob demoForwardBody 5).2 = (createForward demoStore demoBob demoForwardBody 5).2
    ∧ createForwardErrors demoForwardBody = []
    ∧ (File.findOneByCode demoStore.files (demoForwardBody.fileCode.getD "")).isSome = true
    ∧ ∃ admin, User.findDepartmentAdmin demoStore.users
        (demoForwardBody.recipientDepartment.getD "") = some admin :=
  ⟨by decide,
   by rw [(C10_create_forward_ignores_holder demoStore demoBob demoForwardBody 5
      (fun _ => some "Bob")).1],
   (C10_create_forward_ignores_holder demoStore demoBob demoForwardBody 5
      (fun _ => some "Bob")).2.1 (by decide)⟩

/-- C11: for an existing forward and a body valid for both routes, Admin
Approve and Distribute answers 403 exactly when the actor is neither a
superadmin nor an admin of the forward's recipientDepartment, and so
does Admin Reject; the refusal does not look at the forward's status and
leaves the store as it was. -/
theorem C11_admin_routes_denied_iff (s : Store) (actor : User) (id : Nat) (b : Body)
    (now : Nat) (forward : Forward) (hf : Forward.findById s.forwards id = some forward)
    (hd : notEmpty b.distributedTo = true) (hr : notEmpty b.rejectionReason = true) :
    ((approveForward s actor id b now).2.status = 403
      ↔ ¬(actor.role = "superadmin"
          ∨ (actor.role = "admin" ∧ actor.department = forward.recipientDepartment)))
    ∧ ((rejectForward s actor id b now).2.status = 403
      ↔ ¬(actor.role = "superadmin"
          ∨ (actor.role = "admin" ∧ actor.department = forward.recipientDepartment)))
    ∧ (¬(actor.role = "superadmin"
          ∨ (actor.role = "admin" ∧ actor.department = forward.recipientDepartment)) →
        approveForward s actor id b now
          = (s, .failure 403 "Not authorized to approve forwards for this department")
        ∧ rejectForward s actor id b now
          = (s, .failure 403 "Not authorized to reject forwards for this department")) := by
  have hrefused : ¬(actor.role = "superadmin"
      ∨ (actor.role = "admin" ∧ actor.department = forward.recipientDepartment)) →
      notDepartmentAdmin actor forward.recipientDepartment = true := by
    intro hn
    cases hnd : notDepartmentAdmin actor forward.recipientDepartment with
    | true => rfl
    | false => exact absurd ((notDepartmentAdmin_eq_false _ _).1 hnd) hn
  refine ⟨⟨fun h hauth => ?_, fun hn => ?_⟩, ⟨fun h hauth => ?_, fun hn => ?_⟩, fun hn => ?_⟩
  · exact approveForward_of_admitted hf ((notDepartmentAdmin_eq_false _ _).2 hauth) h
  · rw [approveForward_of_refused hf hd (hrefused hn)]
    rfl
  · exact rejectForward_of_admitted hf ((notDepartmentAdmin_eq_false _ _).2 hauth) h
  · rw [rejectForward_of_refused hf hr (hrefused hn)]
    rfl
  · exact ⟨approveForward_of_refused hf hd (hrefused hn),
      rejectForward_of_refused hf hr (hrefused hn)⟩

/-- Witness of C11: forward 100 is already distributed, and the plain IT
user still gets 403 rather than the status error. -/
theorem C11_witness :
    (Forward.findById demoDistributed.forwards 100
        = some (demoDistributed.forwards.head (by decide))
      ∧ notEmpty demoAdminBody.distributedTo = true
      ∧ notEmpty demoAdminBody.rejectionReason = true)
    ∧ (approveForward demoDistributed demoUser 100 demoAdminBody 8).2.status = 403
    ∧ (rejectForward demoDistributed demoUser 100 demoAdminBody 8).2.status = 403 :=
  ⟨⟨by decide, by decide, by decide⟩,
   (C11_admin_routes_denied_iff demoDistributed demoUser 100 demoAdminBody 8
      (demoDistributed.forwards.head (by decide)) (by decide) (by decide) (by decide)).1.2
      (by decide),
   (C11_admin_routes_denied_iff demoDistributed demoUser 100 demoAdminBody 8
      (demoDistributed.forwards.head (by decide)) (by decide) (by decide) (by decide)).2.1.2
      (by decide)⟩

/-- C12, as stated, fails: forward 100 is distributed to Alice, and the
superadmin Ravi gets 403 from Employee Receive and from Employee
Complete. -/
theorem C12_counterexample_superadmin_refused :
    demoRoot.role = "superadmin"
    ∧ demoRootDistributed.forwards.map (fun f => (f._id, f.distributedTo, f.status))
        = [(100, some "Alice", "Distributed to Employee")]
    ∧ receiveForward demoRootDistributed demoRoot 100 7
        = (demoRootDistributed, .failure 403 "You are not authorized to receive this file")
    ∧ completeForward demoRootDistributed demoRoot 100 {} 7
        = (demoRootDistributed, .failure 403 "You are not authorized to complete this file") := by
  decide

/-- C12, amended: a superadmin never gets 403 from Create Forward, Admin
Approve and Distribute, Admin Reject or Direct Release; Employee Receive
and Employee Complete have no role bypass: for an existing forward they
answer 403 to a superadmin exactly when the superadmin's name is not the
forward's distributedTo. -/
theorem C12_superadmin_bypass_on_admin_routes (s : Store) (actor : User) (id : Nat) (b : Body)
    (fb : FileBody) (now : Nat) (hrole : actor.role = "superadmin") :
    (createForward s actor b now).2.status ≠ 403
    ∧ (approveForward s actor id b now).2.status ≠ 403
    ∧ (rejectForward s actor id b now).2.status ≠ 403
    ∧ (releaseFile s actor id fb now).2.status ≠ 403
    ∧ ∀ forward, Forward.findById s.forwards id = some forward →
        ((receiveForward s actor id now).2.status = 403
          ↔ forward.distributedTo ≠ some actor.name)
        ∧ ((completeForward s actor id b now).2.status = 403
          ↔ forward.distributedTo ≠ some actor.name) :=
  ⟨createForward_status_ne_403 s actor b now,
   approveForward_of_superadmin s actor id b now hrole,
   rejectForward_of_superadmin s actor id b now hrole,
   releaseFile_of_admitted (fun _ _ => (notDepartmentAdmin_eq_false _ _).2 (Or.inl hrole)),
   fun _ hf => ⟨receiveForward_status_403_iff hf, completeForward_status_403_iff hf⟩⟩

/-- Witness of C12 (amended): the superadmin approves the pending sample
forward of the HR department without being refused. -/
theorem C12_witness :
    demoRoot.role = "superadmin"
    ∧ (approveForward demoPending demoRoot 100 demoApproveBody 6).2.status ≠ 403 :=
  ⟨by decide,
   (C12_superadmin_bypass_on_admin_routes demoPending demoRoot 100 demoApproveBody {} 6
      (by decide)).2.1⟩

/-- C13: Create Forward, Admin Reject and Employee Complete leave the
file store as it was, for every store, actor and request, on every path
(success, refusal or server error). -/
theorem C13_file_store_untouched (s : Store) (actor : User) (id : Nat) (b : Body) (now : Nat) :
    (createForward s actor b now).1.files = s.files
    ∧ (rejectForward s actor id b now).1.files = s.files
    ∧ (completeForward s actor id b now).1.files = s.files :=
  ⟨createForward_files s actor b now, rejectForward_files s actor id b now,
   completeForward_files s actor id b now⟩

/-- C14: a successful Admin Reject with reason r leaves, under the id, the
forward it answers with: status Rejected, adminApprovedBy the actor's
name, adminRemarks the text `Rejected: ` followed by r, distributedTo as
before; and it appends one movement with action Admin Rejected whose
recipientName is the forward's sentBy. -/
theorem C14_reject_effect (s : Store) (actor : User) (id : Nat) (b : Body) (now : Nat)
    (r : String) (hr : b.rejectionReason = some r)
    (h : (rejectForward s actor id b now).2.isSuccess = true) :
    ∃ forward fw m,
      Forward.findById s.forwards id = some forward
      ∧ (rejectForward s actor id b now).2.data = some fw
      ∧ Forward.findById (rejectForward s actor id b now).1.forwards id = some fw
      ∧ fw.status = "Rejected" ∧ fw.adminApprovedBy = some actor.name
      ∧ fw.adminRemarks = some ("Rejected: " ++ r)
      ∧ fw.distributedTo = forward.distributedTo
      ∧ (rejectForward s actor id b now).1.movements = s.movements ++ [m]
      ∧ m.action = "Admin Rejected" ∧ m.recipientName = some forward.sentBy
      ∧ m.fileCode = forward.fileCode := by
  obtain ⟨forward, s2, hf, -, -, -, hs2, -, -, hfw, hmov⟩ := rejectForward_success h
  obtain ⟨-, -, -, -, m, hm, hcode, hact, hrec⟩ := Movement.create_eq hs2
  refine ⟨forward, forward.applyUpdate (rejectUpdateData actor b now), m, hf, ?_, ?_, rfl, rfl,
    ?_, rfl, by rw [hmov, hm], hact, hrec, hcode⟩
  · rw [rejectForward_data h, hf]
    rfl
  · rw [hfw, Forward.findById_findByIdAndUpdate, hf]
    rfl
  · simp [Forward.applyUpdate, rejectUpdateData, hr]

/-- Witness of C14: the HR admin rejects the pending sample forward. -/
theorem C14_witness :
    (demoAdminBody.rejectionReason = some "wrong department"
      ∧ (rejectForward demoPending demoAdmin 100 demoAdminBody 6).2.isSuccess = true)
    ∧ ∃ forward fw m,
      Forward.findById demoPending.forwards 100 = some forward
      ∧ (rejectForward demoPending demoAdmin 100 demoAdminBody 6).2.data = some fw
      ∧ Forward.findById (rejectForward demoPending demoAdmin 100 demoAdminBody 6).1.forwards
          100 = some fw
      ∧ fw.status = "Rejected" ∧ fw.adminApprovedBy = some demoAdmin.name
      ∧ fw.adminRemarks = some ("Rejected: " ++ "wrong department")
      ∧ fw.distributedTo = forward.distributedTo
      ∧ (rejectForward demoPending demoAdmin 100 demoAdminBody 6).1.movements
          = demoPending.movements ++ [m]
      ∧ m.action = "Admin Rejected" ∧ m.recipientName = some forward.sentBy
      ∧ m.fileCode = forward.fileCode :=
  ⟨⟨by decide, by decide⟩,
   C14_reject_effect demoPending demoAdmin 100 demoAdminBody 6 "wrong department" (by decide)
    (by decide)⟩

/-- C15 fails on the code: the receive route assigns status,
currentHolder and assignedTo on the file document, but `fileSchema` has
no path assignedTo, so that assignment stores nothing. When Alice
receives forward 100 the forward becomes Received and the stored file
has status Received and currentHolder Alice, and no other path of it
records the assignee. -/
theorem C15_receive_does_not_store_assignedTo :
    (∀ (actor : User) (f : File),
      receiveAssign actor f
        = ((f.set "status" "Received").set "currentHolder" actor.name).set "assignedTo"
            actor.name)
    ∧ (∀ (f : File) (v : String), f.set "assignedTo" v = f)
    ∧ (receiveForward demoDistributed demoAlice 100 7).2.isSuccess = true
    ∧ (receiveForward demoDistributed demoAlice 100 7).1.forwards.map
        (fun f => (f._id, f.status)) = [(100, "Received")]
    ∧ (receiveForward demoDistributed demoAlice 100 7).1.files
        = [{ _id := 10, code := "THDC-F-2026-0001", title := "Requisition", department := "HR"
             status := "Received", priority := "Normal", type := "Physical"
             requisitioner := some "Uma", remarks := none, datetime := none
             currentHolder := some "Alice", createdBy := "Uma", createdAt := 1 }] := by
  refine ⟨fun _ _ => rfl, fun _ _ => rfl, ?_, ?_, ?_⟩ <;> decide

/-- C16: Employee Receive asked by an actor whose name is not the
forward's distributedTo answers 403 whatever the status of the forward,
and returns the whole store (forwards, files, movements included) as it
was. -/
theorem C16_receive_refuses_other_actor (s : Store) (actor : User) (id : Nat) (now : Nat)
    (forward : Forward) (hf : Forward.findById s.forwards id = some forward)
    (hne : forward.distributedTo ≠ some actor.name) :
    receiveForward s actor id now
      = (s, .failure 403 "You are not authorized to receive this file")
    ∧ (receiveForward s actor id now).2.status = 403 := by
  have : receiveForward s actor id now
      = (s, .failure 403 "You are not authorized to receive this file") := by
    unfold receiveForward
    simp [hf, hne]
  rw [this]
  exact ⟨rfl, rfl⟩

/-- Witness of C16: Bob asks to receive the forward distributed to Alice. -/
theorem C16_witness :
    (Forward.findById demoDistributed.forwards 100
        = some (demoDistributed.forwards.head (by decide))
      ∧ (demoDistributed.forwards.head (by decide)).distributedTo ≠ some demoBob.name)
    ∧ receiveForward demoDistributed demoBob 100 7
        = (demoDistributed, .failure 403 "You are not authorized to receive this file")
    ∧ (receiveForward demoDistributed demoBob 100 7).2.status = 403 :=
  ⟨⟨by decide, by decide⟩,
   C16_receive_refuses_other_actor demoDistributed demoBob 100 7
    (demoDistributed.forwards.head (by decide)) (by decide) (by decide)⟩

/-- C17 fails on the code in its assignedTo part: the release route
assigns status, currentHolder and assignedTo on the file document, but
`fileSchema` has no path assignedTo, so that assignment stores nothing.
When the superadmin releases the sample file to Bob the stored file has
status Released and currentHolder Bob, every other path as before, and
no path of it records the assignee. -/
theorem C17_release_does_not_store_assignedTo :
    (∀ (b : FileBody) (f : File),
      releaseAssign b f
        = ((f.set "status" "Released").set "currentHolder" (b.assignedTo.getD "")).set
            "assignedTo" (b.assignedTo.getD ""))
    ∧ (∀ (f : File) (v : String), f.set "assignedTo" v = f)
    ∧ (releaseFile demoRootStore demoRoot 10 demoReleaseBody 9).2.isSuccess = true
    ∧ (releaseFile demoRootStore demoRoot 10 demoReleaseBody 9).2.data
        = some { demoFile with status := "Released", currentHolder := some "Bob" }
    ∧ (releaseFile demoRootStore demoRoot 10 demoReleaseBody 9).1.files
        = [{ _id := 10, code := "THDC-F-2026-0001", title := "Requisition", department := "IT"
             status := "Released", priority := "Normal", type := "Physical"
             requisitioner := some "Uma", remarks := none, datetime := none
             currentHolder := some "Bob", createdBy := "Uma", createdAt := 1 }] := by
  refine ⟨fun _ _ => rfl, fun _ _ => rfl, ?_, ?_, ?_⟩ <;> decide

/-- C18: whenever Create Forward, Admin Approve and Distribute, Admin
Reject, Employee Receive, Employee Complete or Direct Release answers
with a validation or state-conflict error (400), an authorization error
(403) or a not-found error (404), the store it returns, with its files,
forwards, movements and notifications, is the store it was given. -/
theorem C18_refusals_change_nothing (s : Store) (actor : User) (now : Nat) :
    (∀ (op : ForwardOp), op.isTransition = true →
      ((forwardsApi s actor now op).2.status = 400 ∨ (forwardsApi s actor now op).2.status = 403
        ∨ (forwardsApi s actor now op).2.status = 404) →
      (forwardsApi s actor now op).1 = s)
    ∧ ∀ (id : Nat) (fb : FileBody),
      ((releaseFile s actor id fb now).2.status = 400
        ∨ (releaseFile s actor id fb now).2.status = 403
        ∨ (releaseFile s actor id fb now).2.status = 404) →
      (releaseFile s actor id fb now).1 = s := by
  constructor
  · intro op hop hst
    obtain ⟨h500, h201, h200⟩ := refusal_status hst
    cases op with
    | update id b => simp [ForwardOp.isTransition] at hop
    | setStatus id b => simp [ForwardOp.isTransition] at hop
    | delete id => simp [ForwardOp.isTransition] at hop
    | create b =>
      rcases createForward_unchanged_or s actor b now with h | h | h
      · exact h
      · exact absurd h h500
      · exact absurd h h201
    | approve id b =>
      rcases approveForward_unchanged_or s actor id b now with h | h | h
      · exact h
      · exact absurd h h500
      · exact absurd h h200
    | reject id b =>
      rcases rejectForward_unchanged_or s actor id b now with h | h | h
      · exact h
      · exact absurd h h500
      · exact absurd h h200
    | receive id =>
      rcases receiveForward_unchanged_or s actor id now with h | h | h
      · exact h
      · exact absurd h h500
      · exact absurd h h200
    | complete id b =>
      rcases completeForward_unchanged_or s actor id b now with h | h | h
      · exact h
      · exact absurd h h500
      · exact absurd h h200
  · intro id fb hst
    obtain ⟨-, -, h200⟩ := refusal_status hst
    rcases releaseFile_unchanged_or s actor id fb now with h | h
    · exact h
    · exact absurd h h200

/-- Witness of C18: the approval of an already distributed forward (400)
and a Direct Release asked by a plain user (403). -/
theorem C18_witness :
    ((ForwardOp.approve 100 demoApproveBody).isTransition = true
      ∧ (forwardsApi demoDistributed demoAdmin 8 (.approve 100 demoApproveBody)).2.status = 400
      ∧ (releaseFile demoStore demoBob 10 demoReleaseBody 8).2.status = 403)
    ∧ (forwardsApi demoDistributed demoAdmin 8 (.approve 100 demoApproveBody)).1
        = demoDistributed
    ∧ (releaseFile demoStore demoBob 10 demoReleaseBody 8).1 = demoStore :=
  ⟨⟨by decide, by decide, by decide⟩,
   (C18_refusals_change_nothing demoDistributed demoAdmin 8).1 (.approve 100 demoApproveBody)
      (by decide) (Or.inl (by decide)),
   (C18_refusals_change_nothing demoStore demoBob 8).2 10 demoReleaseBody
      (Or.inr (Or.inl (by decide)))⟩

/-- C19 fails on the code for the routes of `forwards.js`: their
`Movement.create` is awaited inside the route's `try` with no catch of
its own. Forward 100, whose file code was blanked through
`PUT /api/forwards/100`, is approved by the HR admin: the forward is
updated to Distributed to Employee, the movement is refused by the
schema (empty fileCode), the ledger stays as it was, and the route
answers 500 Server error instead of success. -/
theorem C19_ledger_failure_fails_approve :
    demoBlankCode.forwards.map (fun f => (f._id, f.fileCode, f.status))
      = [(100, "", "Pending Admin Review")]
    ∧ Movement.create demoBlankCode
        (approveMovement (demoBlankCode.forwards.head (by decide)) demoAdmin demoApproveBody 6)
        = none
    ∧ (approveForward demoBlankCode demoAdmin 100 demoApproveBody 6).2
        = .failure 500 "Server error"
    ∧ (approveForward demoBlankCode demoAdmin 100 demoApproveBody 6).1.forwards.map
        (fun f => (f._id, f.status, f.distributedTo))
        = [(100, "Distributed to Employee", some "Alice")]
    ∧ (approveForward demoBlankCode demoAdmin 100 demoApproveBody 6).1.movements
        = demoBlankCode.movements := by
  decide

/-- C20, as stated, fails: for the sample file the route returns the
movement of time 5 before the movement of time 6, which is not datetime
descending. -/
theorem C20_counterexample_not_descending :
    ∃ l, (getFileMovements demoDistributed "THDC-F-2026-0001").2.data = some l
      ∧ l.map (fun m => (m.action, m.datetime))
          = [("Forwarded to Admin", 5), ("Admin Approved & Distributed", 6)]
      ∧ ¬ l.Pairwise (fun a b => a.datetime ≥ b.datetime) :=
  ⟨_, rfl, by decide, by decide⟩

/-- C20, amended: for every file code and every ledger state, the route
answers with the movements of that file code, each as often as the
ledger holds it and in the order of the ledger (no sort is applied), and
changes nothing. -/
theorem C20_file_movements_in_ledger_order (s : Store) (fileId : String) :
    ∃ l, (getFileMovements s fileId).2 = .success 200 (some l) none
      ∧ (getFileMovements s fileId).1 = s
      ∧ (∀ m, m ∈ l ↔ m ∈ s.movements ∧ m.fileCode = fileId)
      ∧ (∀ m, l.count m = if m.fileCode = fileId then s.movements.count m else 0)
      ∧ l.Sublist s.movements := by
  refine ⟨s.movements.filter (fun m => m.fileCode == fileId), rfl, rfl, ?_, ?_,
    List.filter_sublist _⟩
  · intro m
    simp [List.mem_filter]
  · intro m
    by_cases h : m.fileCode = fileId
    · rw [List.count_filter (by simpa using h), if_pos h]
    · rw [if_neg h, List.count_eq_zero]
      simp [List.mem_filter, h]

/-- C21 fails on the code: the route that deletes a movement has no role
check (its answer does not depend on the actor at all), so the plain
user Bob deletes movement 101 of the ledger and is answered with
success. -/
theorem C21_plain_user_deletes_movement :
    (∀ (s : Store) (a a' : User) (movementId : Nat),
      deleteMovement s a movementId = deleteMovement s a' movementId)
    ∧ demoBob.role = "user"
    ∧ demoPending.movements.map (fun m => (m._id, m.action)) = [(101, "Forwarded to Admin")]
    ∧ (deleteMovement demoPending demoBob 101).2
        = .success 200 none (some "Movement deleted successfully")
    ∧ (deleteMovement demoPending demoBob 101).1.movements = [] := by
  refine ⟨fun _ _ _ _ => rfl, ?_, ?_, ?_, ?_⟩ <;> decide

/-- C22, as stated, fails: Update File with a body that carries a code
gives file 10 that code. -/
theorem C22_counterexample_update_changes_code :
    demoStore.files.map (fun f => (f._id, f.code)) = [(10, "THDC-F-2026-0001")]
    ∧ (filesApi demoStore demoBob 6 2026 (.update 10 demoRecodeBody)).2.isSuccess = true
    ∧ (filesApi demoStore demoBob 6 2026 (.update 10 demoRecodeBody)).1.files.map
        (fun f => (f._id, f.code)) = [(10, "HQ-1")] := by
  decide

/-- C22, amended: under every request to the forwards API, and under
Create File and Direct Release, every stored file keeps its place, its
id and its code: the list of the (id, code) pairs before the request is
an initial segment of the list after it (the whole of it for every route
but Create File). -/
theorem C22_code_kept_outside_update (s : Store) (actor : User) (now currentYear : Nat) :
    (∀ op : ForwardOp,
      (forwardsApi s actor now op).1.files.map (fun f => (f._id, f.code))
        = s.files.map (fun f => (f._id, f.code)))
    ∧ ∀ op : FileOp, op.keepsCode = true →
      List.IsPrefix (s.files.map (fun f => (f._id, f.code)))
        ((filesApi s actor now currentYear op).1.files.map (fun f => (f._id, f.code))) := by
  constructor
  · intro op
    cases op with
    | create b => simp only [forwardsApi]; rw [createForward_files]
    | approve id b => exact approveForward_file_keys s actor id b now
    | reject id b => simp only [forwardsApi]; rw [rejectForward_files]
    | update id b => simp only [forwardsApi]; rw [updateForward_files]
    | setStatus id b => simp only [forwardsApi]; rw [updateForwardStatus_files]
    | delete id => simp only [forwardsApi]; rw [deleteForward_files]
    | receive id => exact receiveForward_file_keys s actor id now
    | complete id b => simp only [forwardsApi]; rw [completeForward_files]
  · intro op hop
    cases op with
    | update id b => simp [FileOp.keepsCode] at hop
    | delete id => simp [FileOp.keepsCode] at hop
    | create b =>
      simp only [filesApi]
      rcases createFile_files s actor b now currentYear with h | ⟨-, -, -, h⟩
      · rw [h]
      · rw [h, List.map_append]
        exact List.prefix_append _ _
    | release id b =>
      simp only [filesApi]
      rw [releaseFile_file_keys]

/-- Witness of C22 (amended): the superadmin releases the sample file. -/
theorem C22_witness :
    (FileOp.release 10 demoReleaseBody).keepsCode = true
    ∧ List.IsPrefix (demoRootStore.files.map (fun f => (f._id, f.code)))
        ((filesApi demoRootStore demoRoot 9 2026 (.release 10 demoReleaseBody)).1.files.map
          (fun f => (f._id, f.code))) :=
  ⟨by decide,
   (C22_code_kept_outside_update demoRootStore demoRoot 9 2026).2 (.release 10 demoReleaseBody)
    (by decide)⟩

/-- C23, as stated, fails: the HR admin approves forward 100 and
distributes it to Nobody; the approve succeeds and the file is held by
Nobody, the name of no user of the directory. -/
theorem C23_counterexample_unknown_holder :
    (approveForward demoPending demoAdmin 100 demoNobodyBody 6).2.isSuccess = true
    ∧ (approveForward demoPending demoAdmin 100 demoNobodyBody 6).1.files.map
        (fun f => (f.code, f.department, f.status, f.currentHolder))
        = [("THDC-F-2026-0001", "HR", "Released", some "Nobody")]
    ∧ ∀ u ∈ (approveForward demoPending demoAdmin 100 demoNobodyBody 6).1.users,
        u.name ≠ "Nobody" := by
  decide

/-- C23, amended: after a successful Admin Approve and Distribute the file
found by the forward's code, and after a successful Direct Release the
file of the given id, is held by the non-empty name the request gave
(distributedTo, assignedTo); the routes do not look that name up in the
user directory. -/
theorem C23_holder_is_requested_name (s : Store) (actor : User) (id : Nat) (b : Body)
    (fb : FileBody) (now : Nat) :
    ((approveForward s actor id b now).2.isSuccess = true →
      ∃ forward d, Forward.findById s.forwards id = some forward
        ∧ b.distributedTo = some d ∧ d ≠ ""
        ∧ ∀ file, File.findOneByCode (approveForward s actor id b now).1.files
              forward.fileCode = some file → file.currentHolder = some d)
    ∧ ((releaseFile s actor id fb now).2.isSuccess = true →
      ∃ file a, File.findById (releaseFile s actor id fb now).1.files id = some file
        ∧ fb.assignedTo = some a ∧ a ≠ "" ∧ file.currentHolder = some a
        ∧ file.status = "Released") := by
  constructor
  · exact fun h => approveForward_holder h
  · intro h
    obtain ⟨file, a, -, hba, hne, -, -, -, hafter⟩ := releaseFile_success h
    exact ⟨releaseAssign fb file, a, hafter, hba, hne, by simp [releaseAssign, hba], rfl⟩

/-- Witness of C23 (amended): the approval for Alice and the release to
Bob. -/
theorem C23_witness :
    ((approveForward demoPending demoAdmin 100 demoApproveBody 6).2.isSuccess = true
      ∧ (releaseFile demoRootStore demoRoot 10 demoReleaseBody 9).2.isSuccess = true)
    ∧ (∃ forward d, Forward.findById demoPending.forwards 100 = some forward
        ∧ demoApproveBody.distributedTo = some d ∧ d ≠ ""
        ∧ ∀ file, File.findOneByCode
              (approveForward demoPending demoAdmin 100 demoApproveBody 6).1.files
              forward.fileCode = some file → file.currentHolder = some d)
    ∧ ∃ file a, File.findById (releaseFile demoRootStore demoRoot 10 demoReleaseBody 9).1.files
          10 = some file
        ∧ demoReleaseBody.assignedTo = some a ∧ a ≠ "" ∧ file.currentHolder = some a
        ∧ file.status = "Released" :=
  ⟨⟨by decide, by decide⟩,
   (C23_holder_is_requested_name demoPending demoAdmin 100 demoApproveBody {} 6).1 (by decide),
   (C23_holder_is_requested_name demoRootStore demoRoot 10 {} demoReleaseBody 9).2
    (by decide)⟩

/-- C24, as stated, fails in its department part: Create File accepts the
department Moon Base, which is not one of the fixed department names,
and stores it. -/
theorem C24_counterexample_free_department :
    departments.contains "Moon Base" = false
    ∧ (createFile demoEmpty demoUser demoMoonBody 3 2026).2.isSuccess = true
    ∧ (createFile demoEmpty demoUser demoMoonBody 3 2026).1.files.map
        (fun f => (f.code, f.department, f.priority))
        = [("THDC-F-2026-0001", "Moon Base", "Normal")] := by
  decide

/-- C24, amended: Create File answers with a validation error (400) and
returns the store as it was for every body whose priority is not one of
Normal, Urgent, Important and Critical or whose department is missing or
empty; a successful Create File appends one file whose priority, status
and type are enum values and whose department is the non-empty text of
the body, which is not compared with the fixed department names. -/
theorem C24_create_file_validation (s : Store) (actor : User) (b : FileBody)
    (now currentYear : Nat) :
    (((∀ p ∈ priorities, b.priority ≠ some p) ∨ b.department = none ∨ b.department = some "") →
      (createFile s actor b now currentYear).1 = s
      ∧ (createFile s actor b now currentYear).2 = .invalid (createFileErrors b)
      ∧ (createFile s actor b now currentYear).2.status = 400)
    ∧ ((createFile s actor b now currentYear).2.isSuccess = true →
      ∃ doc, (createFile s actor b now currentYear).1.files = s.files ++ [doc]
        ∧ doc.priority ∈ priorities ∧ doc.status ∈ fileStatuses
        ∧ doc.type ∈ ["Physical", "Digital"]
        ∧ doc.department ≠ "" ∧ b.department = some doc.department) := by
  constructor
  · intro hbad
    have herr : createFileErrors b ≠ [] := by
      intro hnil
      obtain ⟨-, hdept, hprio, -⟩ := (createFileErrors_eq_nil b).1 hnil
      rcases hbad with hp | hd | hd
      · cases hb : b.priority with
        | none => rw [hb] at hprio; exact absurd hprio (by decide)
        | some p =>
          rw [hb] at hprio
          exact hp p (by simpa using hprio) hb
      · rw [hd] at hdept; exact absurd hdept (by decide)
      · rw [hd] at hdept; exact absurd hdept (by decide)
    unfold createFile
    rw [if_pos herr]
    exact ⟨rfl, rfl, rfl⟩
  · intro h
    obtain ⟨hval, -, hfiles⟩ := createFile_success h
    obtain ⟨-, hdept, hprio, -⟩ := (createFileErrors_eq_nil b).1 hval
    refine ⟨createFileDoc s actor b now currentYear, hfiles, ?_,
      (by decide : "Created" ∈ fileStatuses), ?_, ?_, ?_⟩
    · cases hb : b.priority with
      | none => rw [hb] at hprio; exact absurd hprio (by decide)
      | some p =>
        rw [hb] at hprio
        simpa [createFileDoc, hb] using hprio
    · simp only [createFileDoc]
      split <;> simp
    · cases hb : b.department with
      | none => rw [hb] at hdept; exact absurd hdept (by decide)
      | some d => simpa [createFileDoc, hb, notEmpty] using hdept
    · cases hb : b.department with
      | none => rw [hb] at hdept; exact absurd hdept (by decide)
      | some d => simp [createFileDoc, hb]

/-- Witness of C24 (amended): a body with the priority Low is refused. -/
theorem C24_witness :
    (∀ p ∈ priorities, ({ demoFileBody with priority := some "Low" } : FileBody).priority
        ≠ some p)
    ∧ (createFile demoEmpty demoUser { demoFileBody with priority := some "Low" } 3 2026).1
        = demoEmpty
    ∧ (createFile demoEmpty demoUser { demoFileBody with priority := some "Low" } 3 2026).2
        = .invalid (createFileErrors { demoFileBody with priority := some "Low" })
    ∧ (createFile demoEmpty demoUser { demoFileBody with priority := some "Low" } 3
        2026).2.status = 400 :=
  ⟨by decide,
   (C24_create_file_validation demoEmpty demoUser { demoFileBody with priority := some "Low" } 3
      2026).1 (Or.inl (by decide))⟩

/-- C25 fails on the code in its type part: the validator `isBoolean()`
lets the string false through, and the route takes the type from the
truthiness of `req.body.isDigital`, so a Create File whose isDigital is
the string false succeeds and stores type Digital (with status Created
and holder, creator and requisitioner the actor, as claimed); the
boolean false gives Physical. -/
theorem C25_string_false_stored_as_digital :
    isBooleanValue demoStringFalseBody.isDigital = true
    ∧ (createFile demoEmpty demoUser demoStringFalseBody 3 2026).2.isSuccess = true
    ∧ (createFile demoEmpty demoUser demoStringFalseBody 3 2026).1.files.map
        (fun f => (f.code, f.status, f.currentHolder, f.createdBy, f.requisitioner, f.type))
        = [("THDC-F-2026-0001", "Created", some "Uma", "Uma", some "Uma", "Digital")]
    ∧ (createFile demoEmpty demoUser demoFileBody 3 2026).1.files.map (fun f => f.type)
        = ["Physical"] := by
  decide

/-- C26, as stated, fails: with the 9999 codes of the year stored, Create
File succeeds and assigns the code THDC-F-2026-10000, whose sequence has
five digits. -/
theorem C26_counterexample_five_digits :
    File.countYear demoFullYear.files 2026 = 9999
    ∧ (createFile demoFullYear demoUser demoFileBody 3 2026).2.isSuccess = true
    ∧ (createFile demoFullYear demoUser demoFileBody 3 2026).2.data.map (fun f => f.code)
        = some "THDC-F-2026-10000" := by
  refine ⟨demoFullYear_count, ?_, ?_⟩
  · rw [demoFullYear_create]
    rfl
  · rw [demoFullYear_create]
    exact congrArg some demoFullYear_doc_code

/-- C26, amended: a successful Create File appends one file, the one it
answers with, whose code is the text THDC-F-, the year, a hyphen and the
sequence, where the sequence is n + 1 in decimal (n the number of stored
codes containing THDC-F-year) with zeros put before it up to four
characters: its length is the greater of 4 and the number of digits of
n + 1, hence exactly four while n + 1 is below 10000. -/
theorem C26_code_is_padded_count (s : Store) (actor : User) (b : FileBody)
    (now currentYear : Nat) (h : (createFile s actor b now currentYear).2.isSuccess = true) :
    ∃ doc, (createFile s actor b now currentYear).2.data = some doc
      ∧ (createFile s actor b now currentYear).1.files = s.files ++ [doc]
      ∧ doc.code = "THDC-F-" ++ toString currentYear ++ "-"
          ++ (String.mk (List.replicate
                (4 - (toString (File.countYear s.files currentYear + 1)).length) '0')
              ++ toString (File.countYear s.files currentYear + 1))
      ∧ (String.mk (List.replicate
                (4 - (toString (File.countYear s.files currentYear + 1)).length) '0')
              ++ toString (File.countYear s.files currentYear + 1)).length
          = max 4 (toString (File.countYear s.files currentYear + 1)).length
      ∧ (File.countYear s.files currentYear + 1 < 10000 →
          (String.mk (List.replicate
                (4 - (toString (File.countYear s.files currentYear + 1)).length) '0')
              ++ toString (File.countYear s.files currentYear + 1)).length = 4) := by
  obtain ⟨-, hdata, hfiles⟩ := createFile_success h
  have hlen := padStart_length (toString (File.countYear s.files currentYear + 1)) 4 '0'
  unfold padStart at hlen
  refine ⟨createFileDoc s actor b now currentYear, hdata, hfiles, rfl, ?_, ?_⟩
  · rw [hlen]
    omega
  · intro hlt
    have hdigits : (toString (File.countYear s.files currentYear + 1)).length ≤ 4 :=
      Nat.repr_length _ 4 (by decide) (by omega)
    rw [hlen]
    omega

/-- Witness of C26 (amended): the first file of the year gets 0001. -/
theorem C26_witness :
    (createFile demoEmpty demoUser demoFileBody 3 2026).2.isSuccess = true
    ∧ ∃ doc, (createFile demoEmpty demoUser demoFileBody 3 2026).2.data = some doc
      ∧ (createFile demoEmpty demoUser demoFileBody 3 2026).1.files = demoEmpty.files ++ [doc]
      ∧ doc.code = "THDC-F-" ++ toString 2026 ++ "-"
          ++ (String.mk (List.replicate
                (4 - (toString (File.countYear demoEmpty.files 2026 + 1)).length) '0')
              ++ toString (File.countYear demoEmpty.files 2026 + 1))
      ∧ (String.mk (List.replicate
                (4 - (toString (File.countYear demoEmpty.files 2026 + 1)).length) '0')
              ++ toString (File.countYear demoEmpty.files 2026 + 1)).length
          = max 4 (toString (File.countYear demoEmpty.files 2026 + 1)).length
      ∧ (File.countYear demoEmpty.files 2026 + 1 < 10000 →
          (String.mk (List.replicate
                (4 - (toString (File.countYear demoEmpty.files 2026 + 1)).length) '0')
              ++ toString (File.countYear demoEmpty.files 2026 + 1)).length = 4) :=
  ⟨by decide, C26_code_is_padded_count demoEmpty demoUser demoFileBody 3 2026 (by decide)⟩

/-- C27: the listing changes nothing and answers with the stored files, in
store order, that meet every filter the caller supplied, the search
predicate when a term is given, and the role predicate of the actor
(whose assignee clause no stored file meets, `fileSchema` having no such
path); a listing with a search term is contained in the listing without
it, and each of its files meets the role predicate. -/
theorem C27_listing_is_filters_and_role (matchesI : String → String → Bool) (s : Store)
    (actor : User) (q : FileQuery) :
    (listFiles matchesI s actor q).1 = s
    ∧ (listFiles matchesI s actor q).2.data
        = some (s.files.filter (fun f =>
            callerPredicate q f && searchPredicate matchesI q f && rolePredicate actor f))
    ∧ (∀ f : File, f.get "assignedTo" = none)
    ∧ ∀ l l0, (listFiles matchesI s actor q).2.data = some l →
        (listFiles matchesI s actor { q with search := none }).2.data = some l0 →
        ∀ f ∈ l, f ∈ l0 ∧ rolePredicate actor f = true := by
  have hdata : ∀ q', (listFiles matchesI s actor q').2.data
      = some (s.files.filter (fun f =>
          callerPredicate q' f && searchPredicate matchesI q' f && rolePredicate actor f)) := by
    intro q'
    unfold listFiles
    simp only [Response.data]
    congr 1
    exact List.filter_congr (fun f _ => holds_scopeFilter matchesI q' actor f)
  refine ⟨rfl, hdata q, fun _ => rfl, ?_⟩
  intro l l0 hl hl0 f hf
  rw [hdata q] at hl
  rw [hdata { q with search := none }] at hl0
  cases hl
  cases hl0
  simp only [List.mem_filter, Bool.and_eq_true] at hf ⊢
  obtain ⟨hmem, ⟨hcaller, -⟩, hrole⟩ := hf
  exact ⟨⟨hmem, ⟨hcaller, rfl⟩, hrole⟩, hrole⟩

/-- Witness of C27: Bob, a plain user holding nothing, searches the sample
store and gets no file, although the file matches the search. -/
theorem C27_witness :
    (listFiles (fun _ _ => true) demoStore demoBob demoSearchQuery).2.data = some []
    ∧ ∀ f ∈ ([] : List File),
        f ∈ demoStore.files.filter (fun f =>
            callerPredicate { demoSearchQuery with search := none } f
              && searchPredicate (fun _ _ => true) { demoSearchQuery with search := none } f
              && rolePredicate demoBob f)
          ∧ rolePredicate demoBob f = true :=
  ⟨by decide,
   (C27_listing_is_filters_and_role (fun _ _ => true) demoStore demoBob demoSearchQuery).2.2.2
    [] _ (by decide)
    (C27_listing_is_filters_and_role (fun _ _ => true) demoStore demoBob
      { demoSearchQuery with search := none }).2.1⟩

/-- C28: for a forward whose status is Completed or Rejected, Admin
Approve and Distribute and Admin Reject asked by an actor who passes the
department check, and Employee Receive and Employee Complete asked by the
distributee, answer 400 and return the store as it was; with a valid
body the answer is the state-conflict error of the route. -/
theorem C28_completed_and_rejected_are_terminal (s : Store) (actor : User) (id : Nat)
    (b : Body) (now : Nat) (forward : Forward)
    (hf : Forward.findById s.forwards id = some forward)
    (hterm : forward.status = "Completed" ∨ forward.status = "Rejected") :
    ((actor.role = "superadmin"
        ∨ (actor.role = "admin" ∧ actor.department = forward.recipientDepartment)) →
      ((approveForward s actor id b now).1 = s
        ∧ (approveForward s actor id b now).2.status = 400
        ∧ (notEmpty b.distributedTo = true → (approveForward s actor id b now).2
            = .failure 400 "Forward is not pending admin review"))
      ∧ (rejectForward s actor id b now).1 = s
        ∧ (rejectForward s actor id b now).2.status = 400
        ∧ (notEmpty b.rejectionReason = true → (rejectForward s actor id b now).2
            = .failure 400 "Forward is not pending admin review"))
    ∧ (forward.distributedTo = some actor.name →
      receiveForward s actor id now = (s, .failure 400 "File is not ready to be received")
      ∧ completeForward s actor id b now
          = (s, .failure 400 "File must be received before it can be completed")) := by
  have hpending : forward.status ≠ "Pending Admin Review" := by
    rcases hterm with h | h <;> rw [h] <;> decide
  have hdistributed : forward.status ≠ "Distributed to Employee" := by
    rcases hterm with h | h <;> rw [h] <;> decide
  have hreceived : forward.status ≠ "Received" := by
    rcases hterm with h | h <;> rw [h] <;> decide
  constructor
  · intro hauth
    have hadmit := (notDepartmentAdmin_eq_false actor forward.recipientDepartment).2 hauth
    have happrove : ∀ hb : notEmpty b.distributedTo = true, approveForward s actor id b now
        = (s, .failure 400 "Forward is not pending admin review") := by
      intro hb
      unfold approveForward
      simp [check, hb, hf, hadmit, hpending]
    have hreject : ∀ hb : notEmpty b.rejectionReason = true, rejectForward s actor id b now
        = (s, .failure 400 "Forward is not pending admin review") := by
      intro hb
      unfold rejectForward
      simp [check, hb, hf, hadmit, hpending]
    refine ⟨⟨?_, ?_, fun hb => by rw [happrove hb]⟩, ?_, ?_, fun hb => by rw [hreject hb]⟩
    · cases hb : notEmpty b.distributedTo with
      | true => rw [happrove hb]
      | false => unfold approveForward; simp [check, hb]
    · cases hb : notEmpty b.distributedTo with
      | true => rw [happrove hb]; rfl
      | false => unfold approveForward; simp [check, hb, Response.status]
    · cases hb : notEmpty b.rejectionReason with
      | true => rw [hreject hb]
      | false => unfold rejectForward; simp [check, hb]
    · cases hb : notEmpty b.rejectionReason with
      | true => rw [hreject hb]; rfl
      | false => unfold rejectForward; simp [check, hb, Response.status]
  · intro hd
    constructor
    · unfold receiveForward
      simp [hf, hd, hdistributed]
    · unfold completeForward
      simp [hf, hd, hreceived]

/-- Witness of C28: the sample forward once rejected; the HR admin asks to
approve it again. -/
theorem C28_witness :
    (Forward.findById (rejectForward demoPending demoAdmin 100 demoAdminBody 6).1.forwards 100
        = some ((rejectForward demoPending demoAdmin 100 demoAdminBody 6).1.forwards.head
            (by decide))
      ∧ ((rejectForward demoPending demoAdmin 100 demoAdminBody 6).1.forwards.head
            (by decide)).status = "Rejected")
    ∧ (approveForward (rejectForward demoPending demoAdmin 100 demoAdminBody 6).1 demoAdmin 100
        demoAdminBody 8).1 = (rejectForward demoPending demoAdmin 100 demoAdminBody 6).1
    ∧ (approveForward (rejectForward demoPending demoAdmin 100 demoAdminBody 6).1 demoAdmin 100
        demoAdminBody 8).2.status = 400 :=
  ⟨⟨by decide, by decide⟩,
   ((C28_completed_and_rejected_are_terminal
      (rejectForward demoPending demoAdmin 100 demoAdminBody 6).1 demoAdmin 100 demoAdminBody 8
      ((rejectForward demoPending demoAdmin 100 demoAdminBody 6).1.forwards.head (by decide))
      (by decide) (Or.inr (by decide))).1 (Or.inr (by decide))).1.1,
   ((C28_completed_and_rejected_are_terminal
      (rejectForward demoPending demoAdmin 100 demoAdminBody 6).1 demoAdmin 100 demoAdminBody 8
      ((rejectForward demoPending demoAdmin 100 demoAdminBody 6).1.forwards.head (by decide))
      (by decide) (Or.inr (by decide))).1 (Or.inr (by decide))).1.2.1⟩

/-- C29: on every authenticated user and department the middleware
`canAccessDepartment` either hands the request on or denies it with 403;
it hands it on exactly when the single predicate holds, that is when the
role is superadmin or the user's department is the requested one; when it
denies, the admin branch and the user branch differ only in the message. -/
theorem C29_three_branches_are_one_predicate (u : User) (department : String) :
    (canAccessDepartment (some u) department = .next
      ↔ canAccessDepartmentSpec u department = true)
    ∧ (canAccessDepartmentSpec u department = true
      ↔ u.role = "superadmin" ∨ u.department = department)
    ∧ (canAccessDepartmentSpec u department = false →
      canAccessDepartment (some u) department
        = .deny 403 (if u.role = "admin" then "Admin is not authorized to access this department"
            else "Not authorized to access this department")) := by
  unfold canAccessDepartment canAccessDepartmentSpec
  by_cases hs : u.role = "superadmin"
  · simp [hs]
  · by_cases ha : u.role = "admin"
    · by_cases hd : u.department = department <;> simp [hs, ha, hd]
    · by_cases hd : u.department = department <;> simp [hs, ha, hd]

/-- Witness of C29: Alice of HR asks for IT and is denied with the message
of the user branch; Hari, the HR admin, is denied with the message of the
admin branch. -/
theorem C29_witness :
    (canAccessDepartmentSpec demoAlice "IT" = false ∧ canAccessDepartmentSpec demoAdmin "IT" = false)
    ∧ canAccessDepartment (some demoAlice) "IT"
        = .deny 403 "Not authorized to access this department"
    ∧ canAccessDepartment (some demoAdmin) "IT"
        = .deny 403 "Admin is not authorized to access this department" :=
  ⟨⟨by decide, by decide⟩,
   (C29_three_branches_are_one_predicate demoAlice "IT").2.2 (by decide),
   (C29_three_branches_are_one_predicate demoAdmin "IT").2.2 (by decide)⟩

/-- C30: for an actor who may see the department, the statistics route
returns the store as it was and counts computed from the forwards of the
department alone; the six listed counts add up to at most
`totalForwards`, and when every stored status lies in the status enum of
the Forward schema they add up to exactly `totalForwards` if and only if
no forward of the department is `In Transit`. -/
theorem C30_six_counts_at_most_total (s : Store) (actor : User) (department : String)
    (now weekAgo : Nat) (hauth : notDepartmentAdmin actor department = false) :
    ∃ st : ForwardStats,
      forwardStats s actor department now weekAgo = (s, .success 200 (some st) none)
      ∧ st.totalForwards
          = (s.forwards.filter (fun f => f.recipientDepartment == department)).length
      ∧ st.pendingAdminReview + st.adminApproved + st.distributedToEmployee + st.received
          + st.completed + st.rejected ≤ st.totalForwards
      ∧ ((∀ f ∈ s.forwards, f.status ∈ forwardStatuses) →
          (st.pendingAdminReview + st.adminApproved + st.distributedToEmployee + st.received
              + st.completed + st.rejected = st.totalForwards
            ↔ ∀ f ∈ s.forwards, f.recipientDepartment = department →
                f.status ≠ "In Transit")) := by
  unfold forwardStats
  rw [hauth]
  refine ⟨_, rfl, rfl, ?_, ?_⟩
  · have hp := countStatus_partition
      (s.forwards.filter (fun f => f.recipientDepartment == department))
    simp only
    omega
  · intro henum
    have hp := countStatus_partition
      (s.forwards.filter (fun f => f.recipientDepartment == department))
    have hother : ((s.forwards.filter (fun f => f.recipientDepartment == department)).filter
        (fun f => !forwardStatuses.contains f.status)).length = 0 := by
      rw [List.length_eq_zero, List.filter_eq_nil_iff]
      intro f hf
      have hmem := henum f (List.mem_of_mem_filter hf)
      simp [hmem]
    have htransit : countStatus
        (s.forwards.filter (fun f => f.recipientDepartment == department)) "In Transit" = 0
        ↔ ∀ f ∈ s.forwards, f.recipientDepartment = department → f.status ≠ "In Transit" := by
      unfold countStatus
      rw [List.length_eq_zero, List.filter_eq_nil_iff]
      simp only [List.mem_filter, beq_iff_eq, and_imp]
    simp only
    rw [← htransit]
    omega

/-- Witness of C30: the HR admin reads the statistics of HR over the store
with one pending forward. -/
theorem C30_witness :
    notDepartmentAdmin demoAdmin "HR" = false
    ∧ ∃ st : ForwardStats,
      forwardStats demoPending demoAdmin "HR" 9 2 = (demoPending, .success 200 (some st) none)
      ∧ st.totalForwards
          = (demoPending.forwards.filter (fun f => f.recipientDepartment == "HR")).length
      ∧ st.pendingAdminReview + st.adminApproved + st.distributedToEmployee + st.received
          + st.completed + st.rejected ≤ st.totalForwards
      ∧ ((∀ f ∈ demoPending.forwards, f.status ∈ forwardStatuses) →
          (st.pendingAdminReview + st.adminApproved + st.distributedToEmployee + st.received
              + st.completed + st.rejected = st.totalForwards
            ↔ ∀ f ∈ demoPending.forwards, f.recipientDepartment = "HR" →
                f.status ≠ "In Transit")) :=
  ⟨by decide, C30_six_counts_at_most_total demoPending demoAdmin "HR" 9 2 (by decide)⟩


end FileTracker
